import Mathlib

/-!
# RAM-backed NAND-flash emulator (`dev_ramssd.c`)

A shallow embedding of the device layer of the driver: geometry and address
computation, the page engine (read / program / erase) with its shadow copy
used for data checks, the parallel-unit table, the completion scan and the
public submit entry `dev_ramssd_send_cmd`.

Conventions of the embedding.

* `uint64_t` arithmetic is arithmetic on `Nat` reduced modulo `2 ^ 64`,
  `uint32_t` modulo `2 ^ 32`; `int64_t` values are `Int`.
* A memory region reached through a pointer is a function from byte offset
  (relative to the pointer) to byte value.  The backing store is the region
  behind `ptr_ssdram`, the shadow the region behind `__ptr_ramssd_data`.
* Constants that come from headers which are not among the sources
  (`KERNEL_PAGE_SIZE`, `KPAGE_SIZE`, the `KP_STT_*` values, the build mode)
  are collected in `platform_t` and passed as a parameter.
-/

namespace RamSSD

/-- Modulus of `uint64_t` arithmetic. -/
def U64 : Nat := 2 ^ 64

/-- Modulus of `uint32_t` arithmetic. -/
def U32 : Nat := 2 ^ 32

/-- Constants of the headers that the device file includes but which are not
part of the sources: the page-cache granularity `KERNEL_PAGE_SIZE`, the shadow
granularity `KPAGE_SIZE`, the sub-page flag values `KP_STT_DATA` and
`KP_STT_DONE`, and whether the file is built with `KERNEL_MODE`. -/
structure platform_t where
  KERNEL_PAGE_SIZE : Nat
  KPAGE_SIZE : Nat
  KP_STT_DATA : Nat
  KP_STT_DONE : Nat
  KERNEL_MODE : Bool

/-- Emulation modes (`device_type`); `DEVICE_TYPE_OTHER` stands for every
value that is none of the four modes the device file names. -/
inductive device_type_t where
  | DEVICE_TYPE_RAMDRIVE
  | DEVICE_TYPE_USER_RAMDRIVE
  | DEVICE_TYPE_RAMDRIVE_INTR
  | DEVICE_TYPE_RAMDRIVE_TIMING
  | DEVICE_TYPE_OTHER (code : Nat)
  deriving DecidableEq, Repr

/-- Request types; `REQTYPE_OTHER` stands for every value that is none of the
types the device file names. -/
inductive req_type_t where
  | REQTYPE_READ
  | REQTYPE_WRITE
  | REQTYPE_GC_READ
  | REQTYPE_GC_WRITE
  | REQTYPE_META_READ
  | REQTYPE_META_WRITE
  | REQTYPE_RMW_READ
  | REQTYPE_RMW_WRITE
  | REQTYPE_GC_ERASE
  | REQTYPE_READ_DUMMY
  | REQTYPE_TRIM
  | REQTYPE_OTHER (code : Nat)
  deriving DecidableEq, Repr

/-- The fields of `bdbm_device_params_t` that the device file reads.  The
sizes and counts are `uint64_t` values; the three times are the values the
code reads into the `int64_t` variable `target_elapsed_time_us`. -/
structure bdbm_device_params_t where
  nr_channels : Nat
  nr_chips_per_channel : Nat
  nr_blocks_per_chip : Nat
  nr_pages_per_block : Nat
  nr_subpages_per_block : Nat
  page_main_size : Nat
  page_oob_size : Nat
  device_type : device_type_t
  page_prog_time_us : Int
  page_read_time_us : Int
  block_erase_time_us : Int

/-- Modelled from the spec: the geometry helper `page_size()` of the absent
header `dev_ramssd.h`, the bytes of one page, main area plus OOB. -/
def dev_ramssd_get_page_size (np : bdbm_device_params_t) : Nat :=
  (np.page_main_size + np.page_oob_size) % U64

/-- Modelled from the spec: the geometry helper `block_size()` of the absent
header `dev_ramssd.h`, the bytes of the pages of one block. -/
def dev_ramssd_get_block_size (np : bdbm_device_params_t) : Nat :=
  (dev_ramssd_get_page_size np * np.nr_pages_per_block) % U64

/-- Modelled from the spec: the geometry helper `chip_size()` of the absent
header `dev_ramssd.h`, the bytes of the blocks of one chip. -/
def dev_ramssd_get_chip_size (np : bdbm_device_params_t) : Nat :=
  (dev_ramssd_get_block_size np * np.nr_blocks_per_chip) % U64

/-- Modelled from the spec: the geometry helper `channel_size()` of the absent
header `dev_ramssd.h`, the bytes of the chips of one channel. -/
def dev_ramssd_get_channel_size (np : bdbm_device_params_t) : Nat :=
  (dev_ramssd_get_chip_size np * np.nr_chips_per_channel) % U64

/-- Modelled from the spec: the geometry helper `ssd_size()` of the absent
header `dev_ramssd.h`, the bytes of all channels. -/
def dev_ramssd_get_ssd_size (np : bdbm_device_params_t) : Nat :=
  (dev_ramssd_get_channel_size np * np.nr_channels) % U64

/-- Modelled from the spec: the geometry helper `chips_per_ssd()` of the
absent header `dev_ramssd.h`, the number of parallel units, one per
(channel, chip). -/
def dev_ramssd_get_chips_per_ssd (np : bdbm_device_params_t) : Nat :=
  (np.nr_channels * np.nr_chips_per_channel) % U64

/-- Byte offset of a page in the backing store, as `__ramssd_page_addr`
accumulates it in the `uint64_t` variable `ramssd_addr`. -/
def page_offset (np : bdbm_device_params_t)
    (channel_no chip_no block_no page_no : Nat) : Nat :=
  let ramssd_addr := 0
  let ramssd_addr := (ramssd_addr + (dev_ramssd_get_channel_size np * channel_no) % U64) % U64
  let ramssd_addr := (ramssd_addr + (dev_ramssd_get_chip_size np * chip_no) % U64) % U64
  let ramssd_addr := (ramssd_addr + (dev_ramssd_get_block_size np * block_no) % U64) % U64
  let ramssd_addr := (ramssd_addr + (dev_ramssd_get_page_size np * page_no) % U64) % U64
  ramssd_addr

/-- Byte offset of a block in the backing store, as `__ramssd_block_addr`
accumulates it. -/
def block_offset (np : bdbm_device_params_t)
    (channel_no chip_no block_no : Nat) : Nat :=
  let ramssd_addr := 0
  let ramssd_addr := (ramssd_addr + (dev_ramssd_get_channel_size np * channel_no) % U64) % U64
  let ramssd_addr := (ramssd_addr + (dev_ramssd_get_chip_size np * chip_no) % U64) % U64
  let ramssd_addr := (ramssd_addr + (dev_ramssd_get_block_size np * block_no) % U64) % U64
  ramssd_addr

/-- The function `__ramssd_page_addr`: the pointer `ptr_ssdram + ramssd_addr`,
given as its offset from `ptr_ssdram`.  The result is `none` for a NULL
pointer; a pointer into the allocated store is never NULL, so the function
always answers `some`. -/
def __ramssd_page_addr (np : bdbm_device_params_t)
    (channel_no chip_no block_no page_no : Nat) : Option Nat :=
  some (page_offset np channel_no chip_no block_no page_no)

/-- The function `__ramssd_block_addr`, as an offset from `ptr_ssdram`. -/
def __ramssd_block_addr (np : bdbm_device_params_t)
    (channel_no chip_no block_no : Nat) : Option Nat :=
  some (block_offset np channel_no chip_no block_no)

/-- The size `ssd_size_in_bytes` that `__ramssd_alloc_ssdram` computes and
allocates, in `uint64_t` arithmetic. -/
def ssd_size_in_bytes (np : bdbm_device_params_t) : Nat :=
  let page_size_in_bytes := (np.page_main_size + np.page_oob_size) % U64
  let nr_pages_in_ssd :=
    (((np.nr_channels * np.nr_chips_per_channel) % U64
      * np.nr_blocks_per_chip) % U64 * np.nr_pages_per_block) % U64
  (nr_pages_in_ssd * page_size_in_bytes) % U64

/-! ## Memory regions and the page engine -/

/-- The call `bdbm_memcpy (dst + doff, src + soff, n)`: the region `dst` with
the `n` bytes from offset `doff` on replaced by the `n` bytes of `src` from
offset `soff` on. -/
def bdbm_memcpy (dst : Nat → Nat) (doff : Nat) (src : Nat → Nat) (soff n : Nat) :
    Nat → Nat :=
  fun a => if doff ≤ a ∧ a < doff + n then src (soff + (a - doff)) else dst a

/-- The call `bdbm_memset (dst, c, n)`. -/
def bdbm_memset (dst : Nat → Nat) (c n : Nat) : Nat → Nat :=
  fun a => if a < n then c else dst a

/-- The test `memcmp (a + aoff, b + boff, n) != 0`. -/
def memcmp_ne (a : Nat → Nat) (aoff : Nat) (b : Nat → Nat) (boff n : Nat) : Bool :=
  !(decide (∀ j, j < n → a (aoff + j) = b (boff + j)))

/-- A C loop `for (loop = 0; loop < n; loop++) body`, on the state the body
updates: the body runs for `loop = 0`, then `1`, up to `n - 1`. -/
def for_loop {σ : Type} (n : Nat) (body : Nat → σ → σ) (s : σ) : σ :=
  match n with
  | 0 => s
  | k + 1 => body k (for_loop k body s)

/-- The 64-bit word `((uint64_t*)ptr_oob_data)[i]` of a byte buffer, bytes
in little-endian order. -/
def oob_u64 (ptr_oob_data : Nat → Nat) (i : Nat) : Nat :=
  (List.range 8).foldr (fun k acc => ptr_oob_data (8 * i + k) % 256 + 256 * acc) 0

/-- The value of a 64-bit word read as `int64_t`. -/
def to_int64 (v : Nat) : Int :=
  if v % U64 < 2 ^ 63 then ((v % U64 : Nat) : Int) else ((v % U64 : Nat) : Int) - (U64 : Int)

/-- The test `lpa < 0 || lpa == 0xffffffffffffffff` on a variable `lpa` of
type `int64_t` that holds the 64-bit word `v`. -/
def lpa_invalid_i64 (v : Nat) : Bool :=
  decide (to_int64 v < 0) || decide (v % U64 = 0xffffffffffffffff)

/-- The same test on a variable `lpa` of type `uint64_t`: the comparison
`lpa < 0` is between unsigned values and never holds. -/
def lpa_invalid_u64 (v : Nat) : Bool :=
  decide (v % U64 < 0) || decide (v % U64 = 0xffffffffffffffff)

/-- The function `__get_ramssd_data_addr`, as an offset from the shadow
pointer `__ptr_ramssd_data`. -/
def __get_ramssd_data_addr (pf : platform_t) (np : bdbm_device_params_t) (lpa : Nat) : Nat :=
  if np.nr_subpages_per_block = np.nr_pages_per_block then
    (np.page_main_size * lpa) % U64
  else
    (pf.KPAGE_SIZE * lpa) % U64

/-- The number `nr_kpages` of sub-pages, a `uint32_t`. -/
def nr_kpages (pf : platform_t) (np : bdbm_device_params_t) : Nat :=
  (np.page_main_size / pf.KERNEL_PAGE_SIZE) % U32

/-- Whether the read loop skips sub-page `loop`: the three `continue` tests
at the head of the copy loop of `__ramssd_read_page` (the third one is
compiled in by `DATA_CHECK`). -/
def read_skips (pf : platform_t) (kpg_flags : Nat → Nat) (partial_ : Nat) (loop : Nat) : Bool :=
  if partial_ = 1 ∧ kpg_flags loop = pf.KP_STT_DATA then true
  else if kpg_flags loop &&& pf.KP_STT_DONE = pf.KP_STT_DONE then true
  else if partial_ = 0 ∧ kpg_flags loop ≠ pf.KP_STT_DATA then true
  else false

/-- What a call of `__ramssd_read_page` leaves behind: the return value, the
caller's main buffers `ptr_page_data[i]`, the caller's OOB buffer, and the
`[DATA CORRUPTION]` messages as pairs (lpa, sub-page). -/
structure read_result_t where
  ret : Nat
  ptr_page_data : Nat → Nat → Nat
  ptr_oob_data : Nat → Nat
  corruption : List (Nat × Nat)

/-- The function `__ramssd_read_page`.  The pointers `kpg_flags`,
`ptr_page_data` and `ptr_oob_data` are taken non-NULL (the data-check loop
reads through them without a test), so the test `ptr_oob_data != NULL` of the
OOB copy holds. -/
def __ramssd_read_page (pf : platform_t) (np : bdbm_device_params_t)
    (ptr_ssdram ptr_ramssd_data : Nat → Nat)
    (channel_no chip_no block_no page_no : Nat)
    (kpg_flags : Nat → Nat) (ptr_page_data : Nat → Nat → Nat) (ptr_oob_data : Nat → Nat)
    (oob partial_ : Nat) : read_result_t :=
  match __ramssd_page_addr np channel_no chip_no block_no page_no with
  | none => ⟨1, ptr_page_data, ptr_oob_data, []⟩
  | some ptr_ramssd_addr =>
    if np.page_main_size % pf.KERNEL_PAGE_SIZE ≠ 0 then
      ⟨1, ptr_page_data, ptr_oob_data, []⟩
    else
      -- copy the main page data to a buffer
      let page_data := for_loop (nr_kpages pf np) (fun loop bufs =>
        if read_skips pf kpg_flags partial_ loop then bufs
        else Function.update bufs loop
          (bdbm_memcpy (bufs loop) 0 ptr_ssdram
            (ptr_ramssd_addr + pf.KERNEL_PAGE_SIZE * loop) pf.KERNEL_PAGE_SIZE))
        ptr_page_data
      -- copy the OOB data to a buffer
      let oob_data :=
        if partial_ = 0 ∧ oob ≠ 0 then
          bdbm_memcpy ptr_oob_data 0 ptr_ssdram
            (ptr_ramssd_addr + np.page_main_size) np.page_oob_size
        else ptr_oob_data
      -- DATA_CHECK: compare what was read with the shadow
      let corruption := for_loop (nr_kpages pf np) (fun loop msgs =>
        let lpa :=
          if np.nr_subpages_per_block = np.nr_pages_per_block then oob_u64 oob_data 0
          else oob_u64 oob_data loop
        if lpa_invalid_u64 lpa then msgs
        else if read_skips pf kpg_flags partial_ loop then msgs
        else
          let ptr_data_org := __get_ramssd_data_addr pf np lpa
          if np.nr_subpages_per_block = np.nr_pages_per_block then
            if memcmp_ne (page_data loop) 0 ptr_ramssd_data
                (ptr_data_org + loop * pf.KPAGE_SIZE) pf.KPAGE_SIZE
            then msgs ++ [(lpa, loop)] else msgs
          else
            if memcmp_ne (page_data loop) 0 ptr_ramssd_data ptr_data_org pf.KPAGE_SIZE
            then msgs ++ [(lpa, loop)] else msgs)
        []
      ⟨0, page_data, oob_data, corruption⟩

/-- Whether the program loop skips sub-page `loop`: the two `continue` tests
at the head of the copy loop of `__ramssd_prog_page`, the first on the lpa of
the sub-page in the OOB buffer (subpage-mode only, `lpa` an `int64_t`), the
second on the flag (compiled in by `DATA_CHECK`). -/
def prog_skips (pf : platform_t) (np : bdbm_device_params_t) (kpg_flags : Nat → Nat)
    (ptr_oob_data : Nat → Nat) (loop : Nat) : Bool :=
  if np.nr_subpages_per_block ≠ np.nr_pages_per_block
      ∧ lpa_invalid_i64 (oob_u64 ptr_oob_data loop) = true then true
  else if kpg_flags loop ≠ pf.KP_STT_DATA then true
  else false

/-- What a call of `__ramssd_prog_page` leaves behind: the return value, the
backing store and the shadow. -/
structure prog_result_t where
  ret : Nat
  ptr_ssdram : Nat → Nat
  ptr_ramssd_data : Nat → Nat

/-- The function `__ramssd_prog_page`, with `kpg_flags`, `ptr_page_data` and
`ptr_oob_data` non-NULL as in `__ramssd_read_page`. -/
def __ramssd_prog_page (pf : platform_t) (np : bdbm_device_params_t)
    (ptr_ssdram ptr_ramssd_data : Nat → Nat)
    (channel_no chip_no block_no page_no : Nat)
    (kpg_flags : Nat → Nat) (ptr_page_data : Nat → Nat → Nat) (ptr_oob_data : Nat → Nat)
    (oob : Nat) : prog_result_t :=
  match __ramssd_page_addr np channel_no chip_no block_no page_no with
  | none => ⟨1, ptr_ssdram, ptr_ramssd_data⟩
  | some ptr_ramssd_addr =>
    if np.page_main_size % pf.KERNEL_PAGE_SIZE ≠ 0 then
      ⟨1, ptr_ssdram, ptr_ramssd_data⟩
    else
      -- copy the main page data to the store
      let ssdram := for_loop (nr_kpages pf np) (fun loop mem =>
        if prog_skips pf np kpg_flags ptr_oob_data loop then mem
        else bdbm_memcpy mem (ptr_ramssd_addr + pf.KERNEL_PAGE_SIZE * loop)
          (ptr_page_data loop) 0 pf.KERNEL_PAGE_SIZE)
        ptr_ssdram
      -- copy the OOB data to the store
      let ssdram :=
        if oob ≠ 0 then
          bdbm_memcpy ssdram (ptr_ramssd_addr + np.page_main_size) ptr_oob_data 0
            np.page_oob_size
        else ssdram
      -- DATA_CHECK: mirror the data into the shadow
      let data := for_loop (nr_kpages pf np) (fun loop sh =>
        if np.nr_subpages_per_block = np.nr_pages_per_block then
          let lpa := oob_u64 ptr_oob_data 0
          if lpa_invalid_i64 lpa then sh
          else
            bdbm_memcpy sh (__get_ramssd_data_addr pf np lpa + loop * pf.KPAGE_SIZE)
              (ptr_page_data loop) 0 pf.KPAGE_SIZE
        else
          let lpa := oob_u64 ptr_oob_data loop
          if lpa_invalid_i64 lpa then sh
          else if kpg_flags loop ≠ pf.KP_STT_DATA then sh
          else
            bdbm_memcpy sh (__get_ramssd_data_addr pf np lpa)
              (ptr_page_data loop) 0 pf.KPAGE_SIZE)
        ptr_ramssd_data
      ⟨0, ssdram, data⟩

/-- The function `__ramssd_erase_block`: the return value; no memory is
touched (the `memset` is commented out). -/
def __ramssd_erase_block (np : bdbm_device_params_t)
    (channel_no chip_no block_no : Nat) : Nat :=
  match __ramssd_block_addr np channel_no chip_no block_no with
  | none => 1
  | some _ => 0

/-! ## Requests, parallel units and the dispatcher -/

/-- The fields of a request `bdbm_llm_req_t` that the device file touches:
the type, the physical address with its parallel unit, the sub-page flags
`fmain.kp_stt`, the main buffers `fmain.kp_ptr`, the OOB buffer `foob.data`
and the result field `ret`. -/
structure bdbm_llm_req_t where
  req_type : req_type_t
  channel_no : Nat
  chip_no : Nat
  block_no : Nat
  page_no : Nat
  punit_id : Nat
  kp_stt : Nat → Nat
  kp_ptr : Nat → Nat → Nat
  foob_data : Nat → Nat
  ret : Nat

/-- One parallel unit: the pointer of the request in flight (`none` for
NULL), the instant at which its stopwatch was started, and the target
latency. -/
structure dev_ramssd_punit_t where
  ptr_req : Option Nat
  sw : Nat
  target_elapsed_time_us : Int

/-- Modelled from the spec: the stopwatch of the absent platform layer;
`bdbm_stopwatch_start` stamps the current instant (`submitted_at = now`). -/
def bdbm_stopwatch_start (now : Nat) : Nat := now

/-- Modelled from the spec: the elapsed time of a stopwatch, the current
instant minus the stamp (`now - submitted_at`), in microseconds. -/
def bdbm_stopwatch_get_elapsed_time_us (sw now : Nat) : Int :=
  (now : Int) - (sw : Int)

/-- The emulator `dev_ramssd_info_t`, together with what the device file
keeps or causes outside that structure: the shadow `__ptr_ramssd_data`, the
calls of `intr_handler` so far (the request pointers, oldest first), the
number of `tasklet_schedule` calls and the number of `bdbm_bug_on (1)` hits.
The handler is taken not to call back into the emulator. -/
structure dev_ramssd_info_t where
  is_init : Nat
  emul_mode : device_type_t
  nand_params : bdbm_device_params_t
  ptr_ssdram : Nat → Nat
  ptr_punits : Nat → dev_ramssd_punit_t
  ptr_ramssd_data : Nat → Nat
  intr_handler_calls : List Nat
  tasklet_scheduled : Nat
  bug_on_hits : Nat

open req_type_t device_type_t

/-- The read branch of the switch of `__ramssd_send_cmd`. -/
def send_cmd_read (pf : platform_t) (ri : dev_ramssd_info_t) (r : bdbm_llm_req_t)
    (use_oob use_partial : Nat) : Nat × dev_ramssd_info_t × bdbm_llm_req_t :=
  let res := __ramssd_read_page pf ri.nand_params ri.ptr_ssdram ri.ptr_ramssd_data
    r.channel_no r.chip_no r.block_no r.page_no r.kp_stt r.kp_ptr r.foob_data
    use_oob use_partial
  (res.ret, ri, { r with kp_ptr := res.ptr_page_data, foob_data := res.ptr_oob_data })

/-- The program branch of the switch of `__ramssd_send_cmd`. -/
def send_cmd_prog (pf : platform_t) (ri : dev_ramssd_info_t) (r : bdbm_llm_req_t)
    (use_oob : Nat) : Nat × dev_ramssd_info_t × bdbm_llm_req_t :=
  let res := __ramssd_prog_page pf ri.nand_params ri.ptr_ssdram ri.ptr_ramssd_data
    r.channel_no r.chip_no r.block_no r.page_no r.kp_stt r.kp_ptr r.foob_data use_oob
  (res.ret, { ri with ptr_ssdram := res.ptr_ssdram, ptr_ramssd_data := res.ptr_ramssd_data }, r)

/-- The function `__ramssd_send_cmd`: the return value, the emulator and the
request after the page operation. -/
def __ramssd_send_cmd (pf : platform_t) (ri : dev_ramssd_info_t) (r : bdbm_llm_req_t) :
    Nat × dev_ramssd_info_t × bdbm_llm_req_t :=
  let use_oob : Nat := if ri.nand_params.page_oob_size = 0 then 0 else 1
  let out : Nat × dev_ramssd_info_t × bdbm_llm_req_t :=
    match r.req_type with
    | REQTYPE_RMW_READ => send_cmd_read pf ri r use_oob 1
    | REQTYPE_READ => send_cmd_read pf ri r use_oob 0
    | REQTYPE_META_READ => send_cmd_read pf ri r use_oob 0
    | REQTYPE_GC_READ => send_cmd_read pf ri r use_oob 0
    | REQTYPE_RMW_WRITE => send_cmd_prog pf ri r use_oob
    | REQTYPE_WRITE => send_cmd_prog pf ri r use_oob
    | REQTYPE_META_WRITE => send_cmd_prog pf ri r use_oob
    | REQTYPE_GC_WRITE => send_cmd_prog pf ri r use_oob
    | REQTYPE_GC_ERASE =>
      (__ramssd_erase_block ri.nand_params r.channel_no r.chip_no r.block_no, ri, r)
    | REQTYPE_READ_DUMMY => (0, ri, r)
    | REQTYPE_TRIM => (0, ri, r)
    | REQTYPE_OTHER _ => (1, ri, r)
  (out.1, out.2.1, { out.2.2 with ret := out.1 })

/-- One pass of the loop of `__ramssd_cmd_done` over parallel unit `loop`;
`clock loop` is the instant at which the unit's stopwatch is read. -/
def cmd_done_body (clock : Nat → Nat) (loop : Nat) (ri : dev_ramssd_info_t) :
    dev_ramssd_info_t :=
  match (ri.ptr_punits loop).ptr_req with
  | some ptr_req =>
    let punit := ri.ptr_punits loop
    let elapsed_time_in_us := bdbm_stopwatch_get_elapsed_time_us punit.sw (clock loop)
    if elapsed_time_in_us ≥ punit.target_elapsed_time_us then
      { ri with
        ptr_punits := Function.update ri.ptr_punits loop { punit with ptr_req := none }
        intr_handler_calls := ri.intr_handler_calls ++ [ptr_req] }
    else ri
  | none => ri

/-- The function `__ramssd_cmd_done`, the completion scan. -/
def __ramssd_cmd_done (ri : dev_ramssd_info_t) (clock : Nat → Nat) : dev_ramssd_info_t :=
  for_loop (dev_ramssd_get_chips_per_ssd ri.nand_params) (cmd_done_body clock) ri

/-- The function `__ramssd_timing_cmd_done`. -/
def __ramssd_timing_cmd_done (ri : dev_ramssd_info_t) (clock : Nat → Nat) :
    dev_ramssd_info_t :=
  __ramssd_cmd_done ri clock

/-- The function `__ramssd_timing_register_schedule`; the cases for the timing
and interrupt modes exist only in a `KERNEL_MODE` build. -/
def __ramssd_timing_register_schedule (pf : platform_t) (ri : dev_ramssd_info_t)
    (clock : Nat → Nat) : dev_ramssd_info_t :=
  match ri.emul_mode with
  | DEVICE_TYPE_RAMDRIVE => __ramssd_cmd_done ri clock
  | DEVICE_TYPE_USER_RAMDRIVE => __ramssd_cmd_done ri clock
  | DEVICE_TYPE_RAMDRIVE_TIMING =>
    if pf.KERNEL_MODE then ri else __ramssd_timing_cmd_done ri clock
  | DEVICE_TYPE_RAMDRIVE_INTR =>
    if pf.KERNEL_MODE then { ri with tasklet_scheduled := ri.tasklet_scheduled + 1 }
    else __ramssd_timing_cmd_done ri clock
  | DEVICE_TYPE_OTHER _ => __ramssd_timing_cmd_done ri clock

/-- The target latency that `dev_ramssd_send_cmd` computes for a request,
and whether the `default` case with `bdbm_bug_on (1)` was reached. -/
def target_elapsed_time (ri : dev_ramssd_info_t) (r : bdbm_llm_req_t) : Int × Bool :=
  let target_elapsed_time_us : Int := 0
  if ri.emul_mode = DEVICE_TYPE_RAMDRIVE_TIMING then
    let sel : Int × Bool :=
      match r.req_type with
      | REQTYPE_WRITE => (ri.nand_params.page_prog_time_us, false)
      | REQTYPE_GC_WRITE => (ri.nand_params.page_prog_time_us, false)
      | REQTYPE_RMW_WRITE => (ri.nand_params.page_prog_time_us, false)
      | REQTYPE_META_WRITE => (ri.nand_params.page_prog_time_us, false)
      | REQTYPE_READ => (ri.nand_params.page_read_time_us, false)
      | REQTYPE_GC_READ => (ri.nand_params.page_read_time_us, false)
      | REQTYPE_RMW_READ => (ri.nand_params.page_read_time_us, false)
      | REQTYPE_META_READ => (ri.nand_params.page_read_time_us, false)
      | REQTYPE_GC_ERASE => (ri.nand_params.block_erase_time_us, false)
      | REQTYPE_READ_DUMMY => (0, false)
      | _ => (target_elapsed_time_us, true)
    if sel.1 > 0 then (sel.1 - sel.1 / 10, sel.2) else sel
  else
    (0, false)

/-- The effect of the `default` case of the latency switch: `bdbm_bug_on (1)`
is counted when the case was reached. -/
def note_bug_on (ri : dev_ramssd_info_t) (reached : Bool) : dev_ramssd_info_t :=
  if reached then { ri with bug_on_hits := ri.bug_on_hits + 1 } else ri

/-- The registration of a request in a free slot: the request pointer, a
freshly started stopwatch and the target latency are stored in the unit. -/
def register_req (ri : dev_ramssd_info_t) (punit_id rp now : Nat)
    (target_elapsed_time_us : Int) : dev_ramssd_info_t :=
  { ri with
    ptr_punits := Function.update ri.ptr_punits punit_id
      { ptr_req := some rp
        sw := bdbm_stopwatch_start now
        target_elapsed_time_us := target_elapsed_time_us } }

/-- The function `dev_ramssd_send_cmd` for the request at address `rp` with
contents `r`: the return value, the emulator and the request afterwards.
`now` is the instant at which the unit's stopwatch is started, and
`now + delay i` the instant at which a completion scan run inside the call
reads the stopwatch of unit `i`. -/
def dev_ramssd_send_cmd (pf : platform_t) (ri : dev_ramssd_info_t) (rp : Nat)
    (r : bdbm_llm_req_t) (now : Nat) (delay : Nat → Nat) :
    Nat × dev_ramssd_info_t × bdbm_llm_req_t :=
  let out := __ramssd_send_cmd pf ri r
  if out.1 = 0 then
    -- get the target elapsed time depending on the type of req
    let tgt := target_elapsed_time out.2.1 out.2.2
    let ri1 := note_bug_on out.2.1 tgt.2
    let punit_id := out.2.2.punit_id
    -- register reqs
    match (ri1.ptr_punits punit_id).ptr_req with
    | none =>
      -- register reqs for callback
      (out.1,
       __ramssd_timing_register_schedule pf (register_req ri1 punit_id rp now tgt.1)
         (fun i => now + delay i),
       out.2.2)
    | some _ => (1, ri1, out.2.2)
  else
    (out.1, out.2.1, out.2.2)

/-! ## Construction -/

/-- What the allocator hands out during `dev_ramssd_create`: whether each
allocation succeeds, and the contents of the fresh memory before the code
initialises it. -/
structure alloc_env_t where
  ri_ok : Bool
  ssdram_ok : Bool
  punits_ok : Bool
  tasklet_ok : Bool
  ssdram_mem : Nat → Nat
  data_mem : Nat → Nat
  punits_mem : Nat → dev_ramssd_punit_t

/-- The function `__ramssd_alloc_ssdram`: the backing store and the shadow,
both filled with `0xFF` over `ssd_size_in_bytes` bytes, or `none` when the
allocation of the store fails. -/
def __ramssd_alloc_ssdram (np : bdbm_device_params_t) (env : alloc_env_t) :
    Option ((Nat → Nat) × (Nat → Nat)) :=
  if env.ssdram_ok then
    some (bdbm_memset env.ssdram_mem 0xFF (ssd_size_in_bytes np),
          bdbm_memset env.data_mem 0xFF (ssd_size_in_bytes np))
  else none

/-- The function `__ramssd_timing_create`: its return value. -/
def __ramssd_timing_create (pf : platform_t) (emul_mode : device_type_t)
    (env : alloc_env_t) : Nat :=
  match emul_mode with
  | DEVICE_TYPE_RAMDRIVE => 0
  | DEVICE_TYPE_USER_RAMDRIVE => 0
  | DEVICE_TYPE_RAMDRIVE_TIMING =>
    if pf.KERNEL_MODE then (if env.tasklet_ok then 0 else 1) else 1
  | DEVICE_TYPE_RAMDRIVE_INTR =>
    if pf.KERNEL_MODE then (if env.tasklet_ok then 0 else 1) else 1
  | DEVICE_TYPE_OTHER _ => 1

/-- The function `dev_ramssd_create`: the new emulator, or `none` for the
NULL result. -/
def dev_ramssd_create (pf : platform_t) (ptr_nand_params : bdbm_device_params_t)
    (env : alloc_env_t) : Option dev_ramssd_info_t :=
  if !env.ri_ok then none
  else
    match __ramssd_alloc_ssdram ptr_nand_params env with
    | none => none
    | some mem =>
      if !env.punits_ok then none
      else
        let nr_parallel_units := dev_ramssd_get_chips_per_ssd ptr_nand_params
        let punits := for_loop nr_parallel_units
          (fun loop t => Function.update t loop { t loop with ptr_req := none })
          env.punits_mem
        if __ramssd_timing_create pf ptr_nand_params.device_type env ≠ 0 then none
        else
          some
            { is_init := 1
              emul_mode := ptr_nand_params.device_type
              nand_params := ptr_nand_params
              ptr_ssdram := mem.1
              ptr_punits := punits
              ptr_ramssd_data := mem.2
              intr_handler_calls := []
              tasklet_scheduled := 0
              bug_on_hits := 0 }

/-! ## Auxiliary definitions and concrete inputs -/

/-- Index of a page in canonical order. -/
def page_index (np : bdbm_device_params_t) (ch chip blk pg : Nat) : Nat :=
  ((ch * np.nr_chips_per_channel + chip) * np.nr_blocks_per_chip + blk)
    * np.nr_pages_per_block + pg

/-- The geometry of the scenarios: 2 channels, 2 chips, 2 blocks, 4 pages of
4096 + 128 bytes, one sub-page per page. -/
def geom_s1 : bdbm_device_params_t :=
  { nr_channels := 2, nr_chips_per_channel := 2, nr_blocks_per_chip := 2,
    nr_pages_per_block := 4, nr_subpages_per_block := 4,
    page_main_size := 4096, page_oob_size := 128,
    device_type := DEVICE_TYPE_RAMDRIVE,
    page_prog_time_us := 500, page_read_time_us := 50, block_erase_time_us := 3000 }

/-- A geometry with 2^32 channels of 2^32 chips: the number of pages is
2^64 and wraps to 0 in `uint64_t`. -/
def geom_wrap : bdbm_device_params_t :=
  { geom_s1 with nr_channels := 2 ^ 32, nr_chips_per_channel := 2 ^ 32,
                 nr_blocks_per_chip := 1, nr_pages_per_block := 1,
                 nr_subpages_per_block := 1 }

/-- A platform with 4096-byte pages, flag values `KP_STT_DATA = 1` and
`KP_STT_DONE = 2`, built with `KERNEL_MODE`. -/
def pf_ref : platform_t :=
  { KERNEL_PAGE_SIZE := 4096, KPAGE_SIZE := 4096, KP_STT_DATA := 1, KP_STT_DONE := 2,
    KERNEL_MODE := true }

/-- The geometry 2 x 2 x 2 x 4 with pages of 8192 + 128 bytes, two sub-pages
per page, in subpage-mode (8 sub-pages per block, 4 pages per block). -/
def geom_s3 : bdbm_device_params_t :=
  { geom_s1 with page_main_size := 8192, nr_subpages_per_block := 8 }

/-- The geometry 2 x 2 x 2 x 4 with a main area of 6000 bytes, which is not a
multiple of 4096. -/
def geom_odd : bdbm_device_params_t :=
  { geom_s1 with page_main_size := 6000 }

/-- An OOB buffer whose first 64-bit word is 7 and whose other bytes are 0. -/
def oob_lpa7 : Nat → Nat := fun k => if k = 0 then 7 else 0

/-- An OOB buffer whose first 64-bit word is 7 and whose other bytes are
`0xFF`, so that every further 64-bit word is `0xFFFFFFFFFFFFFFFF`. -/
def oob_lpa7_ff : Nat → Nat := fun k => if k = 0 then 7 else if k < 8 then 0 else 0xFF

/-- An allocator under which every allocation succeeds and fresh memory
holds zero bytes and busy-looking parallel units. -/
def env_ok : alloc_env_t :=
  { ri_ok := true, ssdram_ok := true, punits_ok := true, tasklet_ok := true,
    ssdram_mem := fun _ => 0, data_mem := fun _ => 0,
    punits_mem := fun _ => { ptr_req := some 1, sw := 0, target_elapsed_time_us := 0 } }

/-- Program of page (1, 0, 1, 2) of `geom_s3` on an erased store: both flags
`DATA`, both main buffers `0x42`, OOB `oob_lpa7_ff`. -/
def s3_prog : prog_result_t :=
  __ramssd_prog_page pf_ref geom_s3 (fun _ => 0xFF) (fun _ => 0xFF) 1 0 1 2
    (fun _ => 1) (fun _ _ => 0x42) oob_lpa7_ff 1

/-- Non-partial read of the same page after `s3_prog`, both flags `DATA`,
into zeroed buffers. -/
def s3_read : read_result_t :=
  __ramssd_read_page pf_ref geom_s3 s3_prog.ptr_ssdram s3_prog.ptr_ramssd_data 1 0 1 2
    (fun _ => 1) (fun _ _ => 0) (fun _ => 0) 1 0

/-- Whether the completion scan finds unit `i` occupied and due: its
stopwatch, read at instant `clock i`, shows at least the target latency. -/
def punit_due (ri : dev_ramssd_info_t) (clock : Nat → Nat) (i : Nat) : Bool :=
  match (ri.ptr_punits i).ptr_req with
  | some _ =>
    decide (bdbm_stopwatch_get_elapsed_time_us (ri.ptr_punits i).sw (clock i)
      ≥ (ri.ptr_punits i).target_elapsed_time_us)
  | none => false

/-- The nominal time of a request type as the specification of the timing
mode lists it: the program time for the four write types, the read time for
the four read types, the erase time for `GC_ERASE`, 0 for `READ_DUMMY`; no
entry for any other type. -/
def nominal_time_us (np : bdbm_device_params_t) : req_type_t → Option Int
  | REQTYPE_WRITE => some np.page_prog_time_us
  | REQTYPE_GC_WRITE => some np.page_prog_time_us
  | REQTYPE_RMW_WRITE => some np.page_prog_time_us
  | REQTYPE_META_WRITE => some np.page_prog_time_us
  | REQTYPE_READ => some np.page_read_time_us
  | REQTYPE_GC_READ => some np.page_read_time_us
  | REQTYPE_RMW_READ => some np.page_read_time_us
  | REQTYPE_META_READ => some np.page_read_time_us
  | REQTYPE_GC_ERASE => some np.block_erase_time_us
  | REQTYPE_READ_DUMMY => some 0
  | _ => none

/-- An emulator as construction leaves it for parameters `np`: erased store
and shadow, every parallel unit empty, nothing delivered yet. -/
def ri_fresh (np : bdbm_device_params_t) : dev_ramssd_info_t :=
  { is_init := 1
    emul_mode := np.device_type
    nand_params := np
    ptr_ssdram := fun _ => 0xFF
    ptr_punits := fun _ => { ptr_req := none, sw := 0, target_elapsed_time_us := 0 }
    ptr_ramssd_data := fun _ => 0xFF
    intr_handler_calls := []
    tasklet_scheduled := 0
    bug_on_hits := 0 }

/-- The scenario geometry in mode `RAMDRIVE_INTR`. -/
def geom_intr : bdbm_device_params_t :=
  { geom_s1 with device_type := DEVICE_TYPE_RAMDRIVE_INTR }

/-- The scenario geometry in mode `RAMDRIVE_TIMING`, with a read time of
50 microseconds. -/
def geom_timing : bdbm_device_params_t :=
  { geom_s1 with device_type := DEVICE_TYPE_RAMDRIVE_TIMING }

/-- The scenario geometry in mode `RAMDRIVE_TIMING` with a read time whose
value as `int64_t` is -20. -/
def geom_timing_neg : bdbm_device_params_t :=
  { geom_s1 with device_type := DEVICE_TYPE_RAMDRIVE_TIMING, page_read_time_us := -20 }

/-- A request of type `ty` for page (1, 1, 0, 0) on parallel unit 3, one
sub-page flagged `DATA` (1), main buffer `0x42`, first OOB word 7. -/
def req_punit3 (ty : req_type_t) : bdbm_llm_req_t :=
  { req_type := ty, channel_no := 1, chip_no := 1, block_no := 0, page_no := 0,
    punit_id := 3, kp_stt := fun _ => 1, kp_ptr := fun _ _ => 0x42,
    foob_data := oob_lpa7, ret := 0 }

/-- A request of type `ty` for page (1, 0, 1, 2) on parallel unit 2, one
sub-page flagged `DATA` (1), main buffer `0x42`, first OOB word 7. -/
def req_page_1012 (ty : req_type_t) : bdbm_llm_req_t :=
  { req_type := ty, channel_no := 1, chip_no := 0, block_no := 1, page_no := 2,
    punit_id := 2, kp_stt := fun _ => 1, kp_ptr := fun _ _ => 0x42,
    foob_data := oob_lpa7, ret := 0 }

/-- The emulator after a write of page (1, 0, 1, 2) and then a `GC_ERASE` of
its block (1, 0, 1), both submitted in mode `RAMDRIVE` to a fresh emulator. -/
def ri_written_erased : dev_ramssd_info_t :=
  (dev_ramssd_send_cmd pf_ref
    (dev_ramssd_send_cmd pf_ref (ri_fresh geom_s1) 1001 (req_page_1012 REQTYPE_WRITE)
      0 (fun _ => 0)).2.1
    1002 (req_page_1012 REQTYPE_GC_ERASE) 1 (fun _ => 0)).2.1

/-- The contents of a file as a byte sequence: its length and its bytes by
offset (what `bytes` gives from offset `size` on is not part of the file). -/
structure file_t where
  size : Nat
  bytes : Nat → Nat

/-- What the file layer answers to the snapshot functions: the handle that
`bdbm_fopen` returns (0 when it fails), and the number of bytes that a call of
`bdbm_fwrite` for `size` bytes at `offset` transfers. -/
structure file_env_t where
  fp : Nat
  written : Nat → Nat → Nat

/-- Modelled from the spec: the helper `bdbm_fwrite` of the absent file
layer, on a file taken as a byte sequence.  The call transfers
`written offset size` bytes, never more than `size`, from `data + doff` to
the file at `offset`, which grows to hold them, and returns their number. -/
def bdbm_fwrite (env : file_env_t) (file : file_t) (offset : Nat) (data : Nat → Nat)
    (doff size : Nat) : Nat × file_t :=
  let n := min (env.written offset size) size
  (n, { size := max file.size (offset + n)
        bytes := bdbm_memcpy file.bytes offset data doff n })

/-- Modelled from the spec: the helper `bdbm_fread` of the absent file
layer: the bytes of the file from `offset` on, at most `size` of them, are
copied to `data`; the result is their number and the buffer. -/
def bdbm_fread (file : file_t) (offset : Nat) (data : Nat → Nat) (size : Nat) :
    Nat × (Nat → Nat) :=
  let n := min size (file.size - offset)
  (n, bdbm_memcpy data 0 file.bytes offset n)

/-- A `while` loop, run for at most `fuel` passes: the state when the
condition fails, `none` when the passes run out first. -/
def while_loop {σ : Type} (cond : σ → Bool) (body : σ → σ) : Nat → σ → Option σ
  | 0, s => if cond s then none else some s
  | fuel + 1, s => if cond s then while_loop cond body fuel (body s) else some s

/-- The function `dev_ramssd_store`: the return value and the file
afterwards.  `file` is what the path holds when `bdbm_fopen` opens it with
`O_CREAT | O_WRONLY`: the old contents, or no bytes for a new file.
`ptr_ssdram` is not NULL, as in every emulator that `dev_ramssd_create`
returns. -/
def dev_ramssd_store (ri : dev_ramssd_info_t) (env : file_env_t) (file : file_t)
    (fuel : Nat) : Option (Nat × file_t) :=
  if env.fp = 0 then some (1, file)
  else
    let len := dev_ramssd_get_ssd_size ri.nand_params
    match while_loop (fun (s : Nat × file_t) => decide (s.1 < len))
        (fun s =>
          let r := bdbm_fwrite env s.2 s.1 ri.ptr_ssdram s.1 (len - s.1)
          ((s.1 + r.1) % U64, r.2))
        fuel (0, file) with
    | none => none
    | some s => some (0, s.2)

/-- The function `dev_ramssd_load`: the return value and the emulator
afterwards; `file` is what the path holds. -/
def dev_ramssd_load (ri : dev_ramssd_info_t) (env : file_env_t) (file : file_t) :
    Nat × dev_ramssd_info_t :=
  if env.fp = 0 then (1, ri)
  else
    let len := dev_ramssd_get_ssd_size ri.nand_params
    let r := bdbm_fread file 0 ri.ptr_ssdram len
    (0, { ri with ptr_ssdram := r.2 })

/-- A file layer whose `bdbm_fopen` succeeds and whose `bdbm_fwrite`
transfers all the bytes it is asked for. -/
def file_env_ok : file_env_t := { fp := 3, written := fun _ n => n }

/-- A file layer whose `bdbm_fwrite` transfers at most 65536 bytes per call. -/
def file_env_chunked : file_env_t := { fp := 3, written := fun _ n => min n 65536 }

/-- A file of 200000 zero bytes. -/
def file_long : file_t := { size := 200000, bytes := fun _ => 0 }

/-- A path that holds no bytes. -/
def file_empty : file_t := { size := 0, bytes := fun _ => 0 }

/-! ## The submitter library `libmemio` -/

/-- The fields of `memio_t` that the submit functions read. -/
structure memio_t where
  nr_punits : Nat
  io_size : Nat
  trim_lbas : Nat
  trim_size : Nat

/-- The fields of a `bdbm_llm_req_t` that the submit functions of the
library set before they hand it to the device: the handle index `tag`,
`req_type`, `logaddr.lpa[0]` and the pointer `fmain.kp_ptr[0]` (an address,
0 for NULL). -/
structure memio_req_t where
  tag : Nat
  req_type : req_type_t
  lpa0 : Nat
  kp_ptr0 : Nat
  deriving DecidableEq

/-- What surrounds a submit function: `try_lock k t i` says whether
`bdbm_sema_try_lock` on handle `i` succeeds in pass `t` of the `do`-loop of
the `k`-th acquisition (handles are released by completions, outside the
function), and `make_req` is the return value of `dm->make_req`. -/
structure memio_env_t where
  try_lock : Nat → Nat → Nat → Bool
  make_req : memio_req_t → Nat

/-- The function `__memio_alloc_llm_req`: the index of the handle it
returns, after at most `rounds` passes of its `do`-loop starting with pass
`t`; `none` when no pass within them finds a free handle. -/
def __memio_alloc_llm_req (mio : memio_t) (try_lock : Nat → Nat → Bool) :
    Nat → Nat → Option Nat
  | 0, _ => none
  | rounds + 1, t =>
    match (List.range mio.nr_punits).find? (fun i => try_lock t i) with
    | some i => some i
    | none => __memio_alloc_llm_req mio try_lock rounds (t + 1)

/-- The function `__memio_check_alignment`: `true` when it calls
`exit (-1)`. -/
def __memio_check_alignment (length alignment : Nat) : Bool :=
  decide (length % alignment ≠ 0)

/-- The value of a 64-bit word converted to `int`. -/
def to_int32 (v : Nat) : Int :=
  if v % U32 < 2 ^ 31 then ((v % U32 : Nat) : Int) else ((v % U32 : Nat) : Int) - (U32 : Int)

/-- The variables of the loop of a submit function, with what it has done so
far: the requests handed to `dm->make_req` in order, the calls of
`bdbm_bug_on` whose condition held, and the calls of
`bdbm_thread_nanosleep`. -/
structure memio_loop_t where
  cur_lba : Nat
  cur_buf : Nat
  sent : Nat
  cnt : Nat
  reqs : List memio_req_t
  bug_on_hits : Nat
  nanosleeps : Nat

/-- How a call of a submit function ends: the process exits with a code, or
the call returns an `int` and leaves the loop state. -/
inductive memio_outcome_t where
  | exited (code : Int)
  | returned (ret : Int) (s : memio_loop_t)

/-- The `while` loop of `__memio_do_io`, run for at most `fuel` passes, each
acquisition with at most `rounds` passes over the handles; `none` when either
runs out. -/
def do_io_loop (mio : memio_t) (env : memio_env_t) (dir : Int) (lba len rounds : Nat) :
    Nat → memio_loop_t → Option memio_loop_t
  | 0, s => if s.cur_lba < (lba + len / mio.io_size) % U64 then none else some s
  | fuel + 1, s =>
    if s.cur_lba < (lba + len / mio.io_size) % U64 then
      let cnt := s.cnt + 1
      let nanosleeps := if cnt % 64 = 0 then s.nanosleeps + 1 else s.nanosleeps
      -- get an empty llm_req
      match __memio_alloc_llm_req mio (env.try_lock s.reqs.length) rounds 0 with
      | none => none
      | some tag =>
        -- setup llm_req
        let r : memio_req_t :=
          { tag := tag
            req_type := if dir = 0 then req_type_t.REQTYPE_READ else req_type_t.REQTYPE_WRITE
            lpa0 := s.cur_lba
            kp_ptr0 := s.cur_buf }
        -- send I/O requests to the device
        let bug_on_hits := if env.make_req r ≠ 0 then s.bug_on_hits + 1 else s.bug_on_hits
        -- go the next
        do_io_loop mio env dir lba len rounds fuel
          { cur_lba := (s.cur_lba + 1) % U64
            cur_buf := s.cur_buf + mio.io_size
            sent := (s.sent + mio.io_size) % U64
            cnt := cnt
            reqs := s.reqs ++ [r]
            bug_on_hits := bug_on_hits
            nanosleeps := nanosleeps }
    else some s

/-- The function `__memio_do_io` for the `uint64_t` arguments `lba` and `len`
and the buffer address `data`. -/
def __memio_do_io (mio : memio_t) (env : memio_env_t) (dir : Int) (lba len data : Nat)
    (rounds fuel : Nat) : Option memio_outcome_t :=
  -- see if LBA alignment is correct
  if __memio_check_alignment len mio.io_size then some (memio_outcome_t.exited (-1))
  else
    match do_io_loop mio env dir lba len rounds fuel
        { cur_lba := lba, cur_buf := data, sent := 0, cnt := 0, reqs := [],
          bug_on_hits := 0, nanosleeps := 0 } with
    | none => none
    | some s => some (memio_outcome_t.returned (to_int32 s.sent) s)

/-- The function `memio_read`. -/
def memio_read (mio : memio_t) (env : memio_env_t) (lba len data rounds fuel : Nat) :
    Option memio_outcome_t :=
  __memio_do_io mio env 0 lba len data rounds fuel

/-- The function `memio_write`. -/
def memio_write (mio : memio_t) (env : memio_env_t) (lba len data rounds fuel : Nat) :
    Option memio_outcome_t :=
  __memio_do_io mio env 1 lba len data rounds fuel

/-- The session that `memio_open` sets up: 64 handles, requests of 8192
bytes, trim segments of `1 << 14` requests. -/
def mio_ref : memio_t :=
  { nr_punits := 64, io_size := 8192, trim_lbas := 2 ^ 14, trim_size := 2 ^ 14 * 8192 }

/-- Surroundings in which every handle is free and every request is
accepted. -/
def memio_env_ok : memio_env_t :=
  { try_lock := fun _ _ _ => true, make_req := fun _ => 0 }

/-- What a request shows of the fields that the caller chose: type, lpa and
buffer address. -/
def req_fields (r : memio_req_t) : req_type_t × Nat × Nat := (r.req_type, r.lpa0, r.kp_ptr0)

/-- The return value and the requests, by their fields, of a call that
returned. -/
def outcome_fields : Option memio_outcome_t → Option (Int × List (req_type_t × Nat × Nat))
  | some (memio_outcome_t.returned ret s) => some (ret, s.reqs.map req_fields)
  | _ => none

/-- An OOB buffer whose first 64-bit word is 7 and whose second is `2 ^ 63`
(byte 15 is `0x80`). -/
def oob_lpa7_top : Nat → Nat := fun k => if k = 0 then 7 else if k = 15 then 0x80 else 0

/-- Program of page (0, 0, 0, 0) of the subpage-mode geometry `geom_s3` on an
erased store: both flags `DATA`, both main buffers `0x42`, OOB
`oob_lpa7_top`. -/
def s3_prog_top : prog_result_t :=
  __ramssd_prog_page pf_ref geom_s3 (fun _ => 0xFF) (fun _ => 0xFF) 0 0 0 0
    (fun _ => 1) (fun _ _ => 0x42) oob_lpa7_top 1

/-- The scenario geometry with a `device_type` that is none of the four
emulation modes. -/
def geom_other : bdbm_device_params_t :=
  { geom_s1 with device_type := DEVICE_TYPE_OTHER 99 }

/-- A fresh emulator of the scenario geometry in mode `RAMDRIVE` whose unit 3
holds the request 1000. -/
def ri_unit3_busy : dev_ramssd_info_t :=
  { ri_fresh geom_s1 with
    ptr_punits := fun i =>
      if i = 3 then { ptr_req := some 1000, sw := 0, target_elapsed_time_us := 0 }
      else { ptr_req := none, sw := 0, target_elapsed_time_us := 0 } }

/-- A geometry of `2 ^ 51 + 1` channels of one page of 4096 + 4096 bytes:
its size `(2 ^ 51 + 1) * 8192` wraps to 8192 in `uint64_t`. -/
def geom_alias : bdbm_device_params_t :=
  { geom_s1 with nr_channels := 2 ^ 51 + 1, nr_chips_per_channel := 1,
                 nr_blocks_per_chip := 1, nr_pages_per_block := 1,
                 nr_subpages_per_block := 1, page_oob_size := 4096 }

/-- One pass of the `for` loop over the handles in `memio_trim`, for handle
index `i`: a `GC_ERASE` request with `logaddr.lpa[0] = cur_lba + i` and a
NULL buffer; `none` when the acquisition finds no handle within `rounds`
passes, or an earlier one did not. -/
def trim_issue (mio : memio_t) (env : memio_env_t) (rounds : Nat) (i : Nat) :
    Option memio_loop_t → Option memio_loop_t
  | none => none
  | some s =>
    -- get an empty llm_req
    match __memio_alloc_llm_req mio (env.try_lock s.reqs.length) rounds 0 with
    | none => none
    | some tag =>
      -- setup llm_req
      let r : memio_req_t :=
        { tag := tag
          req_type := req_type_t.REQTYPE_GC_ERASE
          lpa0 := (s.cur_lba + i) % U64
          kp_ptr0 := 0 }
      -- send I/O requests to the device
      let bug_on_hits := if env.make_req r ≠ 0 then s.bug_on_hits + 1 else s.bug_on_hits
      some { s with reqs := s.reqs ++ [r], bug_on_hits := bug_on_hits }

/-- The `for` loop over the handles inside one pass of the `while` loop of
`memio_trim`. -/
def trim_segment (mio : memio_t) (env : memio_env_t) (rounds : Nat) (s : memio_loop_t) :
    Option memio_loop_t :=
  for_loop mio.nr_punits (trim_issue mio env rounds) (some s)

/-- The `while` loop of `memio_trim`, run for at most `fuel` passes. -/
def trim_loop (mio : memio_t) (env : memio_env_t) (lba len rounds : Nat) :
    Nat → memio_loop_t → Option memio_loop_t
  | 0, s => if s.cur_lba < (lba + len / mio.io_size) % U64 then none else some s
  | fuel + 1, s =>
    if s.cur_lba < (lba + len / mio.io_size) % U64 then
      match trim_segment mio env rounds s with
      | none => none
      | some s1 =>
        -- go the next
        trim_loop mio env lba len rounds fuel
          { s1 with cur_lba := (s1.cur_lba + mio.trim_lbas) % U64
                    sent := (s1.sent + mio.trim_size) % U64 }
    else some s

/-- The function `memio_trim` for the `uint64_t` arguments `lba` and `len`. -/
def memio_trim (mio : memio_t) (env : memio_env_t) (lba len rounds fuel : Nat) :
    Option memio_outcome_t :=
  -- see if LBA alignment is correct
  if __memio_check_alignment lba mio.trim_lbas then some (memio_outcome_t.exited (-1))
  else if __memio_check_alignment len mio.trim_size then some (memio_outcome_t.exited (-1))
  else
    match trim_loop mio env lba len rounds fuel
        { cur_lba := lba, cur_buf := 0, sent := 0, cnt := 0, reqs := [],
          bug_on_hits := 0, nanosleeps := 0 } with
    | none => none
    | some s => some (memio_outcome_t.returned (to_int32 s.sent) s)

/-- The requests that the claim on `memio_trim` lists for `m` segments
starting at `lba`, by their fields: for each segment `s` in order, one
`GC_ERASE` with a NULL buffer per handle index `i`, for lpa
`lba + s * trim_lbas + i`. -/
def trim_fields (mio : memio_t) (lba m : Nat) : List (req_type_t × Nat × Nat) :=
  (List.range m).flatMap (fun s =>
    (List.range mio.nr_punits).map (fun i =>
      (req_type_t.REQTYPE_GC_ERASE, lba + s * mio.trim_lbas + i, 0)))

/-- A session with 2 handles, requests of 8 bytes and trim segments of 4
requests. -/
def mio_small : memio_t :=
  { nr_punits := 2, io_size := 8, trim_lbas := 4, trim_size := 32 }

/-- The variables `i` and `j` of `memio_wait`, with what the call has done so
far: the number of calls of `bdbm_sema_try_lock`, the re-issues
(`dm->make_req` on `rr[i]`) as pairs of the handle and the index of the poll
that caused them, and the handles found free, each with the index of the
poll that found it so. -/
structure memio_wait_t where
  i : Nat
  j : Nat
  polls : Nat
  reissued : List (Nat × Nat)
  seen_free : List (Nat × Nat)

/-- The `for` loop of `memio_wait`, run for at most `fuel` passes;
`try_lock t i` is the outcome of the poll with index `t` (from 0), made on
handle `i`. -/
def wait_loop (mio : memio_t) (try_lock : Nat → Nat → Bool) :
    Nat → memio_wait_t → Option memio_wait_t
  | 0, s => if s.i < mio.nr_punits then none else some s
  | fuel + 1, s =>
    if s.i < mio.nr_punits then
      if !try_lock s.polls s.i then
        if s.j + 1 = 500000 then
          wait_loop mio try_lock fuel
            { s with j := 0, polls := s.polls + 1,
                     reissued := s.reissued ++ [(s.i, s.polls)] }
        else
          wait_loop mio try_lock fuel { s with j := s.j + 1, polls := s.polls + 1 }
      else
        wait_loop mio try_lock fuel
          { s with i := s.i + 1, polls := s.polls + 1,
                   seen_free := s.seen_free ++ [(s.i, s.polls)] }
    else some s

/-- The function `memio_wait`: the state in which it returns, `none` when it
is still polling after `fuel` passes. -/
def memio_wait (mio : memio_t) (try_lock : Nat → Nat → Bool) (fuel : Nat) :
    Option memio_wait_t :=
  wait_loop mio try_lock fuel { i := 0, j := 0, polls := 0, reissued := [], seen_free := [] }

/-- Poll outcomes in which handle 0 is busy for the polls 0 to 499998 and
free at poll 499999, and the handle polled next is busy at poll 500000 and
free from poll 500001 on. -/
def try_lock_late0 : Nat → Nat → Bool :=
  fun t _ => decide (499999 ≤ t) && !decide (t = 500000)

/-- A table of the scenario geometry (4 units): unit 0 holds request 1000
with target 45, started at 0; unit 1 is empty; unit 2 holds request 1002 with
target 45, started at 60; unit 3 holds request 1003 with target 0. -/
def ri_three_busy : dev_ramssd_info_t :=
  { ri_fresh geom_timing with
    ptr_punits := fun i =>
      if i = 0 then { ptr_req := some 1000, sw := 0, target_elapsed_time_us := 45 }
      else if i = 2 then { ptr_req := some 1002, sw := 60, target_elapsed_time_us := 45 }
      else if i = 3 then { ptr_req := some 1003, sw := 100, target_elapsed_time_us := 0 }
      else { ptr_req := none, sw := 0, target_elapsed_time_us := 0 } }

/-- A fresh emulator in mode `RAMDRIVE_TIMING` whose unit 3 holds the request
1001, stamped at instant 7 with target 450. -/
def ri_write_pending : dev_ramssd_info_t :=
  { ri_fresh geom_timing with
    ptr_punits := fun i =>
      if i = 3 then { ptr_req := some 1001, sw := 7, target_elapsed_time_us := 450 }
      else { ptr_req := none, sw := 0, target_elapsed_time_us := 0 } }

/-! ## Geometry: address formula and address ranges -/

theorem mod_u64_eq_iff (a b : Nat) :
    a % U64 = b % U64 ↔ ((a : ZMod U64) = (b : ZMod U64)) :=
  (ZMod.natCast_eq_natCast_iff' a b U64).symm

theorem page_offset_eq (np : bdbm_device_params_t) (ch chip blk pg : Nat) :
    page_offset np ch chip blk pg =
      (page_index np ch chip blk pg * (np.page_main_size + np.page_oob_size)) % U64 := by
  unfold page_offset page_index dev_ramssd_get_channel_size dev_ramssd_get_chip_size
    dev_ramssd_get_block_size dev_ramssd_get_page_size
  simp only [Nat.zero_add]
  rw [mod_u64_eq_iff]
  simp only [Nat.cast_add, Nat.cast_mul, ZMod.natCast_mod]
  ring

theorem block_offset_eq (np : bdbm_device_params_t) (ch chip blk : Nat) :
    block_offset np ch chip blk = page_offset np ch chip blk 0 := by
  unfold page_offset block_offset
  simp

theorem ssd_size_in_bytes_eq (np : bdbm_device_params_t) :
    ssd_size_in_bytes np =
      (np.nr_channels * np.nr_chips_per_channel * np.nr_blocks_per_chip
        * np.nr_pages_per_block * (np.page_main_size + np.page_oob_size)) % U64 := by
  unfold ssd_size_in_bytes
  simp only
  rw [mod_u64_eq_iff]
  simp only [Nat.cast_add, Nat.cast_mul, ZMod.natCast_mod]

theorem page_index_succ_le (np : bdbm_device_params_t) (ch chip blk pg : Nat)
    (hch : ch < np.nr_channels) (hchip : chip < np.nr_chips_per_channel)
    (hblk : blk < np.nr_blocks_per_chip) (hpg : pg < np.nr_pages_per_block) :
    page_index np ch chip blk pg + 1 ≤
      np.nr_channels * np.nr_chips_per_channel * np.nr_blocks_per_chip
        * np.nr_pages_per_block := by
  unfold page_index
  have h1 : ch * np.nr_chips_per_channel + chip + 1 ≤ np.nr_channels * np.nr_chips_per_channel := by
    calc ch * np.nr_chips_per_channel + chip + 1
        ≤ ch * np.nr_chips_per_channel + np.nr_chips_per_channel := by omega
      _ = (ch + 1) * np.nr_chips_per_channel := by ring
      _ ≤ np.nr_channels * np.nr_chips_per_channel := Nat.mul_le_mul_right _ hch
  have h2 : (ch * np.nr_chips_per_channel + chip) * np.nr_blocks_per_chip + blk + 1
      ≤ np.nr_channels * np.nr_chips_per_channel * np.nr_blocks_per_chip := by
    calc (ch * np.nr_chips_per_channel + chip) * np.nr_blocks_per_chip + blk + 1
        ≤ (ch * np.nr_chips_per_channel + chip) * np.nr_blocks_per_chip
            + np.nr_blocks_per_chip := by omega
      _ = (ch * np.nr_chips_per_channel + chip + 1) * np.nr_blocks_per_chip := by ring
      _ ≤ np.nr_channels * np.nr_chips_per_channel * np.nr_blocks_per_chip :=
          Nat.mul_le_mul_right _ h1
  calc ((ch * np.nr_chips_per_channel + chip) * np.nr_blocks_per_chip + blk)
          * np.nr_pages_per_block + pg + 1
      ≤ ((ch * np.nr_chips_per_channel + chip) * np.nr_blocks_per_chip + blk)
          * np.nr_pages_per_block + np.nr_pages_per_block := by omega
    _ = ((ch * np.nr_chips_per_channel + chip) * np.nr_blocks_per_chip + blk + 1)
          * np.nr_pages_per_block := by ring
    _ ≤ np.nr_channels * np.nr_chips_per_channel * np.nr_blocks_per_chip
          * np.nr_pages_per_block := Nat.mul_le_mul_right _ h2

theorem mixed_radix_inj (a b a2 b2 n : Nat) (hb : b < n) (hb2 : b2 < n)
    (h : a * n + b = a2 * n + b2) : a = a2 ∧ b = b2 := by
  have hn : 0 < n := by omega
  have e1 : (a * n + b) / n = a := by
    rw [Nat.mul_comm, Nat.mul_add_div hn, Nat.div_eq_of_lt hb, Nat.add_zero]
  have e2 : (a2 * n + b2) / n = a2 := by
    rw [Nat.mul_comm, Nat.mul_add_div hn, Nat.div_eq_of_lt hb2, Nat.add_zero]
  have ha : a = a2 := by rw [← e1, ← e2, h]
  subst ha
  exact ⟨rfl, by omega⟩

theorem page_index_inj (np : bdbm_device_params_t) (ch chip blk pg ch2 chip2 blk2 pg2 : Nat)
    (hchip : chip < np.nr_chips_per_channel)
    (hblk : blk < np.nr_blocks_per_chip) (hpg : pg < np.nr_pages_per_block)
    (hchip2 : chip2 < np.nr_chips_per_channel)
    (hblk2 : blk2 < np.nr_blocks_per_chip) (hpg2 : pg2 < np.nr_pages_per_block)
    (h : page_index np ch chip blk pg = page_index np ch2 chip2 blk2 pg2) :
    ch = ch2 ∧ chip = chip2 ∧ blk = blk2 ∧ pg = pg2 := by
  unfold page_index at h
  obtain ⟨h1, e4⟩ := mixed_radix_inj _ _ _ _ _ hpg hpg2 h
  obtain ⟨h2, e3⟩ := mixed_radix_inj _ _ _ _ _ hblk hblk2 h1
  obtain ⟨e1, e2⟩ := mixed_radix_inj _ _ _ _ _ hchip hchip2 h2
  exact ⟨e1, e2, e3, e4⟩

theorem page_offset_exact (np : bdbm_device_params_t) (ch chip blk pg : Nat)
    (hsz : np.nr_channels * np.nr_chips_per_channel * np.nr_blocks_per_chip
        * np.nr_pages_per_block * (np.page_main_size + np.page_oob_size) < U64)
    (hch : ch < np.nr_channels) (hchip : chip < np.nr_chips_per_channel)
    (hblk : blk < np.nr_blocks_per_chip) (hpg : pg < np.nr_pages_per_block) :
    page_offset np ch chip blk pg =
      page_index np ch chip blk pg * (np.page_main_size + np.page_oob_size) ∧
    page_offset np ch chip blk pg + (np.page_main_size + np.page_oob_size)
      ≤ ssd_size_in_bytes np := by
  have hi := page_index_succ_le np ch chip blk pg hch hchip hblk hpg
  have hle : (page_index np ch chip blk pg + 1) * (np.page_main_size + np.page_oob_size)
      ≤ np.nr_channels * np.nr_chips_per_channel * np.nr_blocks_per_chip
        * np.nr_pages_per_block * (np.page_main_size + np.page_oob_size) :=
    Nat.mul_le_mul_right _ hi
  rw [Nat.add_mul, Nat.one_mul] at hle
  rw [page_offset_eq, ssd_size_in_bytes_eq, Nat.mod_eq_of_lt hsz, Nat.mod_eq_of_lt (by omega)]
  exact ⟨rfl, hle⟩

theorem ico_disjoint_of_index_ne (i j P : Nat) (h : i ≠ j) :
    Disjoint (Set.Ico (i * P) (i * P + P)) (Set.Ico (j * P) (j * P + P)) := by
  rw [Set.disjoint_left]
  intro a ha hb
  simp only [Set.mem_Ico] at ha hb
  rcases Nat.lt_or_gt_of_ne h with hlt | hgt
  · have : (i + 1) * P ≤ j * P := Nat.mul_le_mul_right _ hlt
    rw [Nat.add_mul, Nat.one_mul] at this
    omega
  · have : (j + 1) * P ≤ i * P := Nat.mul_le_mul_right _ hgt
    rw [Nat.add_mul, Nat.one_mul] at this
    omega

/-- C3 (amended). For every geometry whose size
`nr_channels * nr_chips_per_channel * nr_blocks_per_chip * nr_pages_per_block *
(page_main_size + page_oob_size)` is below `2 ^ 64`, every in-range
(ch, chip, blk, pg) gets from `__ramssd_page_addr` an offset with
`offset + page_main_size + page_oob_size <= ssd_size_in_bytes`, and two
distinct in-range tuples get disjoint byte ranges
`[offset, offset + page_main_size + page_oob_size)`. -/
theorem page_addr_within_store_and_disjoint (np : bdbm_device_params_t)
    (hsz : np.nr_channels * np.nr_chips_per_channel * np.nr_blocks_per_chip
        * np.nr_pages_per_block * (np.page_main_size + np.page_oob_size) < U64) :
    (∀ ch chip blk pg, ch < np.nr_channels → chip < np.nr_chips_per_channel →
      blk < np.nr_blocks_per_chip → pg < np.nr_pages_per_block →
      ∃ off, __ramssd_page_addr np ch chip blk pg = some off ∧
        off + np.page_main_size + np.page_oob_size ≤ ssd_size_in_bytes np) ∧
    (∀ ch chip blk pg ch2 chip2 blk2 pg2,
      ch < np.nr_channels → chip < np.nr_chips_per_channel →
      blk < np.nr_blocks_per_chip → pg < np.nr_pages_per_block →
      ch2 < np.nr_channels → chip2 < np.nr_chips_per_channel →
      blk2 < np.nr_blocks_per_chip → pg2 < np.nr_pages_per_block →
      (ch, chip, blk, pg) ≠ (ch2, chip2, blk2, pg2) →
      ∃ off off2, __ramssd_page_addr np ch chip blk pg = some off ∧
        __ramssd_page_addr np ch2 chip2 blk2 pg2 = some off2 ∧
        Disjoint (Set.Ico off (off + np.page_main_size + np.page_oob_size))
          (Set.Ico off2 (off2 + np.page_main_size + np.page_oob_size))) := by
  constructor
  · intro ch chip blk pg hch hchip hblk hpg
    refine ⟨page_offset np ch chip blk pg, rfl, ?_⟩
    have := (page_offset_exact np ch chip blk pg hsz hch hchip hblk hpg).2
    omega
  · intro ch chip blk pg ch2 chip2 blk2 pg2 hch hchip hblk hpg hch2 hchip2 hblk2 hpg2 hne
    refine ⟨page_offset np ch chip blk pg, page_offset np ch2 chip2 blk2 pg2, rfl, rfl, ?_⟩
    rw [(page_offset_exact np ch chip blk pg hsz hch hchip hblk hpg).1,
      (page_offset_exact np ch2 chip2 blk2 pg2 hsz hch2 hchip2 hblk2 hpg2).1]
    have hidx : page_index np ch chip blk pg ≠ page_index np ch2 chip2 blk2 pg2 := by
      intro h
      obtain ⟨e1, e2, e3, e4⟩ :=
        page_index_inj np ch chip blk pg ch2 chip2 blk2 pg2 hchip hblk hpg hchip2 hblk2 hpg2 h
      exact hne (by rw [e1, e2, e3, e4])
    simpa only [Nat.add_assoc] using
      ico_disjoint_of_index_ne _ _ (np.page_main_size + np.page_oob_size) hidx

/-- Witness of C3 (amended) on the geometry 2 x 2 x 2 x 4 with pages of
4096 + 128 bytes: its size is below `2 ^ 64`, page (1, 0, 1, 2) lies in the
store, and pages (1, 0, 1, 2) and (0, 1, 1, 3) have disjoint ranges. -/
theorem page_addr_within_store_and_disjoint_witness :
    geom_s1.nr_channels * geom_s1.nr_chips_per_channel * geom_s1.nr_blocks_per_chip
        * geom_s1.nr_pages_per_block * (geom_s1.page_main_size + geom_s1.page_oob_size) < U64 ∧
    (∃ off, __ramssd_page_addr geom_s1 1 0 1 2 = some off ∧
        off + geom_s1.page_main_size + geom_s1.page_oob_size ≤ ssd_size_in_bytes geom_s1) ∧
    (∃ off off2, __ramssd_page_addr geom_s1 1 0 1 2 = some off ∧
        __ramssd_page_addr geom_s1 0 1 1 3 = some off2 ∧
        Disjoint (Set.Ico off (off + geom_s1.page_main_size + geom_s1.page_oob_size))
          (Set.Ico off2 (off2 + geom_s1.page_main_size + geom_s1.page_oob_size))) :=
  ⟨by decide,
   (page_addr_within_store_and_disjoint geom_s1 (by decide)).1 1 0 1 2
     (by decide) (by decide) (by decide) (by decide),
   (page_addr_within_store_and_disjoint geom_s1 (by decide)).2 1 0 1 2 0 1 1 3
     (by decide) (by decide) (by decide) (by decide)
     (by decide) (by decide) (by decide) (by decide) (by decide)⟩

/-- Counterexample to C3 as stated: in the geometry with 2^32 channels of
2^32 chips (all dimensions positive) the in-range pages (0, 0, 0, 0) and
(2^25, 0, 0, 0) both get offset 0, the allocated size wraps to 0, so the
range of page (0, 0, 0, 0) does not fit the store and the ranges of the two
distinct pages are not disjoint. -/
theorem page_addr_bijection_wraps :
    (0 < geom_wrap.nr_channels ∧ 0 < geom_wrap.nr_chips_per_channel ∧
      0 < geom_wrap.nr_blocks_per_chip ∧ 0 < geom_wrap.nr_pages_per_block) ∧
    (2 ^ 25 < geom_wrap.nr_channels) ∧
    ((0, 0, 0, 0) : Nat × Nat × Nat × Nat) ≠ (2 ^ 25, 0, 0, 0) ∧
    __ramssd_page_addr geom_wrap 0 0 0 0 = some 0 ∧
    __ramssd_page_addr geom_wrap (2 ^ 25) 0 0 0 = some 0 ∧
    ssd_size_in_bytes geom_wrap = 0 ∧
    ¬ (0 + geom_wrap.page_main_size + geom_wrap.page_oob_size ≤ ssd_size_in_bytes geom_wrap) ∧
    ¬ Disjoint (Set.Ico 0 (0 + geom_wrap.page_main_size + geom_wrap.page_oob_size))
        (Set.Ico 0 (0 + geom_wrap.page_main_size + geom_wrap.page_oob_size)) := by
  refine ⟨by decide, by decide, by decide, by decide, by decide, by decide, by decide, ?_⟩
  rw [Set.not_disjoint_iff]
  exact ⟨0, by simp [geom_wrap, geom_s1], by simp [geom_wrap, geom_s1]⟩

/-- C4 (amended). Address formula: for all indices, the offset that
`__ramssd_page_addr` computes
(`channel_size*ch + chip_size*chip + block_size*blk + page_size*pg`, in
`uint64_t`) equals
`((((ch * nr_chips_per_channel) + chip) * nr_blocks_per_chip + blk) *
nr_pages_per_block + pg) * (page_main_size + page_oob_size)` modulo `2 ^ 64`;
it is that number itself whenever the number is below `2 ^ 64`, in particular
for every in-range index of a geometry whose size
`nr_channels * nr_chips_per_channel * nr_blocks_per_chip * nr_pages_per_block
* (page_main_size + page_oob_size)` is below `2 ^ 64`; and
`__ramssd_block_addr (ch, chip, blk)` equals
`__ramssd_page_addr (ch, chip, blk, 0)` for all indices. -/
theorem page_addr_formula (np : bdbm_device_params_t) (ch chip blk pg : Nat) :
    __ramssd_page_addr np ch chip blk pg =
      some ((((((ch * np.nr_chips_per_channel) + chip) * np.nr_blocks_per_chip + blk)
        * np.nr_pages_per_block + pg) * (np.page_main_size + np.page_oob_size)) % U64) ∧
    ((((((ch * np.nr_chips_per_channel) + chip) * np.nr_blocks_per_chip + blk)
        * np.nr_pages_per_block + pg) * (np.page_main_size + np.page_oob_size)) < U64 →
      __ramssd_page_addr np ch chip blk pg =
        some (((((ch * np.nr_chips_per_channel) + chip) * np.nr_blocks_per_chip + blk)
          * np.nr_pages_per_block + pg) * (np.page_main_size + np.page_oob_size))) ∧
    (np.nr_channels * np.nr_chips_per_channel * np.nr_blocks_per_chip
        * np.nr_pages_per_block * (np.page_main_size + np.page_oob_size) < U64 →
      ch < np.nr_channels → chip < np.nr_chips_per_channel →
      blk < np.nr_blocks_per_chip → pg < np.nr_pages_per_block →
      __ramssd_page_addr np ch chip blk pg =
        some (((((ch * np.nr_chips_per_channel) + chip) * np.nr_blocks_per_chip + blk)
          * np.nr_pages_per_block + pg) * (np.page_main_size + np.page_oob_size))) ∧
    __ramssd_block_addr np ch chip blk = __ramssd_page_addr np ch chip blk 0 := by
  have h := page_offset_eq np ch chip blk pg
  unfold page_index at h
  refine ⟨?_, ?_, ?_, ?_⟩
  · unfold __ramssd_page_addr
    rw [h]
  · intro hlt
    unfold __ramssd_page_addr
    rw [h, Nat.mod_eq_of_lt hlt]
  · intro hsz hch hchip hblk hpg
    have he := (page_offset_exact np ch chip blk pg hsz hch hchip hblk hpg).1
    unfold page_index at he
    unfold __ramssd_page_addr
    rw [he]
  · unfold __ramssd_block_addr __ramssd_page_addr
    rw [block_offset_eq]

/-- Witness of C4 (amended) on the geometry 2 x 2 x 2 x 4 with pages of
4096 + 128 bytes, whose size is below `2 ^ 64`: the in-range page
(1, 0, 1, 2) is page number 22 and starts at byte 22 * 4224 = 92928. -/
theorem page_addr_formula_witness :
    __ramssd_page_addr geom_s1 1 0 1 2 = some 92928 ∧
    __ramssd_page_addr geom_s1 1 0 1 2 =
      some (((((1 * geom_s1.nr_chips_per_channel) + 0) * geom_s1.nr_blocks_per_chip + 1)
        * geom_s1.nr_pages_per_block + 2) * (geom_s1.page_main_size + geom_s1.page_oob_size)) ∧
    __ramssd_block_addr geom_s1 1 0 1 = __ramssd_page_addr geom_s1 1 0 1 0 :=
  ⟨(page_addr_formula geom_s1 1 0 1 2).2.1 (by decide),
   (page_addr_formula geom_s1 1 0 1 2).2.2.1 (by decide) (by decide) (by decide) (by decide)
     (by decide),
   (page_addr_formula geom_s1 1 0 1 2).2.2.2⟩

/-- Counterexample to C4 as stated: in the geometry with 2^32 channels of
2^32 chips of one page of 4096 + 128 bytes, the index (2^25, 0, 0, 0) is in
range and the formula gives `2 ^ 57 * 4224 = 33 * 2 ^ 64`, but the code sums
in `uint64_t` and `__ramssd_page_addr` yields offset 0. -/
theorem page_addr_formula_wraps :
    (2 ^ 25 < geom_wrap.nr_channels ∧ 0 < geom_wrap.nr_chips_per_channel ∧
      0 < geom_wrap.nr_blocks_per_chip ∧ 0 < geom_wrap.nr_pages_per_block) ∧
    __ramssd_page_addr geom_wrap (2 ^ 25) 0 0 0 = some 0 ∧
    ((((2 ^ 25 * geom_wrap.nr_chips_per_channel) + 0) * geom_wrap.nr_blocks_per_chip + 0)
        * geom_wrap.nr_pages_per_block + 0)
      * (geom_wrap.page_main_size + geom_wrap.page_oob_size) = 33 * 2 ^ 64 ∧
    __ramssd_page_addr geom_wrap (2 ^ 25) 0 0 0 ≠
      some (((((2 ^ 25 * geom_wrap.nr_chips_per_channel) + 0) * geom_wrap.nr_blocks_per_chip + 0)
        * geom_wrap.nr_pages_per_block + 0)
        * (geom_wrap.page_main_size + geom_wrap.page_oob_size)) := by
  refine ⟨by decide, by decide, by decide, by decide⟩

/-! ## Page engine: what program and read do to memory -/

theorem bdbm_memcpy_hit (dst : Nat → Nat) (doff : Nat) (src : Nat → Nat) (soff n j : Nat)
    (hj : j < n) : bdbm_memcpy dst doff src soff n (doff + j) = src (soff + j) := by
  unfold bdbm_memcpy
  rw [if_pos ⟨Nat.le_add_right _ _, by omega⟩]
  congr 1
  omega

theorem bdbm_memcpy_miss (dst : Nat → Nat) (doff : Nat) (src : Nat → Nat) (soff n a : Nat)
    (ha : a < doff ∨ doff + n ≤ a) : bdbm_memcpy dst doff src soff n a = dst a := by
  unfold bdbm_memcpy
  rw [if_neg]
  omega

/-- The copy loop of the program, on the store. -/
theorem store_loop_miss (skip : Nat → Bool) (off K : Nat) (bufs : Nat → Nat → Nat)
    (mem : Nat → Nat) (a : Nat) (n : Nat)
    (h : ∀ i, i < n → skip i = true ∨ a < off + K * i ∨ off + K * i + K ≤ a) :
    for_loop n (fun loop m =>
      if skip loop then m else bdbm_memcpy m (off + K * loop) (bufs loop) 0 K) mem a
      = mem a := by
  induction n with
  | zero => rfl
  | succ k ih =>
    have ih2 := ih (fun i hi => h i (Nat.lt_succ_of_lt hi))
    simp only [for_loop]
    rcases h k (Nat.lt_succ_self k) with hs | hr
    · rw [if_pos hs]; exact ih2
    · by_cases hs : skip k = true
      · rw [if_pos hs]; exact ih2
      · rw [if_neg hs, bdbm_memcpy_miss _ _ _ _ _ _ hr]; exact ih2

theorem store_loop_hit (skip : Nat → Bool) (off K : Nat) (bufs : Nat → Nat → Nat)
    (mem : Nat → Nat) (n i j : Nat) (hi : i < n) (hs : skip i = false) (hj : j < K) :
    for_loop n (fun loop m =>
      if skip loop then m else bdbm_memcpy m (off + K * loop) (bufs loop) 0 K) mem
      (off + K * i + j) = bufs i j := by
  induction n with
  | zero => omega
  | succ k ih =>
    simp only [for_loop]
    by_cases hik : i = k
    · subst hik
      rw [if_neg (by simp [hs]), bdbm_memcpy_hit _ _ _ _ _ _ hj, Nat.zero_add]
    · have hlt : i < k := by omega
      have hmul : K * i + K ≤ K * k := by
        calc K * i + K = K * (i + 1) := by ring
          _ ≤ K * k := Nat.mul_le_mul_left _ hlt
      by_cases hsk : skip k = true
      · rw [if_pos hsk]; exact ih hlt
      · rw [if_neg hsk, bdbm_memcpy_miss _ _ _ _ _ _ (by omega)]; exact ih hlt

theorem buf_loop_eq (skip : Nat → Bool) (off K : Nat) (store : Nat → Nat)
    (bufs : Nat → Nat → Nat) (n i : Nat) :
    for_loop n (fun loop b =>
      if skip loop then b
      else Function.update b loop (bdbm_memcpy (b loop) 0 store (off + K * loop) K)) bufs i
      = if i < n ∧ skip i = false then bdbm_memcpy (bufs i) 0 store (off + K * i) K
        else bufs i := by
  induction n with
  | zero => simp [for_loop]
  | succ k ih =>
    simp only [for_loop]
    by_cases hsk : skip k = true
    · rw [if_pos hsk, ih]
      by_cases hik : i = k
      · subst hik; simp [hsk]
      · have : (i < k + 1) ↔ (i < k) := by omega
        simp only [this]
    · rw [if_neg hsk]
      by_cases hik : i = k
      · subst hik
        rw [Function.update_same, ih]
        simp [hsk]
      · rw [Function.update_noteq hik, ih]
        have : (i < k + 1) ↔ (i < k) := by omega
        simp only [this]

theorem nr_kpages_mul_le (pf : platform_t) (np : bdbm_device_params_t) :
    pf.KERNEL_PAGE_SIZE * nr_kpages pf np ≤ np.page_main_size := by
  unfold nr_kpages
  calc pf.KERNEL_PAGE_SIZE * (np.page_main_size / pf.KERNEL_PAGE_SIZE % U32)
      ≤ pf.KERNEL_PAGE_SIZE * (np.page_main_size / pf.KERNEL_PAGE_SIZE) :=
        Nat.mul_le_mul_left _ (Nat.mod_le _ _)
    _ ≤ np.page_main_size := Nat.mul_div_le _ _

theorem subpage_end_le (K m i : Nat) (hi : i < m / K) : K * i + K ≤ m := by
  calc K * i + K = K * (i + 1) := by ring
    _ ≤ K * (m / K) := Nat.mul_le_mul_left _ hi
    _ ≤ m := Nat.mul_div_le _ _

theorem nr_kpages_eq (pf : platform_t) (np : bdbm_device_params_t)
    (h32 : np.page_main_size / pf.KERNEL_PAGE_SIZE < U32) :
    nr_kpages pf np = np.page_main_size / pf.KERNEL_PAGE_SIZE := by
  unfold nr_kpages
  exact Nat.mod_eq_of_lt h32

/-- The store after a program, when the geometry test passes. -/
theorem prog_page_store (pf : platform_t) (np : bdbm_device_params_t)
    (ssdram shadow : Nat → Nat) (ch chip blk pg : Nat)
    (kp : Nat → Nat) (bufs : Nat → Nat → Nat) (O : Nat → Nat) (oob : Nat)
    (hdiv : np.page_main_size % pf.KERNEL_PAGE_SIZE = 0) :
    (__ramssd_prog_page pf np ssdram shadow ch chip blk pg kp bufs O oob).ret = 0 ∧
    (__ramssd_prog_page pf np ssdram shadow ch chip blk pg kp bufs O oob).ptr_ssdram =
      (if oob ≠ 0 then
        bdbm_memcpy
          (for_loop (nr_kpages pf np) (fun loop mem =>
            if prog_skips pf np kp O loop then mem
            else bdbm_memcpy mem (page_offset np ch chip blk pg + pf.KERNEL_PAGE_SIZE * loop)
              (bufs loop) 0 pf.KERNEL_PAGE_SIZE) ssdram)
          (page_offset np ch chip blk pg + np.page_main_size) O 0 np.page_oob_size
       else
        for_loop (nr_kpages pf np) (fun loop mem =>
            if prog_skips pf np kp O loop then mem
            else bdbm_memcpy mem (page_offset np ch chip blk pg + pf.KERNEL_PAGE_SIZE * loop)
              (bufs loop) 0 pf.KERNEL_PAGE_SIZE) ssdram) := by
  unfold __ramssd_prog_page __ramssd_page_addr
  simp only [hdiv, ne_eq, not_true_eq_false, if_false]
  exact ⟨trivial, trivial⟩

theorem prog_page_fail (pf : platform_t) (np : bdbm_device_params_t)
    (ssdram shadow : Nat → Nat) (ch chip blk pg : Nat)
    (kp : Nat → Nat) (bufs : Nat → Nat → Nat) (O : Nat → Nat) (oob : Nat)
    (hdiv : np.page_main_size % pf.KERNEL_PAGE_SIZE ≠ 0) :
    __ramssd_prog_page pf np ssdram shadow ch chip blk pg kp bufs O oob =
      ⟨1, ssdram, shadow⟩ := by
  unfold __ramssd_prog_page __ramssd_page_addr
  simp only [hdiv, ne_eq, not_false_eq_true, if_true]

/-- A sub-page that the program does not skip holds the caller's data. -/
theorem prog_page_subpage_written (pf : platform_t) (np : bdbm_device_params_t)
    (ssdram shadow : Nat → Nat) (ch chip blk pg : Nat)
    (kp : Nat → Nat) (bufs : Nat → Nat → Nat) (O : Nat → Nat) (oob : Nat)
    (hdiv : np.page_main_size % pf.KERNEL_PAGE_SIZE = 0)
    (i j : Nat) (hi : i < nr_kpages pf np) (hs : prog_skips pf np kp O i = false)
    (hj : j < pf.KERNEL_PAGE_SIZE) :
    (__ramssd_prog_page pf np ssdram shadow ch chip blk pg kp bufs O oob).ptr_ssdram
      (page_offset np ch chip blk pg + pf.KERNEL_PAGE_SIZE * i + j) = bufs i j := by
  rw [(prog_page_store pf np ssdram shadow ch chip blk pg kp bufs O oob hdiv).2]
  have hle := nr_kpages_mul_le pf np
  have hmul : pf.KERNEL_PAGE_SIZE * i + pf.KERNEL_PAGE_SIZE ≤
      pf.KERNEL_PAGE_SIZE * nr_kpages pf np := by
    calc pf.KERNEL_PAGE_SIZE * i + pf.KERNEL_PAGE_SIZE = pf.KERNEL_PAGE_SIZE * (i + 1) := by ring
      _ ≤ _ := Nat.mul_le_mul_left _ hi
  split
  · rw [bdbm_memcpy_miss _ _ _ _ _ _ (by omega)]
    exact store_loop_hit _ _ _ _ _ _ i j hi hs hj
  · exact store_loop_hit _ _ _ _ _ _ i j hi hs hj

/-- The OOB area of the page holds the caller's OOB buffer after a program
that is asked to write it. -/
theorem prog_page_oob_written (pf : platform_t) (np : bdbm_device_params_t)
    (ssdram shadow : Nat → Nat) (ch chip blk pg : Nat)
    (kp : Nat → Nat) (bufs : Nat → Nat → Nat) (O : Nat → Nat) (oob : Nat)
    (hdiv : np.page_main_size % pf.KERNEL_PAGE_SIZE = 0) (hoob : oob ≠ 0)
    (j : Nat) (hj : j < np.page_oob_size) :
    (__ramssd_prog_page pf np ssdram shadow ch chip blk pg kp bufs O oob).ptr_ssdram
      (page_offset np ch chip blk pg + np.page_main_size + j) = O j := by
  rw [(prog_page_store pf np ssdram shadow ch chip blk pg kp bufs O oob hdiv).2, if_pos hoob,
    bdbm_memcpy_hit _ _ _ _ _ _ hj, Nat.zero_add]

/-- Bytes outside the sub-pages that the program writes and outside the OOB
area keep their value. -/
theorem prog_page_frame (pf : platform_t) (np : bdbm_device_params_t)
    (ssdram shadow : Nat → Nat) (ch chip blk pg : Nat)
    (kp : Nat → Nat) (bufs : Nat → Nat → Nat) (O : Nat → Nat) (oob : Nat) (a : Nat)
    (hsub : ∀ i, i < nr_kpages pf np → prog_skips pf np kp O i = true ∨
      a < page_offset np ch chip blk pg + pf.KERNEL_PAGE_SIZE * i ∨
      page_offset np ch chip blk pg + pf.KERNEL_PAGE_SIZE * i + pf.KERNEL_PAGE_SIZE ≤ a)
    (hoob : oob = 0 ∨ a < page_offset np ch chip blk pg + np.page_main_size ∨
      page_offset np ch chip blk pg + np.page_main_size + np.page_oob_size ≤ a) :
    (__ramssd_prog_page pf np ssdram shadow ch chip blk pg kp bufs O oob).ptr_ssdram a
      = ssdram a := by
  by_cases hdiv : np.page_main_size % pf.KERNEL_PAGE_SIZE = 0
  · rw [(prog_page_store pf np ssdram shadow ch chip blk pg kp bufs O oob hdiv).2]
    split
    · rename_i h
      rcases hoob with h0 | h1
      · exact absurd h0 h
      · rw [bdbm_memcpy_miss _ _ _ _ _ _ h1]
        exact store_loop_miss _ _ _ _ _ _ _ hsub
    · exact store_loop_miss _ _ _ _ _ _ _ hsub
  · rw [prog_page_fail pf np ssdram shadow ch chip blk pg kp bufs O oob hdiv]

/-- What a read leaves in the caller's buffers, when the geometry test passes. -/
theorem read_page_result (pf : platform_t) (np : bdbm_device_params_t)
    (ssdram shadow : Nat → Nat) (ch chip blk pg : Nat)
    (kp : Nat → Nat) (bufs : Nat → Nat → Nat) (O : Nat → Nat) (oob partial_ : Nat)
    (hdiv : np.page_main_size % pf.KERNEL_PAGE_SIZE = 0) :
    (__ramssd_read_page pf np ssdram shadow ch chip blk pg kp bufs O oob partial_).ret = 0 ∧
    (∀ i, (__ramssd_read_page pf np ssdram shadow ch chip blk pg kp bufs O oob
        partial_).ptr_page_data i =
      if i < nr_kpages pf np ∧ read_skips pf kp partial_ i = false then
        bdbm_memcpy (bufs i) 0 ssdram
          (page_offset np ch chip blk pg + pf.KERNEL_PAGE_SIZE * i) pf.KERNEL_PAGE_SIZE
      else bufs i) ∧
    (__ramssd_read_page pf np ssdram shadow ch chip blk pg kp bufs O oob
        partial_).ptr_oob_data =
      (if partial_ = 0 ∧ oob ≠ 0 then
        bdbm_memcpy O 0 ssdram (page_offset np ch chip blk pg + np.page_main_size)
          np.page_oob_size
       else O) := by
  unfold __ramssd_read_page __ramssd_page_addr
  simp only [hdiv, ne_eq, not_true_eq_false, if_false]
  refine ⟨trivial, ?_, trivial⟩
  intro i
  exact buf_loop_eq _ _ _ _ _ _ i

theorem read_page_fail (pf : platform_t) (np : bdbm_device_params_t)
    (ssdram shadow : Nat → Nat) (ch chip blk pg : Nat)
    (kp : Nat → Nat) (bufs : Nat → Nat → Nat) (O : Nat → Nat) (oob partial_ : Nat)
    (hdiv : np.page_main_size % pf.KERNEL_PAGE_SIZE ≠ 0) :
    (__ramssd_read_page pf np ssdram shadow ch chip blk pg kp bufs O oob partial_).ret = 1 ∧
    (__ramssd_read_page pf np ssdram shadow ch chip blk pg kp bufs O oob
        partial_).ptr_page_data = bufs ∧
    (__ramssd_read_page pf np ssdram shadow ch chip blk pg kp bufs O oob
        partial_).ptr_oob_data = O := by
  unfold __ramssd_read_page __ramssd_page_addr
  simp only [hdiv, ne_eq, not_false_eq_true, if_true]
  exact ⟨trivial, trivial, trivial⟩

theorem read_skips_data (pf : platform_t) (kp : Nat → Nat) (i : Nat)
    (hdone : pf.KP_STT_DATA &&& pf.KP_STT_DONE ≠ pf.KP_STT_DONE)
    (hk : kp i = pf.KP_STT_DATA) : read_skips pf kp 0 i = false := by
  unfold read_skips
  simp [hk, hdone]

theorem prog_skips_data (pf : platform_t) (np : bdbm_device_params_t) (kp : Nat → Nat)
    (O : Nat → Nat) (i : Nat) (hk : kp i = pf.KP_STT_DATA)
    (hmode : np.nr_subpages_per_block = np.nr_pages_per_block ∨
      lpa_invalid_i64 (oob_u64 O i) = false) :
    prog_skips pf np kp O i = false := by
  unfold prog_skips
  rcases hmode with h | h
  · simp [h, hk]
  · simp [h, hk]

theorem prog_skips_gated (pf : platform_t) (np : bdbm_device_params_t) (kp : Nat → Nat)
    (O : Nat → Nat) (i : Nat)
    (hgate : kp i ≠ pf.KP_STT_DATA ∨
      (np.nr_subpages_per_block ≠ np.nr_pages_per_block ∧
        lpa_invalid_i64 (oob_u64 O i) = true)) :
    prog_skips pf np kp O i = true := by
  unfold prog_skips
  rcases hgate with h | h
  · simp [h]
  · simp [h.1, h.2]

/-! ## Page engine: the claims -/

/-- C1 (amended). Program-read round trip: for every geometry whose
`page_main_size` is a multiple of `KERNEL_PAGE_SIZE` into fewer than `2 ^ 32`
sub-pages, and which is in page-mode
(`nr_subpages_per_block = nr_pages_per_block`) or whose OOB buffer carries for
every sub-page an lpa that the program does not take for a sentinel, every
in-range page and every payload `B` with OOB buffer `O`: `__ramssd_prog_page`
with all flags `DATA` and the OOB requested, followed by a non-partial
`__ramssd_read_page` of the same address with all flags `DATA` and the OOB
requested, returns 0 from both, exactly `B` in the main buffers and exactly
`O` in the OOB buffer (a flag `DATA` does not have all bits of `DONE`). -/
theorem prog_then_read_round_trip (pf : platform_t) (np : bdbm_device_params_t)
    (ssdram shadow : Nat → Nat) (ch chip blk pg : Nat)
    (kp_w kp_r : Nat → Nat) (B rbufs : Nat → Nat → Nat) (O roob : Nat → Nat)
    (oob_w oob_r : Nat)
    (_hch : ch < np.nr_channels) (_hchip : chip < np.nr_chips_per_channel)
    (_hblk : blk < np.nr_blocks_per_chip) (_hpg : pg < np.nr_pages_per_block)
    (hdiv : np.page_main_size % pf.KERNEL_PAGE_SIZE = 0)
    (h32 : np.page_main_size / pf.KERNEL_PAGE_SIZE < U32)
    (hmode : np.nr_subpages_per_block = np.nr_pages_per_block ∨
      ∀ i, i < np.page_main_size / pf.KERNEL_PAGE_SIZE →
        lpa_invalid_i64 (oob_u64 O i) = false)
    (hdone : pf.KP_STT_DATA &&& pf.KP_STT_DONE ≠ pf.KP_STT_DONE)
    (hkw : ∀ i, i < np.page_main_size / pf.KERNEL_PAGE_SIZE → kp_w i = pf.KP_STT_DATA)
    (hkr : ∀ i, i < np.page_main_size / pf.KERNEL_PAGE_SIZE → kp_r i = pf.KP_STT_DATA)
    (hoobw : oob_w ≠ 0) (hoobr : oob_r ≠ 0) :
    (__ramssd_prog_page pf np ssdram shadow ch chip blk pg kp_w B O oob_w).ret = 0 ∧
    (__ramssd_read_page pf np
      (__ramssd_prog_page pf np ssdram shadow ch chip blk pg kp_w B O oob_w).ptr_ssdram
      (__ramssd_prog_page pf np ssdram shadow ch chip blk pg kp_w B O oob_w).ptr_ramssd_data
      ch chip blk pg kp_r rbufs roob oob_r 0).ret = 0 ∧
    (∀ i j, i < np.page_main_size / pf.KERNEL_PAGE_SIZE → j < pf.KERNEL_PAGE_SIZE →
      (__ramssd_read_page pf np
        (__ramssd_prog_page pf np ssdram shadow ch chip blk pg kp_w B O oob_w).ptr_ssdram
        (__ramssd_prog_page pf np ssdram shadow ch chip blk pg kp_w B O oob_w).ptr_ramssd_data
        ch chip blk pg kp_r rbufs roob oob_r 0).ptr_page_data i j = B i j) ∧
    (∀ j, j < np.page_oob_size →
      (__ramssd_read_page pf np
        (__ramssd_prog_page pf np ssdram shadow ch chip blk pg kp_w B O oob_w).ptr_ssdram
        (__ramssd_prog_page pf np ssdram shadow ch chip blk pg kp_w B O oob_w).ptr_ramssd_data
        ch chip blk pg kp_r rbufs roob oob_r 0).ptr_oob_data j = O j) := by
  have hn := nr_kpages_eq pf np h32
  obtain ⟨hr0, hrd, hro⟩ := read_page_result pf np
    (__ramssd_prog_page pf np ssdram shadow ch chip blk pg kp_w B O oob_w).ptr_ssdram
    (__ramssd_prog_page pf np ssdram shadow ch chip blk pg kp_w B O oob_w).ptr_ramssd_data
    ch chip blk pg kp_r rbufs roob oob_r 0 hdiv
  refine ⟨(prog_page_store pf np ssdram shadow ch chip blk pg kp_w B O oob_w hdiv).1, hr0,
    ?_, ?_⟩
  · intro i j hi hj
    have hi2 : i < nr_kpages pf np := by rw [hn]; exact hi
    have hsk : prog_skips pf np kp_w O i = false :=
      prog_skips_data pf np kp_w O i (hkw i hi) (hmode.imp id (fun h => h i hi))
    rw [hrd i, if_pos ⟨hi2, read_skips_data pf kp_r i hdone (hkr i hi)⟩]
    have := bdbm_memcpy_hit (rbufs i) 0
      (__ramssd_prog_page pf np ssdram shadow ch chip blk pg kp_w B O oob_w).ptr_ssdram
      (page_offset np ch chip blk pg + pf.KERNEL_PAGE_SIZE * i) pf.KERNEL_PAGE_SIZE j hj
    rw [Nat.zero_add] at this
    rw [this]
    exact prog_page_subpage_written pf np ssdram shadow ch chip blk pg kp_w B O oob_w hdiv
      i j hi2 hsk hj
  · intro j hj
    rw [hro, if_pos ⟨rfl, hoobr⟩]
    have := bdbm_memcpy_hit roob 0
      (__ramssd_prog_page pf np ssdram shadow ch chip blk pg kp_w B O oob_w).ptr_ssdram
      (page_offset np ch chip blk pg + np.page_main_size) np.page_oob_size j hj
    rw [Nat.zero_add] at this
    rw [this]
    exact prog_page_oob_written pf np ssdram shadow ch chip blk pg kp_w B O oob_w hdiv hoobw
      j hj

/-- Witness of C1 (amended), scenario S2: geometry 2 x 2 x 2 x 4 with pages of
4096 + 128 bytes, page (1, 0, 1, 2), main buffer `0x42` throughout, first OOB
word 7, on an erased store. -/
theorem prog_then_read_round_trip_witness :
    (__ramssd_prog_page pf_ref geom_s1 (fun _ => 0xFF) (fun _ => 0xFF) 1 0 1 2
      (fun _ => 1) (fun _ _ => 0x42) oob_lpa7 1).ret = 0 ∧
    (__ramssd_read_page pf_ref geom_s1
      (__ramssd_prog_page pf_ref geom_s1 (fun _ => 0xFF) (fun _ => 0xFF) 1 0 1 2
        (fun _ => 1) (fun _ _ => 0x42) oob_lpa7 1).ptr_ssdram
      (__ramssd_prog_page pf_ref geom_s1 (fun _ => 0xFF) (fun _ => 0xFF) 1 0 1 2
        (fun _ => 1) (fun _ _ => 0x42) oob_lpa7 1).ptr_ramssd_data
      1 0 1 2 (fun _ => 1) (fun _ _ => 0) (fun _ => 0) 1 0).ret = 0 ∧
    (∀ i j, i < geom_s1.page_main_size / pf_ref.KERNEL_PAGE_SIZE →
      j < pf_ref.KERNEL_PAGE_SIZE →
      (__ramssd_read_page pf_ref geom_s1
        (__ramssd_prog_page pf_ref geom_s1 (fun _ => 0xFF) (fun _ => 0xFF) 1 0 1 2
          (fun _ => 1) (fun _ _ => 0x42) oob_lpa7 1).ptr_ssdram
        (__ramssd_prog_page pf_ref geom_s1 (fun _ => 0xFF) (fun _ => 0xFF) 1 0 1 2
          (fun _ => 1) (fun _ _ => 0x42) oob_lpa7 1).ptr_ramssd_data
        1 0 1 2 (fun _ => 1) (fun _ _ => 0) (fun _ => 0) 1 0).ptr_page_data i j = 0x42) ∧
    (∀ j, j < geom_s1.page_oob_size →
      (__ramssd_read_page pf_ref geom_s1
        (__ramssd_prog_page pf_ref geom_s1 (fun _ => 0xFF) (fun _ => 0xFF) 1 0 1 2
          (fun _ => 1) (fun _ _ => 0x42) oob_lpa7 1).ptr_ssdram
        (__ramssd_prog_page pf_ref geom_s1 (fun _ => 0xFF) (fun _ => 0xFF) 1 0 1 2
          (fun _ => 1) (fun _ _ => 0x42) oob_lpa7 1).ptr_ramssd_data
        1 0 1 2 (fun _ => 1) (fun _ _ => 0) (fun _ => 0) 1 0).ptr_oob_data j = oob_lpa7 j) :=
  prog_then_read_round_trip pf_ref geom_s1 (fun _ => 0xFF) (fun _ => 0xFF) 1 0 1 2
    (fun _ => 1) (fun _ => 1) (fun _ _ => 0x42) (fun _ _ => 0) oob_lpa7 (fun _ => 0) 1 1
    (by decide) (by decide) (by decide) (by decide) (by decide) (by decide)
    (Or.inl (by decide)) (by decide) (fun _ _ => rfl) (fun _ _ => rfl)
    (by decide) (by decide)

/-- Counterexample to C1 as stated: in the subpage-mode geometry `geom_s3`
(in-range page (1, 0, 1, 2), two sub-pages, both flags `DATA`, both main
buffers `0x42`) with an OOB buffer whose second lpa word is all ones, program
and read both return 0, but the read returns `0xFF`, not `0x42`, in sub-page
1: the program skipped it. -/
theorem round_trip_fails_on_sentinel_lpa :
    (1 < geom_s3.nr_channels ∧ 0 < geom_s3.nr_chips_per_channel ∧
      1 < geom_s3.nr_blocks_per_chip ∧ 2 < geom_s3.nr_pages_per_block) ∧
    s3_prog.ret = 0 ∧ s3_read.ret = 0 ∧
    s3_read.ptr_page_data 0 0 = 0x42 ∧
    s3_read.ptr_page_data 1 0 = 0xFF ∧
    s3_read.ptr_page_data 1 0 ≠ (fun (_ _ : Nat) => 0x42) 1 0 := by
  refine ⟨by decide, by decide, by decide, by decide, by decide, by decide⟩

/-- C2. Sub-page gating: for every program via `__ramssd_prog_page` and every
sub-page index `i < page_main_size / KERNEL_PAGE_SIZE`, if `kp_stt[i]` is not
`DATA`, or in subpage-mode the OOB lpa of sub-page `i` is an invalid sentinel,
then the `KERNEL_PAGE_SIZE` bytes of the backing store at
`page_offset + i * KERNEL_PAGE_SIZE` are the same after the program as
before. -/
theorem prog_keeps_gated_subpage (pf : platform_t) (np : bdbm_device_params_t)
    (ssdram shadow : Nat → Nat) (ch chip blk pg : Nat)
    (kp : Nat → Nat) (bufs : Nat → Nat → Nat) (O : Nat → Nat) (oob : Nat) (i : Nat)
    (hi : i < np.page_main_size / pf.KERNEL_PAGE_SIZE)
    (hgate : kp i ≠ pf.KP_STT_DATA ∨
      (np.nr_subpages_per_block ≠ np.nr_pages_per_block ∧
        lpa_invalid_i64 (oob_u64 O i) = true)) :
    __ramssd_page_addr np ch chip blk pg = some (page_offset np ch chip blk pg) ∧
    ∀ j, j < pf.KERNEL_PAGE_SIZE →
      (__ramssd_prog_page pf np ssdram shadow ch chip blk pg kp bufs O oob).ptr_ssdram
        (page_offset np ch chip blk pg + i * pf.KERNEL_PAGE_SIZE + j) =
      ssdram (page_offset np ch chip blk pg + i * pf.KERNEL_PAGE_SIZE + j) := by
  refine ⟨rfl, ?_⟩
  intro j hj
  have hend := subpage_end_le pf.KERNEL_PAGE_SIZE np.page_main_size i hi
  have hcomm : i * pf.KERNEL_PAGE_SIZE = pf.KERNEL_PAGE_SIZE * i := Nat.mul_comm _ _
  rw [hcomm]
  apply prog_page_frame
  · intro k _
    rcases Nat.lt_trichotomy k i with hlt | heq | hgt
    · right; right
      have : pf.KERNEL_PAGE_SIZE * k + pf.KERNEL_PAGE_SIZE ≤ pf.KERNEL_PAGE_SIZE * i := by
        calc pf.KERNEL_PAGE_SIZE * k + pf.KERNEL_PAGE_SIZE
            = pf.KERNEL_PAGE_SIZE * (k + 1) := by ring
          _ ≤ pf.KERNEL_PAGE_SIZE * i := Nat.mul_le_mul_left _ hlt
      omega
    · left
      rw [heq]
      exact prog_skips_gated pf np kp O i hgate
    · right; left
      have : pf.KERNEL_PAGE_SIZE * i + pf.KERNEL_PAGE_SIZE ≤ pf.KERNEL_PAGE_SIZE * k := by
        calc pf.KERNEL_PAGE_SIZE * i + pf.KERNEL_PAGE_SIZE
            = pf.KERNEL_PAGE_SIZE * (i + 1) := by ring
          _ ≤ pf.KERNEL_PAGE_SIZE * k := Nat.mul_le_mul_left _ hgt
      omega
  · right; left
    omega

/-- Witness of C2, scenario S3: pages of 8192 bytes, program of page
(0, 0, 0, 0) on an erased store with flags `[DATA, HOLE]` (1 and 0), main
buffers `0x11` and `0x22`: sub-page 1 of the store still holds `0xFF`, and
sub-page 0 holds `0x11`. -/
theorem prog_keeps_gated_subpage_witness :
    (__ramssd_page_addr geom_s3 0 0 0 0 = some (page_offset geom_s3 0 0 0 0) ∧
     ∀ j, j < pf_ref.KERNEL_PAGE_SIZE →
      (__ramssd_prog_page pf_ref geom_s3 (fun _ => 0xFF) (fun _ => 0xFF) 0 0 0 0
        (fun i => if i = 0 then 1 else 0) (fun i _ => if i = 0 then 0x11 else 0x22)
        oob_lpa7 1).ptr_ssdram (page_offset geom_s3 0 0 0 0 + 1 * pf_ref.KERNEL_PAGE_SIZE + j)
        = (fun _ => 0xFF) (page_offset geom_s3 0 0 0 0 + 1 * pf_ref.KERNEL_PAGE_SIZE + j)) ∧
    (∀ j, j < pf_ref.KERNEL_PAGE_SIZE →
      (__ramssd_prog_page pf_ref geom_s3 (fun _ => 0xFF) (fun _ => 0xFF) 0 0 0 0
        (fun i => if i = 0 then 1 else 0) (fun i _ => if i = 0 then 0x11 else 0x22)
        oob_lpa7 1).ptr_ssdram (page_offset geom_s3 0 0 0 0 + pf_ref.KERNEL_PAGE_SIZE * 0 + j)
        = 0x11) :=
  ⟨prog_keeps_gated_subpage pf_ref geom_s3 (fun _ => 0xFF) (fun _ => 0xFF) 0 0 0 0
      (fun i => if i = 0 then 1 else 0) (fun i _ => if i = 0 then 0x11 else 0x22)
      oob_lpa7 1 1 (by decide) (Or.inl (by decide)),
   fun j hj =>
    prog_page_subpage_written pf_ref geom_s3 (fun _ => 0xFF) (fun _ => 0xFF) 0 0 0 0
      (fun i => if i = 0 then 1 else 0) (fun i _ => if i = 0 then 0x11 else 0x22)
      oob_lpa7 1 (by decide) 0 j (by decide) (by decide) hj⟩

/-- What a successful `dev_ramssd_create` returns. -/
theorem create_some (pf : platform_t) (np : bdbm_device_params_t) (env : alloc_env_t)
    (ri : dev_ramssd_info_t) (h : dev_ramssd_create pf np env = some ri) :
    ri.nand_params = np ∧ ri.emul_mode = np.device_type ∧
    ri.ptr_ssdram = bdbm_memset env.ssdram_mem 0xFF (ssd_size_in_bytes np) ∧
    ri.ptr_ramssd_data = bdbm_memset env.data_mem 0xFF (ssd_size_in_bytes np) ∧
    ri.ptr_punits = for_loop (dev_ramssd_get_chips_per_ssd np)
      (fun loop t => Function.update t loop { t loop with ptr_req := none }) env.punits_mem ∧
    ri.intr_handler_calls = [] := by
  unfold dev_ramssd_create __ramssd_alloc_ssdram at h
  by_cases h1 : env.ri_ok = true
  · by_cases h2 : env.ssdram_ok = true
    · by_cases h3 : env.punits_ok = true
      · by_cases h4 : __ramssd_timing_create pf np.device_type env = 0
        · simp only [h1, h2, h3, h4, Bool.not_true, Bool.false_eq_true, if_false, if_true,
            ne_eq, not_true_eq_false, Option.some.injEq] at h
          subst h
          exact ⟨rfl, rfl, rfl, rfl, rfl, rfl⟩
        · simp [h1, h2, h3, h4] at h
      · simp [h1, h2, h3] at h
    · simp [h1, h2] at h
  · simp [h1] at h

theorem bdbm_memset_lt (dst : Nat → Nat) (c n a : Nat) (ha : a < n) :
    bdbm_memset dst c n a = c := by
  unfold bdbm_memset
  rw [if_pos ha]

/-- C5 (amended). Initial state: immediately after `dev_ramssd_create`
succeeds on a geometry whose size is below `2 ^ 64` and whose `page_main_size`
is a multiple of `KERNEL_PAGE_SIZE` into fewer than `2 ^ 32` sub-pages, for
every in-range page a non-partial `__ramssd_read_page` with every flag `DATA`
and the OOB requested returns 0, `0xFF` in every byte of every main sub-page
buffer and `0xFF` in every byte of the OOB buffer (a flag `DATA` does not have
all bits of `DONE`). -/
theorem read_after_create_is_erased (pf : platform_t) (np : bdbm_device_params_t)
    (env : alloc_env_t) (ri : dev_ramssd_info_t)
    (ch chip blk pg : Nat) (kp : Nat → Nat) (rbufs : Nat → Nat → Nat) (roob : Nat → Nat)
    (oob : Nat)
    (hc : dev_ramssd_create pf np env = some ri)
    (hsz : np.nr_channels * np.nr_chips_per_channel * np.nr_blocks_per_chip
        * np.nr_pages_per_block * (np.page_main_size + np.page_oob_size) < U64)
    (hch : ch < np.nr_channels) (hchip : chip < np.nr_chips_per_channel)
    (hblk : blk < np.nr_blocks_per_chip) (hpg : pg < np.nr_pages_per_block)
    (hdiv : np.page_main_size % pf.KERNEL_PAGE_SIZE = 0)
    (h32 : np.page_main_size / pf.KERNEL_PAGE_SIZE < U32)
    (hdone : pf.KP_STT_DATA &&& pf.KP_STT_DONE ≠ pf.KP_STT_DONE)
    (hk : ∀ i, i < np.page_main_size / pf.KERNEL_PAGE_SIZE → kp i = pf.KP_STT_DATA)
    (hoob : oob ≠ 0) :
    (__ramssd_read_page pf ri.nand_params ri.ptr_ssdram ri.ptr_ramssd_data
      ch chip blk pg kp rbufs roob oob 0).ret = 0 ∧
    (∀ i j, i < np.page_main_size / pf.KERNEL_PAGE_SIZE → j < pf.KERNEL_PAGE_SIZE →
      (__ramssd_read_page pf ri.nand_params ri.ptr_ssdram ri.ptr_ramssd_data
        ch chip blk pg kp rbufs roob oob 0).ptr_page_data i j = 0xFF) ∧
    (∀ j, j < np.page_oob_size →
      (__ramssd_read_page pf ri.nand_params ri.ptr_ssdram ri.ptr_ramssd_data
        ch chip blk pg kp rbufs roob oob 0).ptr_oob_data j = 0xFF) := by
  obtain ⟨hnp, _, hmem, _, _, _⟩ := create_some pf np env ri hc
  rw [hnp, hmem]
  have hn := nr_kpages_eq pf np h32
  have hin := (page_offset_exact np ch chip blk pg hsz hch hchip hblk hpg).2
  obtain ⟨hr0, hrd, hro⟩ := read_page_result pf np
    (bdbm_memset env.ssdram_mem 0xFF (ssd_size_in_bytes np)) ri.ptr_ramssd_data
    ch chip blk pg kp rbufs roob oob 0 hdiv
  refine ⟨hr0, ?_, ?_⟩
  · intro i j hi hj
    have hi2 : i < nr_kpages pf np := by rw [hn]; exact hi
    rw [hrd i, if_pos ⟨hi2, read_skips_data pf kp i hdone (hk i hi)⟩]
    have := bdbm_memcpy_hit (rbufs i) 0
      (bdbm_memset env.ssdram_mem 0xFF (ssd_size_in_bytes np))
      (page_offset np ch chip blk pg + pf.KERNEL_PAGE_SIZE * i) pf.KERNEL_PAGE_SIZE j hj
    rw [Nat.zero_add] at this
    rw [this]
    have hend := subpage_end_le pf.KERNEL_PAGE_SIZE np.page_main_size i hi
    exact bdbm_memset_lt _ _ _ _ (by omega)
  · intro j hj
    rw [hro, if_pos ⟨rfl, hoob⟩]
    have := bdbm_memcpy_hit roob 0
      (bdbm_memset env.ssdram_mem 0xFF (ssd_size_in_bytes np))
      (page_offset np ch chip blk pg + np.page_main_size) np.page_oob_size j hj
    rw [Nat.zero_add] at this
    rw [this]
    exact bdbm_memset_lt _ _ _ _ (by omega)

/-- Witness of C5 (amended), scenario S1: geometry 2 x 2 x 2 x 4 with pages of
4096 + 128 bytes, read of page (0, 0, 0, 0) right after construction. -/
theorem read_after_create_is_erased_witness :
    ∃ ri, dev_ramssd_create pf_ref geom_s1 env_ok = some ri ∧
    (__ramssd_read_page pf_ref ri.nand_params ri.ptr_ssdram ri.ptr_ramssd_data
      0 0 0 0 (fun _ => 1) (fun _ _ => 0) (fun _ => 0) 1 0).ret = 0 ∧
    (∀ i j, i < geom_s1.page_main_size / pf_ref.KERNEL_PAGE_SIZE →
      j < pf_ref.KERNEL_PAGE_SIZE →
      (__ramssd_read_page pf_ref ri.nand_params ri.ptr_ssdram ri.ptr_ramssd_data
        0 0 0 0 (fun _ => 1) (fun _ _ => 0) (fun _ => 0) 1 0).ptr_page_data i j = 0xFF) ∧
    (∀ j, j < geom_s1.page_oob_size →
      (__ramssd_read_page pf_ref ri.nand_params ri.ptr_ssdram ri.ptr_ramssd_data
        0 0 0 0 (fun _ => 1) (fun _ _ => 0) (fun _ => 0) 1 0).ptr_oob_data j = 0xFF) := by
  have hs : (dev_ramssd_create pf_ref geom_s1 env_ok).isSome = true := by decide
  obtain ⟨ri, h⟩ := Option.isSome_iff_exists.mp hs
  exact ⟨ri, h, read_after_create_is_erased pf_ref geom_s1 env_ok ri 0 0 0 0
    (fun _ => 1) (fun _ _ => 0) (fun _ => 0) 1 h (by decide)
    (by decide) (by decide) (by decide) (by decide) (by decide) (by decide) (by decide)
    (fun _ _ => rfl) (by decide)⟩

/-- Counterexample to C5 as stated: with a main area of 6000 bytes, not a
multiple of the 4096-byte page, `dev_ramssd_create` succeeds, yet the read of
the in-range page (0, 0, 0, 0) returns 1 and leaves the caller's zeroed
buffer 0 as it was. -/
theorem read_after_create_fails_on_odd_page_size :
    (dev_ramssd_create pf_ref geom_odd env_ok).isSome = true ∧
    (dev_ramssd_create pf_ref geom_odd env_ok).map (fun ri =>
      (__ramssd_read_page pf_ref ri.nand_params ri.ptr_ssdram ri.ptr_ramssd_data
        0 0 0 0 (fun _ => 1) (fun _ _ => 0) (fun _ => 0) 1 0).ret) = some 1 ∧
    (0 < geom_odd.page_main_size / pf_ref.KERNEL_PAGE_SIZE) ∧
    (dev_ramssd_create pf_ref geom_odd env_ok).map (fun ri =>
      (__ramssd_read_page pf_ref ri.nand_params ri.ptr_ssdram ri.ptr_ramssd_data
        0 0 0 0 (fun _ => 1) (fun _ _ => 0) (fun _ => 0) 1 0).ptr_page_data 0 0) = some 0 := by
  refine ⟨by decide, by decide, by decide, by decide⟩

/-- C6 (amended). Partial RMW read: for every `__ramssd_read_page` call with
`partial = 1` and every sub-page index `i`, if `kp_stt[i]` is `DATA`, or has
all bits of `DONE` set, the caller's buffer `i` is unchanged; and when
`page_main_size` is a multiple of `KERNEL_PAGE_SIZE` into fewer than `2 ^ 32`
sub-pages, for every `i < page_main_size / KERNEL_PAGE_SIZE` whose flag is not
`DATA` and does not have all bits of `DONE`, the caller's buffer `i`
afterwards equals the `KERNEL_PAGE_SIZE` bytes of the backing store at
`page_offset + i * KERNEL_PAGE_SIZE`. -/
theorem partial_read_subpages (pf : platform_t) (np : bdbm_device_params_t)
    (ssdram shadow : Nat → Nat) (ch chip blk pg : Nat)
    (kp : Nat → Nat) (bufs : Nat → Nat → Nat) (O : Nat → Nat) (oob : Nat) :
    (∀ i, kp i = pf.KP_STT_DATA →
      (__ramssd_read_page pf np ssdram shadow ch chip blk pg kp bufs O oob 1).ptr_page_data i
        = bufs i) ∧
    (∀ i, kp i &&& pf.KP_STT_DONE = pf.KP_STT_DONE →
      (__ramssd_read_page pf np ssdram shadow ch chip blk pg kp bufs O oob 1).ptr_page_data i
        = bufs i) ∧
    (np.page_main_size % pf.KERNEL_PAGE_SIZE = 0 →
      np.page_main_size / pf.KERNEL_PAGE_SIZE < U32 →
      ∀ i, i < np.page_main_size / pf.KERNEL_PAGE_SIZE →
        kp i ≠ pf.KP_STT_DATA → kp i &&& pf.KP_STT_DONE ≠ pf.KP_STT_DONE →
        ∀ j, j < pf.KERNEL_PAGE_SIZE →
          (__ramssd_read_page pf np ssdram shadow ch chip blk pg kp bufs O oob
            1).ptr_page_data i j
            = ssdram (page_offset np ch chip blk pg + i * pf.KERNEL_PAGE_SIZE + j)) := by
  refine ⟨?_, ?_, ?_⟩
  · intro i hk
    by_cases hdiv : np.page_main_size % pf.KERNEL_PAGE_SIZE = 0
    · rw [(read_page_result pf np ssdram shadow ch chip blk pg kp bufs O oob 1 hdiv).2.1 i,
        if_neg]
      simp [read_skips, hk]
    · rw [(read_page_fail pf np ssdram shadow ch chip blk pg kp bufs O oob 1 hdiv).2.1]
  · intro i hk
    by_cases hdiv : np.page_main_size % pf.KERNEL_PAGE_SIZE = 0
    · rw [(read_page_result pf np ssdram shadow ch chip blk pg kp bufs O oob 1 hdiv).2.1 i,
        if_neg]
      simp [read_skips, hk]
    · rw [(read_page_fail pf np ssdram shadow ch chip blk pg kp bufs O oob 1 hdiv).2.1]
  · intro hdiv h32 i hi hk hd j hj
    have hi2 : i < nr_kpages pf np := by rw [nr_kpages_eq pf np h32]; exact hi
    have hsk : read_skips pf kp 1 i = false := by simp [read_skips, hk, hd]
    rw [(read_page_result pf np ssdram shadow ch chip blk pg kp bufs O oob 1 hdiv).2.1 i,
      if_pos ⟨hi2, hsk⟩]
    have := bdbm_memcpy_hit (bufs i) 0 ssdram
      (page_offset np ch chip blk pg + pf.KERNEL_PAGE_SIZE * i) pf.KERNEL_PAGE_SIZE j hj
    rw [Nat.zero_add] at this
    rw [this, Nat.mul_comm]

/-- Witness of C6 (amended): pages of 8192 bytes, partial read of page
(0, 0, 0, 0) of an erased store with flags `[DATA, HOLE]` (1 and 0) into
zeroed buffers: buffer 0 is unchanged and buffer 1 holds the store's bytes. -/
theorem partial_read_subpages_witness :
    (__ramssd_read_page pf_ref geom_s3 (fun _ => 0xFF) (fun _ => 0xFF) 0 0 0 0
      (fun i => if i = 0 then 1 else 0) (fun _ _ => 0) (fun _ => 0) 1 1).ptr_page_data 0
      = (fun (_ _ : Nat) => 0) 0 ∧
    (∀ j, j < pf_ref.KERNEL_PAGE_SIZE →
      (__ramssd_read_page pf_ref geom_s3 (fun _ => 0xFF) (fun _ => 0xFF) 0 0 0 0
        (fun i => if i = 0 then 1 else 0) (fun _ _ => 0) (fun _ => 0) 1 1).ptr_page_data 1 j
        = (fun _ => 0xFF) (page_offset geom_s3 0 0 0 0 + 1 * pf_ref.KERNEL_PAGE_SIZE + j)) :=
  ⟨(partial_read_subpages pf_ref geom_s3 (fun _ => 0xFF) (fun _ => 0xFF) 0 0 0 0
      (fun i => if i = 0 then 1 else 0) (fun _ _ => 0) (fun _ => 0) 1).1 0 (by decide),
   (partial_read_subpages pf_ref geom_s3 (fun _ => 0xFF) (fun _ => 0xFF) 0 0 0 0
      (fun i => if i = 0 then 1 else 0) (fun _ _ => 0) (fun _ => 0) 1).2.2
      (by decide) (by decide) 1 (by decide) (by decide) (by decide)⟩

/-- Counterexample to C6 as stated: a partial read of page (0, 0, 0, 0) of an
erased store whose flag for sub-page 0 is `DONE` (2, a value other than
`DATA`) returns 0 and leaves the caller's zeroed buffer 0 as it was, while
the store holds `0xFF` there. -/
theorem partial_read_skips_done_subpage :
    ((fun (_ : Nat) => 2) 0 ≠ pf_ref.KP_STT_DATA) ∧
    (0 < geom_s1.page_main_size / pf_ref.KERNEL_PAGE_SIZE) ∧
    (__ramssd_read_page pf_ref geom_s1 (fun _ => 0xFF) (fun _ => 0xFF) 0 0 0 0
      (fun _ => 2) (fun _ _ => 0) (fun _ => 0) 1 1).ret = 0 ∧
    (__ramssd_read_page pf_ref geom_s1 (fun _ => 0xFF) (fun _ => 0xFF) 0 0 0 0
      (fun _ => 2) (fun _ _ => 0) (fun _ => 0) 1 1).ptr_page_data 0 0 = 0 ∧
    (fun (_ : Nat) => 0xFF) (page_offset geom_s1 0 0 0 0 + 0 * pf_ref.KERNEL_PAGE_SIZE + 0)
      = 0xFF := by
  refine ⟨by decide, by decide, by decide, by decide, by decide⟩

/-! ## Dispatcher: page operation, completion scan and submit -/

/-- The page operation leaves the parallel units, the callback log, the mode
and the parameters alone, and keeps the request's type and address. -/
theorem send_cmd_page_op_frame (pf : platform_t) (ri : dev_ramssd_info_t)
    (r : bdbm_llm_req_t) :
    (__ramssd_send_cmd pf ri r).2.1.ptr_punits = ri.ptr_punits ∧
    (__ramssd_send_cmd pf ri r).2.1.intr_handler_calls = ri.intr_handler_calls ∧
    (__ramssd_send_cmd pf ri r).2.1.emul_mode = ri.emul_mode ∧
    (__ramssd_send_cmd pf ri r).2.1.nand_params = ri.nand_params ∧
    (__ramssd_send_cmd pf ri r).2.1.tasklet_scheduled = ri.tasklet_scheduled ∧
    (__ramssd_send_cmd pf ri r).2.1.bug_on_hits = ri.bug_on_hits ∧
    (__ramssd_send_cmd pf ri r).2.2.punit_id = r.punit_id ∧
    (__ramssd_send_cmd pf ri r).2.2.req_type = r.req_type ∧
    (__ramssd_send_cmd pf ri r).2.2.ret = (__ramssd_send_cmd pf ri r).1 := by
  unfold __ramssd_send_cmd
  cases h : r.req_type <;>
    simp [send_cmd_read, send_cmd_prog, h]

/-- One step of the scan touches only the slot it looks at. -/
theorem cmd_done_body_punits (clock : Nat → Nat) (k : Nat) (ri : dev_ramssd_info_t) (i : Nat) :
    (cmd_done_body clock k ri).ptr_punits i =
      if i = k ∧ punit_due ri clock k = true then { ri.ptr_punits i with ptr_req := none }
      else ri.ptr_punits i := by
  unfold cmd_done_body punit_due
  cases h : (ri.ptr_punits k).ptr_req with
  | none => simp
  | some p =>
    simp only
    by_cases hd : bdbm_stopwatch_get_elapsed_time_us (ri.ptr_punits k).sw (clock k)
        ≥ (ri.ptr_punits k).target_elapsed_time_us
    · simp only [hd, if_true, decide_True, and_true]
      by_cases hik : i = k
      · subst hik; simp
      · simp [Function.update_noteq hik, hik]
    · simp [hd]

theorem cmd_done_body_calls (clock : Nat → Nat) (k : Nat) (ri : dev_ramssd_info_t) :
    (cmd_done_body clock k ri).intr_handler_calls =
      ri.intr_handler_calls ++
        (if punit_due ri clock k = true then ((ri.ptr_punits k).ptr_req).toList else []) := by
  unfold cmd_done_body punit_due
  cases h : (ri.ptr_punits k).ptr_req with
  | none => simp
  | some p =>
    simp only
    by_cases hd : bdbm_stopwatch_get_elapsed_time_us (ri.ptr_punits k).sw (clock k)
        ≥ (ri.ptr_punits k).target_elapsed_time_us
    · simp [hd]
    · simp [hd]

theorem cmd_done_body_frame (clock : Nat → Nat) (k : Nat) (ri : dev_ramssd_info_t) :
    (cmd_done_body clock k ri).nand_params = ri.nand_params ∧
    (cmd_done_body clock k ri).emul_mode = ri.emul_mode ∧
    (cmd_done_body clock k ri).ptr_ssdram = ri.ptr_ssdram ∧
    (cmd_done_body clock k ri).ptr_ramssd_data = ri.ptr_ramssd_data ∧
    (cmd_done_body clock k ri).tasklet_scheduled = ri.tasklet_scheduled ∧
    (cmd_done_body clock k ri).bug_on_hits = ri.bug_on_hits ∧
    (cmd_done_body clock k ri).is_init = ri.is_init := by
  unfold cmd_done_body
  cases h : (ri.ptr_punits k).ptr_req with
  | none => simp
  | some p =>
    simp only
    split <;> simp

theorem punit_due_congr (ri ri2 : dev_ramssd_info_t) (clock : Nat → Nat) (k : Nat)
    (h : ri2.ptr_punits k = ri.ptr_punits k) : punit_due ri2 clock k = punit_due ri clock k := by
  unfold punit_due
  rw [h]

/-- The slots after a scan over the first `n` units. -/
theorem scan_punits (clock : Nat → Nat) (ri : dev_ramssd_info_t) (n : Nat) :
    ∀ i, (for_loop n (cmd_done_body clock) ri).ptr_punits i =
      if i < n ∧ punit_due ri clock i = true then { ri.ptr_punits i with ptr_req := none }
      else ri.ptr_punits i := by
  induction n with
  | zero => intro i; simp [for_loop]
  | succ k ih =>
    intro i
    simp only [for_loop]
    have hk : punit_due (for_loop k (cmd_done_body clock) ri) clock k = punit_due ri clock k :=
      punit_due_congr ri _ clock k (by rw [ih k]; simp)
    rw [cmd_done_body_punits, hk, ih i]
    by_cases hik : i = k
    · subst hik
      by_cases hd : punit_due ri clock i = true
      · simp [hd]
      · simp [hd]
    · have : (i < k + 1) ↔ (i < k) := by omega
      simp only [hik, false_and, if_false, this]

/-- The callback log after a scan over the first `n` units: the requests of
the due units are appended in ascending unit order. -/
theorem scan_calls (clock : Nat → Nat) (ri : dev_ramssd_info_t) (n : Nat) :
    (for_loop n (cmd_done_body clock) ri).intr_handler_calls =
      ri.intr_handler_calls ++
        ((List.range n).filter (fun i => punit_due ri clock i)).filterMap
          (fun i => (ri.ptr_punits i).ptr_req) := by
  induction n with
  | zero => simp [for_loop]
  | succ k ih =>
    simp only [for_loop]
    have hpk : (for_loop k (cmd_done_body clock) ri).ptr_punits k = ri.ptr_punits k := by
      rw [scan_punits clock ri k k]; simp
    have hk : punit_due (for_loop k (cmd_done_body clock) ri) clock k = punit_due ri clock k :=
      punit_due_congr ri _ clock k hpk
    rw [cmd_done_body_calls, hk, hpk, ih, List.range_succ, List.filter_append,
      List.filterMap_append, List.append_assoc]
    congr 1
    congr 1
    by_cases hd : punit_due ri clock k = true
    · simp only [hd, if_true, List.filter_cons, List.filter_nil]
      cases h : (ri.ptr_punits k).ptr_req <;> simp [h]
    · simp [hd]

theorem scan_frame (clock : Nat → Nat) (ri : dev_ramssd_info_t) (n : Nat) :
    (for_loop n (cmd_done_body clock) ri).nand_params = ri.nand_params ∧
    (for_loop n (cmd_done_body clock) ri).emul_mode = ri.emul_mode ∧
    (for_loop n (cmd_done_body clock) ri).ptr_ssdram = ri.ptr_ssdram ∧
    (for_loop n (cmd_done_body clock) ri).ptr_ramssd_data = ri.ptr_ramssd_data ∧
    (for_loop n (cmd_done_body clock) ri).tasklet_scheduled = ri.tasklet_scheduled ∧
    (for_loop n (cmd_done_body clock) ri).bug_on_hits = ri.bug_on_hits ∧
    (for_loop n (cmd_done_body clock) ri).is_init = ri.is_init := by
  induction n with
  | zero => simp [for_loop]
  | succ k ih =>
    simp only [for_loop]
    obtain ⟨h1, h2, h3, h4, h5, h6, h7⟩ := cmd_done_body_frame clock k
      (for_loop k (cmd_done_body clock) ri)
    obtain ⟨i1, i2, i3, i4, i5, i6, i7⟩ := ih
    exact ⟨h1.trans i1, h2.trans i2, h3.trans i3, h4.trans i4, h5.trans i5, h6.trans i6,
      h7.trans i7⟩

theorem note_bug_on_frame (ri : dev_ramssd_info_t) (b : Bool) :
    (note_bug_on ri b).ptr_punits = ri.ptr_punits ∧
    (note_bug_on ri b).intr_handler_calls = ri.intr_handler_calls ∧
    (note_bug_on ri b).emul_mode = ri.emul_mode ∧
    (note_bug_on ri b).nand_params = ri.nand_params ∧
    (note_bug_on ri b).tasklet_scheduled = ri.tasklet_scheduled ∧
    (note_bug_on ri b).ptr_ssdram = ri.ptr_ssdram ∧
    (note_bug_on ri b).ptr_ramssd_data = ri.ptr_ramssd_data := by
  unfold note_bug_on
  cases b <;> simp

/-- A submit whose page operation fails returns that code and registers
nothing. -/
theorem send_cmd_of_op_fail (pf : platform_t) (ri : dev_ramssd_info_t) (rp : Nat)
    (r : bdbm_llm_req_t) (now : Nat) (delay : Nat → Nat)
    (h : (__ramssd_send_cmd pf ri r).1 ≠ 0) :
    dev_ramssd_send_cmd pf ri rp r now delay =
      ((__ramssd_send_cmd pf ri r).1, (__ramssd_send_cmd pf ri r).2.1,
        (__ramssd_send_cmd pf ri r).2.2) := by
  unfold dev_ramssd_send_cmd
  simp only [h, if_false]

/-- The slot that a submit looks at is the slot of the request's unit in the
table the call started with. -/
theorem send_cmd_slot (pf : platform_t) (ri : dev_ramssd_info_t) (r : bdbm_llm_req_t) :
    ((note_bug_on (__ramssd_send_cmd pf ri r).2.1
        (target_elapsed_time (__ramssd_send_cmd pf ri r).2.1
          (__ramssd_send_cmd pf ri r).2.2).2).ptr_punits
      (__ramssd_send_cmd pf ri r).2.2.punit_id) = ri.ptr_punits r.punit_id := by
  obtain ⟨hp, _, _, _, _, _, hid, _, _⟩ := send_cmd_page_op_frame pf ri r
  rw [(note_bug_on_frame _ _).1, hp, hid]

/-- A submit to an occupied unit, after a page operation that succeeded. -/
theorem send_cmd_of_busy (pf : platform_t) (ri : dev_ramssd_info_t) (rp : Nat)
    (r : bdbm_llm_req_t) (now : Nat) (delay : Nat → Nat)
    (h : (__ramssd_send_cmd pf ri r).1 = 0)
    (hbusy : (ri.ptr_punits r.punit_id).ptr_req ≠ none) :
    dev_ramssd_send_cmd pf ri rp r now delay =
      (1, note_bug_on (__ramssd_send_cmd pf ri r).2.1
            (target_elapsed_time (__ramssd_send_cmd pf ri r).2.1
              (__ramssd_send_cmd pf ri r).2.2).2,
        (__ramssd_send_cmd pf ri r).2.2) := by
  unfold dev_ramssd_send_cmd
  simp only [h, if_true]
  rw [send_cmd_slot]
  cases hq : (ri.ptr_punits r.punit_id).ptr_req with
  | none => exact absurd hq hbusy
  | some p => rfl

/-- A submit to a free unit, after a page operation that succeeded. -/
theorem send_cmd_of_free (pf : platform_t) (ri : dev_ramssd_info_t) (rp : Nat)
    (r : bdbm_llm_req_t) (now : Nat) (delay : Nat → Nat)
    (h : (__ramssd_send_cmd pf ri r).1 = 0)
    (hfree : (ri.ptr_punits r.punit_id).ptr_req = none) :
    dev_ramssd_send_cmd pf ri rp r now delay =
      (0,
       __ramssd_timing_register_schedule pf
         (register_req
           (note_bug_on (__ramssd_send_cmd pf ri r).2.1
             (target_elapsed_time (__ramssd_send_cmd pf ri r).2.1
               (__ramssd_send_cmd pf ri r).2.2).2)
           (__ramssd_send_cmd pf ri r).2.2.punit_id rp now
           (target_elapsed_time (__ramssd_send_cmd pf ri r).2.1
             (__ramssd_send_cmd pf ri r).2.2).1)
         (fun i => now + delay i),
       (__ramssd_send_cmd pf ri r).2.2) := by
  unfold dev_ramssd_send_cmd
  simp only [h, if_true]
  rw [send_cmd_slot, hfree]

/-- A submit returns 0 only when the page operation succeeded and the unit
was free. -/
theorem send_cmd_ret_zero (pf : platform_t) (ri : dev_ramssd_info_t) (rp : Nat)
    (r : bdbm_llm_req_t) (now : Nat) (delay : Nat → Nat)
    (h : (dev_ramssd_send_cmd pf ri rp r now delay).1 = 0) :
    (__ramssd_send_cmd pf ri r).1 = 0 ∧ (ri.ptr_punits r.punit_id).ptr_req = none := by
  by_cases hop : (__ramssd_send_cmd pf ri r).1 = 0
  · refine ⟨hop, ?_⟩
    by_contra hb
    rw [send_cmd_of_busy pf ri rp r now delay hop hb] at h
    exact absurd h Nat.one_ne_zero
  · rw [send_cmd_of_op_fail pf ri rp r now delay hop] at h
    exact absurd h hop

theorem register_req_frame (ri : dev_ramssd_info_t) (id rp now : Nat) (t : Int) :
    (register_req ri id rp now t).intr_handler_calls = ri.intr_handler_calls ∧
    (register_req ri id rp now t).emul_mode = ri.emul_mode ∧
    (register_req ri id rp now t).nand_params = ri.nand_params ∧
    (register_req ri id rp now t).ptr_punits id
      = { ptr_req := some rp, sw := now, target_elapsed_time_us := t } ∧
    (∀ i, i ≠ id → (register_req ri id rp now t).ptr_punits i = ri.ptr_punits i) := by
  unfold register_req bdbm_stopwatch_start
  refine ⟨rfl, rfl, rfl, ?_, ?_⟩
  · simp
  · intro i hi
    simp [Function.update_noteq hi]

/-- Outside the timing mode the target latency is 0 and the assertion is not
reached. -/
theorem target_elapsed_time_not_timing (ri : dev_ramssd_info_t) (r : bdbm_llm_req_t)
    (h : ri.emul_mode ≠ DEVICE_TYPE_RAMDRIVE_TIMING) :
    target_elapsed_time ri r = (0, false) := by
  unfold target_elapsed_time
  simp only [h, if_false]

/-- In the timing mode the target latency of a type with a nominal time `t`
is `t` less a tenth when `t` is positive, and `t` itself otherwise. -/
theorem target_elapsed_time_timing (ri : dev_ramssd_info_t) (r : bdbm_llm_req_t) (t : Int)
    (h : ri.emul_mode = DEVICE_TYPE_RAMDRIVE_TIMING)
    (ht : nominal_time_us ri.nand_params r.req_type = some t) :
    (target_elapsed_time ri r).1 = if t > 0 then t - t / 10 else t := by
  unfold target_elapsed_time
  simp only [h, if_true]
  cases hq : r.req_type <;> simp [nominal_time_us, hq] at ht <;> subst ht <;>
    (split <;> simp_all)

/-- The scan leaves the stopwatch and the target latency of every slot as
they were. -/
theorem register_schedule_slot (pf : platform_t) (ri : dev_ramssd_info_t) (clock : Nat → Nat)
    (i : Nat) :
    ((__ramssd_timing_register_schedule pf ri clock).ptr_punits i).target_elapsed_time_us
      = (ri.ptr_punits i).target_elapsed_time_us ∧
    ((__ramssd_timing_register_schedule pf ri clock).ptr_punits i).sw = (ri.ptr_punits i).sw := by
  have hscan : ((__ramssd_cmd_done ri clock).ptr_punits i).target_elapsed_time_us
      = (ri.ptr_punits i).target_elapsed_time_us ∧
      ((__ramssd_cmd_done ri clock).ptr_punits i).sw = (ri.ptr_punits i).sw := by
    unfold __ramssd_cmd_done
    rw [scan_punits]
    split <;> exact ⟨rfl, rfl⟩
  unfold __ramssd_timing_register_schedule __ramssd_timing_cmd_done
  cases ri.emul_mode with
  | DEVICE_TYPE_RAMDRIVE => exact hscan
  | DEVICE_TYPE_USER_RAMDRIVE => exact hscan
  | DEVICE_TYPE_RAMDRIVE_INTR =>
    simp only
    split
    · exact ⟨rfl, rfl⟩
    · exact hscan
  | DEVICE_TYPE_RAMDRIVE_TIMING =>
    simp only
    split
    · exact ⟨rfl, rfl⟩
    · exact hscan
  | DEVICE_TYPE_OTHER c => exact hscan

theorem filter_range_single (n id : Nat) (p : Nat → Bool) (hid : id < n)
    (hp : ∀ i, i < n → (p i = true ↔ i = id)) :
    (List.range n).filter p = [id] := by
  induction n with
  | zero => omega
  | succ k ih =>
    rw [List.range_succ, List.filter_append]
    by_cases hk : id = k
    · subst hk
      have hnone : (List.range id).filter p = [] := by
        rw [List.filter_eq_nil_iff]
        intro a ha
        rw [List.mem_range] at ha
        have := hp a (by omega)
        intro hpa
        have := this.mp hpa
        omega
      have hpk : p id = true := (hp id (by omega)).mpr rfl
      simp [hnone, hpk]
    · have hlt : id < k := by omega
      have hpk : p k = false := by
        cases hq : p k with
        | false => rfl
        | true => exact absurd ((hp k (by omega)).mp hq).symm hk
      rw [ih hlt (fun i hi => hp i (by omega))]
      simp [hpk]

/-! ## Dispatcher: the claims -/

/-- C7. Parallel-unit exclusivity: for every emulator state and every two
requests addressed to the same `punit_id`, if the first
`dev_ramssd_send_cmd` succeeds and the unit's slot still holds that request
when the second `dev_ramssd_send_cmd` is made (no completion scan has cleared
it), the second call returns a non-zero error; it is the value 1 of the
double-issue branch whenever the second request's page operation itself
succeeded. -/
theorem second_submit_is_double_issue (pf : platform_t) (ri : dev_ramssd_info_t)
    (rp1 : Nat) (r1 : bdbm_llm_req_t) (now1 : Nat) (delay1 : Nat → Nat)
    (rp2 : Nat) (r2 : bdbm_llm_req_t) (now2 : Nat) (delay2 : Nat → Nat)
    (_h1 : (dev_ramssd_send_cmd pf ri rp1 r1 now1 delay1).1 = 0)
    (hsame : r2.punit_id = r1.punit_id)
    (hkept : ((dev_ramssd_send_cmd pf ri rp1 r1 now1 delay1).2.1.ptr_punits
      r1.punit_id).ptr_req = some rp1) :
    (dev_ramssd_send_cmd pf (dev_ramssd_send_cmd pf ri rp1 r1 now1 delay1).2.1
      rp2 r2 now2 delay2).1 ≠ 0 ∧
    ((__ramssd_send_cmd pf (dev_ramssd_send_cmd pf ri rp1 r1 now1 delay1).2.1 r2).1 = 0 →
      (dev_ramssd_send_cmd pf (dev_ramssd_send_cmd pf ri rp1 r1 now1 delay1).2.1
        rp2 r2 now2 delay2).1 = 1) := by
  have hbusy : (((dev_ramssd_send_cmd pf ri rp1 r1 now1 delay1).2.1).ptr_punits
      r2.punit_id).ptr_req ≠ none := by
    rw [hsame, hkept]
    exact Option.some_ne_none rp1
  constructor
  · by_cases hop : (__ramssd_send_cmd pf (dev_ramssd_send_cmd pf ri rp1 r1 now1 delay1).2.1
        r2).1 = 0
    · rw [send_cmd_of_busy pf _ rp2 r2 now2 delay2 hop hbusy]
      exact Nat.one_ne_zero
    · rw [send_cmd_of_op_fail pf _ rp2 r2 now2 delay2 hop]
      exact hop
  · intro hop
    rw [send_cmd_of_busy pf _ rp2 r2 now2 delay2 hop hbusy]

/-- Witness of C7, scenario S4: in mode `RAMDRIVE_INTR` of a kernel build, a
write on parallel unit 3 followed at once by a read on parallel unit 3. -/
theorem second_submit_is_double_issue_witness :
    (dev_ramssd_send_cmd pf_ref
      (dev_ramssd_send_cmd pf_ref (ri_fresh geom_intr) 1001 (req_punit3 REQTYPE_WRITE)
        0 (fun _ => 0)).2.1
      1002 (req_punit3 REQTYPE_READ) 1 (fun _ => 0)).1 ≠ 0 ∧
    ((__ramssd_send_cmd pf_ref
        (dev_ramssd_send_cmd pf_ref (ri_fresh geom_intr) 1001 (req_punit3 REQTYPE_WRITE)
          0 (fun _ => 0)).2.1 (req_punit3 REQTYPE_READ)).1 = 0 →
      (dev_ramssd_send_cmd pf_ref
        (dev_ramssd_send_cmd pf_ref (ri_fresh geom_intr) 1001 (req_punit3 REQTYPE_WRITE)
          0 (fun _ => 0)).2.1
        1002 (req_punit3 REQTYPE_READ) 1 (fun _ => 0)).1 = 1) :=
  second_submit_is_double_issue pf_ref (ri_fresh geom_intr) 1001 (req_punit3 REQTYPE_WRITE)
    0 (fun _ => 0) 1002 (req_punit3 REQTYPE_READ) 1 (fun _ => 0)
    (by decide) (by decide) (by decide)

/-- C8. A double issue is reported without completion: whenever
`dev_ramssd_send_cmd` is called for a parallel unit whose `ptr_req` is already
occupied, it returns non-zero (the value 1 when the page operation succeeded
and the call fails only because of the occupied slot), `intr_handler` is not
invoked during the call, no completion scan is scheduled, and every
parallel-unit slot (request pointer, stopwatch, target latency) is the same
after the call as before it. -/
theorem double_issue_without_completion (pf : platform_t) (ri : dev_ramssd_info_t)
    (rp : Nat) (r : bdbm_llm_req_t) (now : Nat) (delay : Nat → Nat)
    (hbusy : (ri.ptr_punits r.punit_id).ptr_req ≠ none) :
    (dev_ramssd_send_cmd pf ri rp r now delay).1 ≠ 0 ∧
    ((__ramssd_send_cmd pf ri r).1 = 0 → (dev_ramssd_send_cmd pf ri rp r now delay).1 = 1) ∧
    (dev_ramssd_send_cmd pf ri rp r now delay).2.1.intr_handler_calls
      = ri.intr_handler_calls ∧
    (dev_ramssd_send_cmd pf ri rp r now delay).2.1.tasklet_scheduled
      = ri.tasklet_scheduled ∧
    (dev_ramssd_send_cmd pf ri rp r now delay).2.1.ptr_punits = ri.ptr_punits := by
  obtain ⟨hp, hc, _, _, ht, _, _, _, _⟩ := send_cmd_page_op_frame pf ri r
  by_cases hop : (__ramssd_send_cmd pf ri r).1 = 0
  · rw [send_cmd_of_busy pf ri rp r now delay hop hbusy]
    obtain ⟨b1, b2, _, _, b5, _, _⟩ := note_bug_on_frame (__ramssd_send_cmd pf ri r).2.1
      (target_elapsed_time (__ramssd_send_cmd pf ri r).2.1 (__ramssd_send_cmd pf ri r).2.2).2
    exact ⟨Nat.one_ne_zero, fun _ => rfl, b2.trans hc, b5.trans ht, b1.trans hp⟩
  · rw [send_cmd_of_op_fail pf ri rp r now delay hop]
    exact ⟨hop, fun h => absurd h hop, hc, ht, hp⟩

/-- Witness of C8: a read on parallel unit 3 while the slot of unit 3 holds
the write that was submitted before it (mode `RAMDRIVE_INTR`). -/
theorem double_issue_without_completion_witness :
    (dev_ramssd_send_cmd pf_ref
      (dev_ramssd_send_cmd pf_ref (ri_fresh geom_intr) 1001 (req_punit3 REQTYPE_WRITE)
        0 (fun _ => 0)).2.1
      1002 (req_punit3 REQTYPE_READ) 1 (fun _ => 0)).1 ≠ 0 ∧
    (dev_ramssd_send_cmd pf_ref
      (dev_ramssd_send_cmd pf_ref (ri_fresh geom_intr) 1001 (req_punit3 REQTYPE_WRITE)
        0 (fun _ => 0)).2.1
      1002 (req_punit3 REQTYPE_READ) 1 (fun _ => 0)).2.1.intr_handler_calls
      = (dev_ramssd_send_cmd pf_ref (ri_fresh geom_intr) 1001 (req_punit3 REQTYPE_WRITE)
        0 (fun _ => 0)).2.1.intr_handler_calls ∧
    (dev_ramssd_send_cmd pf_ref
      (dev_ramssd_send_cmd pf_ref (ri_fresh geom_intr) 1001 (req_punit3 REQTYPE_WRITE)
        0 (fun _ => 0)).2.1
      1002 (req_punit3 REQTYPE_READ) 1 (fun _ => 0)).2.1.ptr_punits
      = (dev_ramssd_send_cmd pf_ref (ri_fresh geom_intr) 1001 (req_punit3 REQTYPE_WRITE)
        0 (fun _ => 0)).2.1.ptr_punits :=
  ⟨(double_issue_without_completion pf_ref
      (dev_ramssd_send_cmd pf_ref (ri_fresh geom_intr) 1001 (req_punit3 REQTYPE_WRITE)
        0 (fun _ => 0)).2.1
      1002 (req_punit3 REQTYPE_READ) 1 (fun _ => 0) (by decide)).1,
   (double_issue_without_completion pf_ref
      (dev_ramssd_send_cmd pf_ref (ri_fresh geom_intr) 1001 (req_punit3 REQTYPE_WRITE)
        0 (fun _ => 0)).2.1
      1002 (req_punit3 REQTYPE_READ) 1 (fun _ => 0) (by decide)).2.2.1,
   (double_issue_without_completion pf_ref
      (dev_ramssd_send_cmd pf_ref (ri_fresh geom_intr) 1001 (req_punit3 REQTYPE_WRITE)
        0 (fun _ => 0)).2.1
      1002 (req_punit3 REQTYPE_READ) 1 (fun _ => 0) (by decide)).2.2.2.2⟩

/-- C9. Exactly-once completion in synchronous mode: in mode `RAMDRIVE` or
`USER_RAMDRIVE`, starting from a parallel-unit table with every slot empty,
every `dev_ramssd_send_cmd` for a unit of the table that returns 0 has invoked
`intr_handler` exactly once, with that request, before returning (the log of
calls grew by that request's pointer alone), has registered target latency 0,
and leaves every parallel-unit slot empty again. -/
theorem sync_submit_completes_once (pf : platform_t) (ri : dev_ramssd_info_t)
    (rp : Nat) (r : bdbm_llm_req_t) (now : Nat) (delay : Nat → Nat)
    (hmode : ri.emul_mode = DEVICE_TYPE_RAMDRIVE ∨ ri.emul_mode = DEVICE_TYPE_USER_RAMDRIVE)
    (hempty : ∀ i, i < dev_ramssd_get_chips_per_ssd ri.nand_params →
      (ri.ptr_punits i).ptr_req = none)
    (hid : r.punit_id < dev_ramssd_get_chips_per_ssd ri.nand_params)
    (hret : (dev_ramssd_send_cmd pf ri rp r now delay).1 = 0) :
    (dev_ramssd_send_cmd pf ri rp r now delay).2.1.intr_handler_calls
      = ri.intr_handler_calls ++ [rp] ∧
    ((dev_ramssd_send_cmd pf ri rp r now delay).2.1.ptr_punits
      r.punit_id).target_elapsed_time_us = 0 ∧
    (∀ i, i < dev_ramssd_get_chips_per_ssd ri.nand_params →
      ((dev_ramssd_send_cmd pf ri rp r now delay).2.1.ptr_punits i).ptr_req = none) := by
  obtain ⟨hop, hfree⟩ := send_cmd_ret_zero pf ri rp r now delay hret
  obtain ⟨hp, hc, hm, hn, _, _, hpid, _, _⟩ := send_cmd_page_op_frame pf ri r
  have hnt : (__ramssd_send_cmd pf ri r).2.1.emul_mode ≠ DEVICE_TYPE_RAMDRIVE_TIMING := by
    rw [hm]
    rcases hmode with h | h <;> rw [h] <;> decide
  have htgt := target_elapsed_time_not_timing (__ramssd_send_cmd pf ri r).2.1
    (__ramssd_send_cmd pf ri r).2.2 hnt
  rw [send_cmd_of_free pf ri rp r now delay hop hfree, htgt, hpid]
  simp only
  obtain ⟨b1, b2, b3, b4, _, _, _⟩ := note_bug_on_frame (__ramssd_send_cmd pf ri r).2.1 false
  generalize hreg : register_req (note_bug_on (__ramssd_send_cmd pf ri r).2.1 false)
    r.punit_id rp now 0 = reg
  obtain ⟨g1, g2, g3, g4, g5⟩ := register_req_frame
    (note_bug_on (__ramssd_send_cmd pf ri r).2.1 false) r.punit_id rp now 0
  rw [hreg] at g1 g2 g3 g4 g5
  have hregmode : reg.emul_mode = ri.emul_mode := g2.trans (b3.trans hm)
  have hregnp : reg.nand_params = ri.nand_params := g3.trans (b4.trans hn)
  have hregcalls : reg.intr_handler_calls = ri.intr_handler_calls := g1.trans (b2.trans hc)
  have hregother : ∀ i, i ≠ r.punit_id → reg.ptr_punits i = ri.ptr_punits i := by
    intro i hi
    rw [g5 i hi, b1, hp]
  have hsched : __ramssd_timing_register_schedule pf reg (fun i => now + delay i)
      = for_loop (dev_ramssd_get_chips_per_ssd ri.nand_params)
          (cmd_done_body (fun i => now + delay i)) reg := by
    unfold __ramssd_timing_register_schedule __ramssd_cmd_done
    rw [hregmode, hregnp]
    rcases hmode with h | h <;> rw [h]
  have hdue : ∀ i, i < dev_ramssd_get_chips_per_ssd ri.nand_params →
      (punit_due reg (fun i => now + delay i) i = true ↔ i = r.punit_id) := by
    intro i hi
    unfold punit_due
    by_cases hir : i = r.punit_id
    · subst hir
      rw [g4]
      simp [bdbm_stopwatch_get_elapsed_time_us]
    · rw [hregother i hir, hempty i hi]
      simp [hir]
  rw [hsched]
  refine ⟨?_, ?_, ?_⟩
  · rw [scan_calls, hregcalls, filter_range_single _ r.punit_id _ hid hdue]
    simp [g4]
  · rw [scan_punits]
    split <;> simp [g4]
  · intro i hi
    rw [scan_punits]
    by_cases hir : i = r.punit_id
    · subst hir
      rw [if_pos ⟨hi, (hdue _ hi).mpr rfl⟩]
    · have hnd : ¬ (i < dev_ramssd_get_chips_per_ssd ri.nand_params ∧
          punit_due reg (fun i => now + delay i) i = true) := by
        intro hh
        exact hir ((hdue i hi).mp hh.2)
      rw [if_neg hnd, hregother i hir]
      exact hempty i hi

/-- Witness of C9: in mode `RAMDRIVE`, a read on parallel unit 3 of the four
units of a fresh emulator. -/
theorem sync_submit_completes_once_witness :
    (dev_ramssd_send_cmd pf_ref (ri_fresh geom_s1) 1001 (req_punit3 REQTYPE_READ)
      0 (fun _ => 0)).2.1.intr_handler_calls = (ri_fresh geom_s1).intr_handler_calls ++ [1001] ∧
    ((dev_ramssd_send_cmd pf_ref (ri_fresh geom_s1) 1001 (req_punit3 REQTYPE_READ)
      0 (fun _ => 0)).2.1.ptr_punits (req_punit3 REQTYPE_READ).punit_id).target_elapsed_time_us
      = 0 ∧
    (∀ i, i < dev_ramssd_get_chips_per_ssd (ri_fresh geom_s1).nand_params →
      ((dev_ramssd_send_cmd pf_ref (ri_fresh geom_s1) 1001 (req_punit3 REQTYPE_READ)
        0 (fun _ => 0)).2.1.ptr_punits i).ptr_req = none) :=
  sync_submit_completes_once pf_ref (ri_fresh geom_s1) 1001 (req_punit3 REQTYPE_READ)
    0 (fun _ => 0) (Or.inl rfl) (fun _ _ => rfl) (by decide) (by decide)

/-- C10 (amended). Target latency by request type: a successful
`dev_ramssd_send_cmd` registers in the unit's slot, in mode `RAMDRIVE_TIMING`,
`t - t / 10` when the nominal time `t` of the request type is not negative
(`page_prog_time_us` for the write types, `page_read_time_us` for the read
types, `block_erase_time_us` for `GC_ERASE`, 0 for `READ_DUMMY`) and `t`
itself when `t` is negative; in every other mode it registers 0. -/
theorem registered_target_latency (pf : platform_t) (ri : dev_ramssd_info_t)
    (rp : Nat) (r : bdbm_llm_req_t) (now : Nat) (delay : Nat → Nat)
    (hret : (dev_ramssd_send_cmd pf ri rp r now delay).1 = 0) :
    (ri.emul_mode = DEVICE_TYPE_RAMDRIVE_TIMING →
      ∀ t, nominal_time_us ri.nand_params r.req_type = some t →
        (0 ≤ t → ((dev_ramssd_send_cmd pf ri rp r now delay).2.1.ptr_punits
          r.punit_id).target_elapsed_time_us = t - t / 10) ∧
        (t < 0 → ((dev_ramssd_send_cmd pf ri rp r now delay).2.1.ptr_punits
          r.punit_id).target_elapsed_time_us = t)) ∧
    (ri.emul_mode ≠ DEVICE_TYPE_RAMDRIVE_TIMING →
      ((dev_ramssd_send_cmd pf ri rp r now delay).2.1.ptr_punits
        r.punit_id).target_elapsed_time_us = 0) := by
  obtain ⟨hop, hfree⟩ := send_cmd_ret_zero pf ri rp r now delay hret
  obtain ⟨_, _, hm, hn, _, _, hpid, hty, _⟩ := send_cmd_page_op_frame pf ri r
  have hslot : ((dev_ramssd_send_cmd pf ri rp r now delay).2.1.ptr_punits
      r.punit_id).target_elapsed_time_us =
      (target_elapsed_time (__ramssd_send_cmd pf ri r).2.1 (__ramssd_send_cmd pf ri r).2.2).1 := by
    rw [send_cmd_of_free pf ri rp r now delay hop hfree]
    simp only
    rw [(register_schedule_slot pf _ _ r.punit_id).1, hpid,
      (register_req_frame _ r.punit_id rp now _).2.2.2.1]
  constructor
  · intro hmode t ht
    have hmode2 : (__ramssd_send_cmd pf ri r).2.1.emul_mode = DEVICE_TYPE_RAMDRIVE_TIMING := by
      rw [hm]; exact hmode
    have ht2 : nominal_time_us (__ramssd_send_cmd pf ri r).2.1.nand_params
        (__ramssd_send_cmd pf ri r).2.2.req_type = some t := by
      rw [hn, hty]; exact ht
    rw [hslot, target_elapsed_time_timing _ _ t hmode2 ht2]
    constructor
    · intro h0
      by_cases hpos : t > 0
      · rw [if_pos hpos]
      · have : t = 0 := by omega
        subst this
        simp
    · intro hneg
      rw [if_neg (by omega)]
  · intro hmode
    have hmode2 : (__ramssd_send_cmd pf ri r).2.1.emul_mode ≠ DEVICE_TYPE_RAMDRIVE_TIMING := by
      rw [hm]; exact hmode
    rw [hslot, target_elapsed_time_not_timing _ _ hmode2]

/-- Witness of C10 (amended), scenario S5: in mode `RAMDRIVE_TIMING` with
`page_read_time_us = 50` a read registers the target 45. -/
theorem registered_target_latency_witness :
    ((dev_ramssd_send_cmd pf_ref (ri_fresh geom_timing) 1001 (req_punit3 REQTYPE_READ)
      0 (fun _ => 0)).2.1.ptr_punits (req_punit3 REQTYPE_READ).punit_id).target_elapsed_time_us
      = 50 - 50 / 10 :=
  ((registered_target_latency pf_ref (ri_fresh geom_timing) 1001 (req_punit3 REQTYPE_READ)
    0 (fun _ => 0) (by decide)).1 rfl 50 rfl).1 (by decide)

/-- Counterexample to C10 as stated: in mode `RAMDRIVE_TIMING` with a read
time that reads as -20 in the `int64_t` variable, a successful read registers
-20, whereas `t - t / 10` is -18 (the quotient -2 is the same under C's
truncating division). -/
theorem registered_target_latency_negative :
    (ri_fresh geom_timing_neg).emul_mode = DEVICE_TYPE_RAMDRIVE_TIMING ∧
    (ri_fresh geom_timing_neg).nand_params.page_read_time_us = -20 ∧
    (dev_ramssd_send_cmd pf_ref (ri_fresh geom_timing_neg) 1001 (req_punit3 REQTYPE_READ)
      0 (fun _ => 0)).1 = 0 ∧
    ((dev_ramssd_send_cmd pf_ref (ri_fresh geom_timing_neg) 1001 (req_punit3 REQTYPE_READ)
      0 (fun _ => 0)).2.1.ptr_punits 3).target_elapsed_time_us = -20 ∧
    ((-20 : Int) - Int.tdiv (-20) 10 = -18) ∧
    ((dev_ramssd_send_cmd pf_ref (ri_fresh geom_timing_neg) 1001 (req_punit3 REQTYPE_READ)
      0 (fun _ => 0)).2.1.ptr_punits 3).target_elapsed_time_us
      ≠ (-20 : Int) - Int.tdiv (-20) 10 := by
  refine ⟨by decide, by decide, by decide, by decide, by decide, by decide⟩

/-! ## Dispatcher: latency floor, failed operations and unknown types -/

/-- A scan clears an occupied slot only when the slot is due. -/
theorem scan_clears_only_due (ri : dev_ramssd_info_t) (clock : Nat → Nat) (i rp : Nat)
    (hocc : (ri.ptr_punits i).ptr_req = some rp)
    (hclr : ((__ramssd_cmd_done ri clock).ptr_punits i).ptr_req = none) :
    bdbm_stopwatch_get_elapsed_time_us (ri.ptr_punits i).sw (clock i)
      ≥ (ri.ptr_punits i).target_elapsed_time_us := by
  unfold __ramssd_cmd_done at hclr
  rw [scan_punits] at hclr
  by_cases hd : i < dev_ramssd_get_chips_per_ssd ri.nand_params ∧ punit_due ri clock i = true
  · have h2 := hd.2
    unfold punit_due at h2
    rw [hocc] at h2
    simpa using h2
  · rw [if_neg hd, hocc] at hclr
    exact absurd hclr (Option.some_ne_none rp)

/-- The calls that a scan over the first `n` units adds for a request that
only unit `id` holds: one when that unit is among them and due, none
otherwise. -/
theorem scan_calls_count (ri : dev_ramssd_info_t) (clock : Nat → Nat) (id rp : Nat)
    (hocc : (ri.ptr_punits id).ptr_req = some rp)
    (huniq : ∀ i, i ≠ id → (ri.ptr_punits i).ptr_req ≠ some rp) (n : Nat) :
    (((List.range n).filter (fun i => punit_due ri clock i)).filterMap
        (fun i => (ri.ptr_punits i).ptr_req)).count rp
      = if id < n ∧ punit_due ri clock id = true then 1 else 0 := by
  induction n with
  | zero => simp
  | succ k ih =>
    rw [List.range_succ, List.filter_append, List.filterMap_append, List.count_append, ih]
    by_cases hk : k = id
    · subst hk
      by_cases hd : punit_due ri clock k = true
      · simp [hd, hocc]
      · simp [hd]
    · have hne := huniq k hk
      have hlt : (id < k + 1) ↔ (id < k) := by omega
      by_cases hd : punit_due ri clock k = true
      · cases hq : (ri.ptr_punits k).ptr_req with
        | none => simp [hd, hq, hlt]
        | some p =>
          have hp : p ≠ rp := fun h => hne (by rw [hq, h])
          have hc : List.count rp [p] = 0 := by
            rw [List.count_eq_zero]
            intro hmem
            rw [List.mem_singleton] at hmem
            exact hp hmem.symm
          simp [hd, hq, hlt, hc]
      · simp [hd, hlt]

/-- The handler log after a scan, counted for a request that only unit `id`
holds: one more call exactly when that unit is in the table and its
stopwatch shows at least the target. -/
theorem cmd_done_calls_count (ri : dev_ramssd_info_t) (clock : Nat → Nat) (id rp : Nat)
    (hocc : (ri.ptr_punits id).ptr_req = some rp)
    (huniq : ∀ i, i ≠ id → (ri.ptr_punits i).ptr_req ≠ some rp) :
    (__ramssd_cmd_done ri clock).intr_handler_calls.count rp
      = ri.intr_handler_calls.count rp +
        (if id < dev_ramssd_get_chips_per_ssd ri.nand_params ∧
            bdbm_stopwatch_get_elapsed_time_us (ri.ptr_punits id).sw (clock id)
              ≥ (ri.ptr_punits id).target_elapsed_time_us then 1 else 0) := by
  unfold __ramssd_cmd_done
  rw [scan_calls, List.count_append, scan_calls_count ri clock id rp hocc huniq]
  have hdue : punit_due ri clock id = true ↔
      bdbm_stopwatch_get_elapsed_time_us (ri.ptr_punits id).sw (clock id)
        ≥ (ri.ptr_punits id).target_elapsed_time_us := by
    unfold punit_due
    rw [hocc]
    simp
  simp only [hdue]

/-- C11. Latency floor: in mode `RAMDRIVE_TIMING`, for every `WRITE` that
`dev_ramssd_send_cmd` accepts with `page_prog_time_us = t >= 0`, the target
`T` registered in the unit's slot satisfies `10 * T >= 9 * t` and `T <= t`,
and the stopwatch is started at the submit instant; the request is delivered
(its slot cleared by a completion scan, be it the scan inside the call or any
later `__ramssd_cmd_done` on a state whose slot still holds it) only when the
elapsed time that the scan reads is at least `T`, hence at least nine tenths
of `page_prog_time_us`; and, the request being held by no other unit, a scan
calls `intr_handler` on it once when the unit is in the table and the
elapsed time it reads is at least `T`, and not at all otherwise: the scan
inside the call, which exists only outside a `KERNEL_MODE` build, and any
later `__ramssd_cmd_done`. -/
theorem timing_write_latency_floor (pf : platform_t) (ri : dev_ramssd_info_t)
    (rp : Nat) (r : bdbm_llm_req_t) (now : Nat) (delay : Nat → Nat)
    (hmode : ri.emul_mode = DEVICE_TYPE_RAMDRIVE_TIMING)
    (hty : r.req_type = REQTYPE_WRITE)
    (ht : 0 ≤ ri.nand_params.page_prog_time_us)
    (hret : (dev_ramssd_send_cmd pf ri rp r now delay).1 = 0) :
    10 * ((dev_ramssd_send_cmd pf ri rp r now delay).2.1.ptr_punits
        r.punit_id).target_elapsed_time_us ≥ 9 * ri.nand_params.page_prog_time_us ∧
    ((dev_ramssd_send_cmd pf ri rp r now delay).2.1.ptr_punits
        r.punit_id).target_elapsed_time_us ≤ ri.nand_params.page_prog_time_us ∧
    ((dev_ramssd_send_cmd pf ri rp r now delay).2.1.ptr_punits r.punit_id).sw = now ∧
    (((dev_ramssd_send_cmd pf ri rp r now delay).2.1.ptr_punits r.punit_id).ptr_req = some rp ∨
      (((dev_ramssd_send_cmd pf ri rp r now delay).2.1.ptr_punits r.punit_id).ptr_req = none ∧
        bdbm_stopwatch_get_elapsed_time_us now (now + delay r.punit_id)
          ≥ ((dev_ramssd_send_cmd pf ri rp r now delay).2.1.ptr_punits
              r.punit_id).target_elapsed_time_us)) ∧
    (∀ (ri2 : dev_ramssd_info_t) (clock : Nat → Nat),
      ri2.ptr_punits r.punit_id =
        { ptr_req := some rp, sw := now,
          target_elapsed_time_us := ((dev_ramssd_send_cmd pf ri rp r now delay).2.1.ptr_punits
            r.punit_id).target_elapsed_time_us } →
      ((__ramssd_cmd_done ri2 clock).ptr_punits r.punit_id).ptr_req = none →
      bdbm_stopwatch_get_elapsed_time_us now (clock r.punit_id)
        ≥ ((dev_ramssd_send_cmd pf ri rp r now delay).2.1.ptr_punits
            r.punit_id).target_elapsed_time_us ∧
      10 * bdbm_stopwatch_get_elapsed_time_us now (clock r.punit_id)
        ≥ 9 * ri.nand_params.page_prog_time_us) ∧
    ((∀ i, i ≠ r.punit_id → (ri.ptr_punits i).ptr_req ≠ some rp) →
      (dev_ramssd_send_cmd pf ri rp r now delay).2.1.intr_handler_calls.count rp
        = ri.intr_handler_calls.count rp +
          (if pf.KERNEL_MODE = false ∧
              r.punit_id < dev_ramssd_get_chips_per_ssd ri.nand_params ∧
              bdbm_stopwatch_get_elapsed_time_us now (now + delay r.punit_id)
                ≥ ((dev_ramssd_send_cmd pf ri rp r now delay).2.1.ptr_punits
                    r.punit_id).target_elapsed_time_us then 1 else 0)) ∧
    (∀ (ri2 : dev_ramssd_info_t) (clock : Nat → Nat),
      ri2.ptr_punits r.punit_id =
        { ptr_req := some rp, sw := now,
          target_elapsed_time_us := ((dev_ramssd_send_cmd pf ri rp r now delay).2.1.ptr_punits
            r.punit_id).target_elapsed_time_us } →
      (∀ i, i ≠ r.punit_id → (ri2.ptr_punits i).ptr_req ≠ some rp) →
      (__ramssd_cmd_done ri2 clock).intr_handler_calls.count rp
        = ri2.intr_handler_calls.count rp +
          (if r.punit_id < dev_ramssd_get_chips_per_ssd ri2.nand_params ∧
              bdbm_stopwatch_get_elapsed_time_us now (clock r.punit_id)
                ≥ ((dev_ramssd_send_cmd pf ri rp r now delay).2.1.ptr_punits
                    r.punit_id).target_elapsed_time_us then 1 else 0) ∧
      ((__ramssd_cmd_done ri2 clock).intr_handler_calls.count rp
          ≠ ri2.intr_handler_calls.count rp →
        bdbm_stopwatch_get_elapsed_time_us now (clock r.punit_id)
          ≥ ((dev_ramssd_send_cmd pf ri rp r now delay).2.1.ptr_punits
              r.punit_id).target_elapsed_time_us ∧
        10 * bdbm_stopwatch_get_elapsed_time_us now (clock r.punit_id)
          ≥ 9 * ri.nand_params.page_prog_time_us)) := by
  obtain ⟨hop, hfree⟩ := send_cmd_ret_zero pf ri rp r now delay hret
  obtain ⟨hpu, hcl, hm, hn, _, _, hpid, hty2, _⟩ := send_cmd_page_op_frame pf ri r
  have hmode2 : (__ramssd_send_cmd pf ri r).2.1.emul_mode = DEVICE_TYPE_RAMDRIVE_TIMING := by
    rw [hm]; exact hmode
  have hnom : nominal_time_us (__ramssd_send_cmd pf ri r).2.1.nand_params
      (__ramssd_send_cmd pf ri r).2.2.req_type = some ri.nand_params.page_prog_time_us := by
    rw [hn, hty2, hty]; rfl
  have htgt := target_elapsed_time_timing _ _ _ hmode2 hnom
  generalize hT : (target_elapsed_time (__ramssd_send_cmd pf ri r).2.1
    (__ramssd_send_cmd pf ri r).2.2).1 = T at htgt
  have hfin : dev_ramssd_send_cmd pf ri rp r now delay = _ :=
    send_cmd_of_free pf ri rp r now delay hop hfree
  rw [hT, hpid] at hfin
  generalize hreg : register_req
    (note_bug_on (__ramssd_send_cmd pf ri r).2.1
      (target_elapsed_time (__ramssd_send_cmd pf ri r).2.1 (__ramssd_send_cmd pf ri r).2.2).2)
    r.punit_id rp now T = reg at hfin
  have hslot0 : reg.ptr_punits r.punit_id
      = { ptr_req := some rp, sw := now, target_elapsed_time_us := T } := by
    rw [← hreg]; exact (register_req_frame _ r.punit_id rp now T).2.2.2.1
  rw [hfin]
  simp only
  have hkeep := register_schedule_slot pf reg (fun i => now + delay i) r.punit_id
  rw [hslot0] at hkeep
  simp only at hkeep
  have hb1 : 10 * T ≥ 9 * ri.nand_params.page_prog_time_us := by
    rw [htgt]; split <;> omega
  have hb2 : T ≤ ri.nand_params.page_prog_time_us := by
    rw [htgt]; split <;> omega
  rw [hkeep.1, hkeep.2]
  refine ⟨hb1, hb2, rfl, ?_, ?_, ?_, ?_⟩
  · -- the scan inside the call, if any
    have hsched : __ramssd_timing_register_schedule pf reg (fun i => now + delay i) = reg ∨
        __ramssd_timing_register_schedule pf reg (fun i => now + delay i)
          = __ramssd_cmd_done reg (fun i => now + delay i) := by
      have hregmode : reg.emul_mode = DEVICE_TYPE_RAMDRIVE_TIMING := by
        rw [← hreg, (register_req_frame _ r.punit_id rp now T).2.1,
          (note_bug_on_frame _ _).2.2.1]
        exact hmode2
      unfold __ramssd_timing_register_schedule __ramssd_timing_cmd_done
      rw [hregmode]
      simp only
      by_cases hk : pf.KERNEL_MODE = true
      · left; rw [if_pos hk]
      · right; rw [if_neg hk]
    rcases hsched with h | h
    · left
      rw [h, hslot0]
    · rw [h]
      cases hq : ((__ramssd_cmd_done reg (fun i => now + delay i)).ptr_punits
          r.punit_id).ptr_req with
      | none =>
        right
        refine ⟨rfl, ?_⟩
        have := scan_clears_only_due reg (fun i => now + delay i) r.punit_id rp
          (by rw [hslot0]) hq
        rw [hslot0] at this
        exact this
      | some p =>
        left
        unfold __ramssd_cmd_done at hq
        rw [scan_punits] at hq
        split at hq
        · simp at hq
        · rw [hslot0] at hq
          exact hq.symm
  · intro ri2 clock hslot hclr
    have := scan_clears_only_due ri2 clock r.punit_id rp (by rw [hslot]) hclr
    rw [hslot] at this
    simp only at this
    exact ⟨this, by omega⟩
  · -- the handler calls of the scan inside the call
    intro huniq
    have hregmode : reg.emul_mode = DEVICE_TYPE_RAMDRIVE_TIMING := by
      rw [← hreg, (register_req_frame _ r.punit_id rp now T).2.1,
        (note_bug_on_frame _ _).2.2.1]
      exact hmode2
    have hregcalls : reg.intr_handler_calls = ri.intr_handler_calls := by
      rw [← hreg, (register_req_frame _ r.punit_id rp now T).1, (note_bug_on_frame _ _).2.1, hcl]
    have hregnp : reg.nand_params = ri.nand_params := by
      rw [← hreg, (register_req_frame _ r.punit_id rp now T).2.2.1,
        (note_bug_on_frame _ _).2.2.2.1, hn]
    have hreguniq : ∀ i, i ≠ r.punit_id → (reg.ptr_punits i).ptr_req ≠ some rp := by
      intro i hi
      rw [← hreg, (register_req_frame _ r.punit_id rp now T).2.2.2.2 i hi,
        (note_bug_on_frame _ _).1, hpu]
      exact huniq i hi
    by_cases hk : pf.KERNEL_MODE = true
    · have hs : __ramssd_timing_register_schedule pf reg (fun i => now + delay i) = reg := by
        unfold __ramssd_timing_register_schedule __ramssd_timing_cmd_done
        rw [hregmode]
        simp only
        rw [if_pos hk]
      rw [hs, hregcalls]
      simp [hk]
    · have hs : __ramssd_timing_register_schedule pf reg (fun i => now + delay i)
          = __ramssd_cmd_done reg (fun i => now + delay i) := by
        unfold __ramssd_timing_register_schedule __ramssd_timing_cmd_done
        rw [hregmode]
        simp only
        rw [if_neg hk]
      have hkf : pf.KERNEL_MODE = false := by
        cases hq : pf.KERNEL_MODE with
        | true => exact absurd hq hk
        | false => rfl
      rw [hs, cmd_done_calls_count reg (fun i => now + delay i) r.punit_id rp
        (by rw [hslot0]) hreguniq, hregcalls, hregnp, hslot0]
      simp only [hkf, true_and]
  · -- the handler calls of any later scan
    intro ri2 clock hslot huniq
    have hcount := cmd_done_calls_count ri2 clock r.punit_id rp (by rw [hslot]) huniq
    rw [hslot] at hcount
    simp only at hcount
    refine ⟨hcount, ?_⟩
    intro hne
    rw [hcount] at hne
    by_cases hd : r.punit_id < dev_ramssd_get_chips_per_ssd ri2.nand_params ∧
        bdbm_stopwatch_get_elapsed_time_us now (clock r.punit_id) ≥ T
    · exact ⟨hd.2, by have := hd.2; omega⟩
    · rw [if_neg hd] at hne
      exact absurd rfl hne

/-- Witness of C11: in mode `RAMDRIVE_TIMING` of a kernel build with
`page_prog_time_us = 500`, a write on parallel unit 3 registers a target `T`
with `10 * T >= 9 * 500` and `T <= 500`, stamped at the submit instant 7, and
the call itself does not call the handler; on the state `ri_write_pending`,
which holds that request, a scan that reads the stopwatch at instant 456
(elapsed 449) does not call the handler and a scan at instant 457
(elapsed 450) calls it once. -/
theorem timing_write_latency_floor_witness :
    10 * ((dev_ramssd_send_cmd pf_ref (ri_fresh geom_timing) 1001 (req_punit3 REQTYPE_WRITE)
      7 (fun _ => 0)).2.1.ptr_punits (req_punit3 REQTYPE_WRITE).punit_id).target_elapsed_time_us
      ≥ 9 * (ri_fresh geom_timing).nand_params.page_prog_time_us ∧
    ((dev_ramssd_send_cmd pf_ref (ri_fresh geom_timing) 1001 (req_punit3 REQTYPE_WRITE)
      7 (fun _ => 0)).2.1.ptr_punits (req_punit3 REQTYPE_WRITE).punit_id).target_elapsed_time_us
      ≤ (ri_fresh geom_timing).nand_params.page_prog_time_us ∧
    ((dev_ramssd_send_cmd pf_ref (ri_fresh geom_timing) 1001 (req_punit3 REQTYPE_WRITE)
      7 (fun _ => 0)).2.1.ptr_punits (req_punit3 REQTYPE_WRITE).punit_id).sw = 7 ∧
    ((__ramssd_cmd_done ri_write_pending (fun _ => 456)).intr_handler_calls.count 1001
        ≠ ri_write_pending.intr_handler_calls.count 1001 →
      bdbm_stopwatch_get_elapsed_time_us 7 ((fun (_ : Nat) => 456)
          (req_punit3 REQTYPE_WRITE).punit_id)
        ≥ ((dev_ramssd_send_cmd pf_ref (ri_fresh geom_timing) 1001 (req_punit3 REQTYPE_WRITE)
            7 (fun _ => 0)).2.1.ptr_punits
              (req_punit3 REQTYPE_WRITE).punit_id).target_elapsed_time_us ∧
      10 * bdbm_stopwatch_get_elapsed_time_us 7 ((fun (_ : Nat) => 456)
          (req_punit3 REQTYPE_WRITE).punit_id)
        ≥ 9 * (ri_fresh geom_timing).nand_params.page_prog_time_us) ∧
    (__ramssd_cmd_done ri_write_pending (fun _ => 456)).intr_handler_calls = [] ∧
    (__ramssd_cmd_done ri_write_pending (fun _ => 457)).intr_handler_calls = [1001] ∧
    (dev_ramssd_send_cmd pf_ref (ri_fresh geom_timing) 1001 (req_punit3 REQTYPE_WRITE)
      7 (fun _ => 0)).2.1.intr_handler_calls = [] :=
  ⟨(timing_write_latency_floor pf_ref (ri_fresh geom_timing) 1001 (req_punit3 REQTYPE_WRITE)
      7 (fun _ => 0) rfl rfl (by decide) (by decide)).1,
   (timing_write_latency_floor pf_ref (ri_fresh geom_timing) 1001 (req_punit3 REQTYPE_WRITE)
      7 (fun _ => 0) rfl rfl (by decide) (by decide)).2.1,
   (timing_write_latency_floor pf_ref (ri_fresh geom_timing) 1001 (req_punit3 REQTYPE_WRITE)
      7 (fun _ => 0) rfl rfl (by decide) (by decide)).2.2.1,
   ((timing_write_latency_floor pf_ref (ri_fresh geom_timing) 1001 (req_punit3 REQTYPE_WRITE)
      7 (fun _ => 0) rfl rfl (by decide) (by decide)).2.2.2.2.2.2
      ri_write_pending (fun _ => 456) rfl
      (fun i hi => by
        have h3 : i ≠ 3 := hi
        simp [ri_write_pending, h3])).2,
   by decide, by decide, by decide⟩

/-- C12 (amended). A request whose page operation in `__ramssd_send_cmd`
returns a non-zero code has that code recorded in `request.ret` and returned
by `dev_ramssd_send_cmd`, and is not registered: every parallel-unit slot is
as before, `intr_handler` is not invoked and no completion scan is
scheduled. -/
theorem failed_page_op_is_not_registered (pf : platform_t) (ri : dev_ramssd_info_t)
    (rp : Nat) (r : bdbm_llm_req_t) (now : Nat) (delay : Nat → Nat)
    (hop : (__ramssd_send_cmd pf ri r).1 ≠ 0) :
    (dev_ramssd_send_cmd pf ri rp r now delay).1 = (__ramssd_send_cmd pf ri r).1 ∧
    (dev_ramssd_send_cmd pf ri rp r now delay).2.2.ret = (__ramssd_send_cmd pf ri r).1 ∧
    (dev_ramssd_send_cmd pf ri rp r now delay).2.1.ptr_punits = ri.ptr_punits ∧
    (dev_ramssd_send_cmd pf ri rp r now delay).2.1.intr_handler_calls
      = ri.intr_handler_calls ∧
    (dev_ramssd_send_cmd pf ri rp r now delay).2.1.tasklet_scheduled
      = ri.tasklet_scheduled := by
  obtain ⟨hp, hc, _, _, ht, _, _, _, hr⟩ := send_cmd_page_op_frame pf ri r
  rw [send_cmd_of_op_fail pf ri rp r now delay hop]
  exact ⟨rfl, hr, hp, hc, ht⟩

/-- Witness of C12 (amended): a read on a geometry whose main area of 6000
bytes is not a multiple of the 4096-byte page; the page operation returns 1. -/
theorem failed_page_op_is_not_registered_witness :
    (dev_ramssd_send_cmd pf_ref (ri_fresh geom_odd) 1001 (req_punit3 REQTYPE_READ)
      0 (fun _ => 0)).1 = (__ramssd_send_cmd pf_ref (ri_fresh geom_odd)
        (req_punit3 REQTYPE_READ)).1 ∧
    (dev_ramssd_send_cmd pf_ref (ri_fresh geom_odd) 1001 (req_punit3 REQTYPE_READ)
      0 (fun _ => 0)).2.2.ret = (__ramssd_send_cmd pf_ref (ri_fresh geom_odd)
        (req_punit3 REQTYPE_READ)).1 ∧
    (dev_ramssd_send_cmd pf_ref (ri_fresh geom_odd) 1001 (req_punit3 REQTYPE_READ)
      0 (fun _ => 0)).2.1.ptr_punits = (ri_fresh geom_odd).ptr_punits ∧
    (dev_ramssd_send_cmd pf_ref (ri_fresh geom_odd) 1001 (req_punit3 REQTYPE_READ)
      0 (fun _ => 0)).2.1.intr_handler_calls = (ri_fresh geom_odd).intr_handler_calls ∧
    (dev_ramssd_send_cmd pf_ref (ri_fresh geom_odd) 1001 (req_punit3 REQTYPE_READ)
      0 (fun _ => 0)).2.1.tasklet_scheduled = (ri_fresh geom_odd).tasklet_scheduled :=
  failed_page_op_is_not_registered pf_ref (ri_fresh geom_odd) 1001 (req_punit3 REQTYPE_READ)
    0 (fun _ => 0) (by decide)

/-- Counterexample to C12 as stated: in mode `RAMDRIVE`, the read of a page
of a geometry whose main area is not a multiple of the page size fails in the
page engine with code 1; `dev_ramssd_send_cmd` records 1 in `request.ret` and
returns 1, but the slot of unit 3 stays empty and `intr_handler` is not
called, whereas the same request on the scenario geometry succeeds and is
delivered. -/
theorem failed_page_op_skips_completion :
    (__ramssd_send_cmd pf_ref (ri_fresh geom_odd) (req_punit3 REQTYPE_READ)).1 = 1 ∧
    (dev_ramssd_send_cmd pf_ref (ri_fresh geom_odd) 1001 (req_punit3 REQTYPE_READ)
      0 (fun _ => 0)).1 = 1 ∧
    (dev_ramssd_send_cmd pf_ref (ri_fresh geom_odd) 1001 (req_punit3 REQTYPE_READ)
      0 (fun _ => 0)).2.2.ret = 1 ∧
    ((dev_ramssd_send_cmd pf_ref (ri_fresh geom_odd) 1001 (req_punit3 REQTYPE_READ)
      0 (fun _ => 0)).2.1.ptr_punits 3).ptr_req = none ∧
    (dev_ramssd_send_cmd pf_ref (ri_fresh geom_odd) 1001 (req_punit3 REQTYPE_READ)
      0 (fun _ => 0)).2.1.intr_handler_calls = [] ∧
    (dev_ramssd_send_cmd pf_ref (ri_fresh geom_s1) 1001 (req_punit3 REQTYPE_READ)
      0 (fun _ => 0)).2.1.intr_handler_calls = [1001] := by
  refine ⟨by decide, by decide, by decide, by decide, by decide, by decide⟩

/-- C13. BadRequest: for every request whose `req_type` is none of `READ`,
`META_READ`, `GC_READ`, `RMW_READ`, `WRITE`, `META_WRITE`, `GC_WRITE`,
`RMW_WRITE`, `GC_ERASE`, `READ_DUMMY`, `TRIM`, `dev_ramssd_send_cmd` sets
`request.ret = 1`, returns 1, and performs no page operation: the emulator
(backing store, shadow, every parallel-unit slot, the callback log) is
unchanged and so are the request's buffers. -/
theorem bad_request_is_rejected (pf : platform_t) (ri : dev_ramssd_info_t)
    (rp : Nat) (r : bdbm_llm_req_t) (now : Nat) (delay : Nat → Nat)
    (hty : r.req_type ≠ REQTYPE_READ ∧ r.req_type ≠ REQTYPE_META_READ ∧
      r.req_type ≠ REQTYPE_GC_READ ∧ r.req_type ≠ REQTYPE_RMW_READ ∧
      r.req_type ≠ REQTYPE_WRITE ∧ r.req_type ≠ REQTYPE_META_WRITE ∧
      r.req_type ≠ REQTYPE_GC_WRITE ∧ r.req_type ≠ REQTYPE_RMW_WRITE ∧
      r.req_type ≠ REQTYPE_GC_ERASE ∧ r.req_type ≠ REQTYPE_READ_DUMMY ∧
      r.req_type ≠ REQTYPE_TRIM) :
    dev_ramssd_send_cmd pf ri rp r now delay = (1, ri, { r with ret := 1 }) := by
  have hop : __ramssd_send_cmd pf ri r = (1, ri, { r with ret := 1 }) := by
    unfold __ramssd_send_cmd
    obtain ⟨h1, h2, h3, h4, h5, h6, h7, h8, h9, h10, h11⟩ := hty
    cases hq : r.req_type <;> simp_all
  rw [send_cmd_of_op_fail pf ri rp r now delay (by rw [hop]; exact Nat.one_ne_zero), hop]

/-- Witness of C13: a request of an unknown type on parallel unit 3. -/
theorem bad_request_is_rejected_witness :
    dev_ramssd_send_cmd pf_ref (ri_fresh geom_s1) 1001 (req_punit3 (REQTYPE_OTHER 99))
      0 (fun _ => 0)
      = (1, ri_fresh geom_s1, { req_punit3 (REQTYPE_OTHER 99) with ret := 1 }) :=
  bad_request_is_rejected pf_ref (ri_fresh geom_s1) 1001 (req_punit3 (REQTYPE_OTHER 99))
    0 (fun _ => 0) (by decide)

/-! ## Erase, index ranges, construction and the blind read -/

/-- Scheduling or running the completion scan changes neither store, nor the
parameters, nor the mode. -/
theorem register_schedule_frame (pf : platform_t) (ri : dev_ramssd_info_t)
    (clock : Nat → Nat) :
    (__ramssd_timing_register_schedule pf ri clock).ptr_ssdram = ri.ptr_ssdram ∧
    (__ramssd_timing_register_schedule pf ri clock).ptr_ramssd_data = ri.ptr_ramssd_data ∧
    (__ramssd_timing_register_schedule pf ri clock).nand_params = ri.nand_params ∧
    (__ramssd_timing_register_schedule pf ri clock).emul_mode = ri.emul_mode ∧
    (__ramssd_timing_register_schedule pf ri clock).bug_on_hits = ri.bug_on_hits := by
  have hscan : (__ramssd_cmd_done ri clock).ptr_ssdram = ri.ptr_ssdram ∧
      (__ramssd_cmd_done ri clock).ptr_ramssd_data = ri.ptr_ramssd_data ∧
      (__ramssd_cmd_done ri clock).nand_params = ri.nand_params ∧
      (__ramssd_cmd_done ri clock).emul_mode = ri.emul_mode ∧
      (__ramssd_cmd_done ri clock).bug_on_hits = ri.bug_on_hits := by
    unfold __ramssd_cmd_done
    obtain ⟨h1, h2, h3, h4, _, h6, _⟩ := scan_frame clock ri
      (dev_ramssd_get_chips_per_ssd ri.nand_params)
    exact ⟨h3, h4, h1, h2, h6⟩
  unfold __ramssd_timing_register_schedule __ramssd_timing_cmd_done
  split
  · exact hscan
  · exact hscan
  · split
    · exact ⟨rfl, rfl, rfl, rfl, rfl⟩
    · exact hscan
  · split
    · exact ⟨rfl, rfl, rfl, rfl, rfl⟩
    · exact hscan
  · exact hscan

/-- Whatever a submit returns, the stores, the parameters and the mode after
it are those that the page operation left. -/
theorem send_cmd_stores (pf : platform_t) (ri : dev_ramssd_info_t) (rp : Nat)
    (r : bdbm_llm_req_t) (now : Nat) (delay : Nat → Nat) :
    (dev_ramssd_send_cmd pf ri rp r now delay).2.1.ptr_ssdram
      = (__ramssd_send_cmd pf ri r).2.1.ptr_ssdram ∧
    (dev_ramssd_send_cmd pf ri rp r now delay).2.1.ptr_ramssd_data
      = (__ramssd_send_cmd pf ri r).2.1.ptr_ramssd_data ∧
    (dev_ramssd_send_cmd pf ri rp r now delay).2.1.nand_params = ri.nand_params ∧
    (dev_ramssd_send_cmd pf ri rp r now delay).2.1.emul_mode = ri.emul_mode ∧
    (dev_ramssd_send_cmd pf ri rp r now delay).2.2 = (__ramssd_send_cmd pf ri r).2.2 := by
  obtain ⟨_, _, hm, hn, _, _, _, _, _⟩ := send_cmd_page_op_frame pf ri r
  obtain ⟨_, _, b3, b4, _, b6, b7⟩ := note_bug_on_frame (__ramssd_send_cmd pf ri r).2.1
    (target_elapsed_time (__ramssd_send_cmd pf ri r).2.1 (__ramssd_send_cmd pf ri r).2.2).2
  by_cases hop : (__ramssd_send_cmd pf ri r).1 = 0
  · cases hq : (ri.ptr_punits r.punit_id).ptr_req with
    | some p =>
      rw [send_cmd_of_busy pf ri rp r now delay hop (by rw [hq]; exact Option.some_ne_none p)]
      exact ⟨b6, b7, b4.trans hn, b3.trans hm, rfl⟩
    | none =>
      rw [send_cmd_of_free pf ri rp r now delay hop hq]
      obtain ⟨s1, s2, s3, s4, _⟩ := register_schedule_frame pf
        (register_req
          (note_bug_on (__ramssd_send_cmd pf ri r).2.1
            (target_elapsed_time (__ramssd_send_cmd pf ri r).2.1
              (__ramssd_send_cmd pf ri r).2.2).2)
          (__ramssd_send_cmd pf ri r).2.2.punit_id rp now
          (target_elapsed_time (__ramssd_send_cmd pf ri r).2.1
            (__ramssd_send_cmd pf ri r).2.2).1)
        (fun i => now + delay i)
      obtain ⟨_, g2, g3, _, _⟩ := register_req_frame
        (note_bug_on (__ramssd_send_cmd pf ri r).2.1
          (target_elapsed_time (__ramssd_send_cmd pf ri r).2.1
            (__ramssd_send_cmd pf ri r).2.2).2)
        (__ramssd_send_cmd pf ri r).2.2.punit_id rp now
        (target_elapsed_time (__ramssd_send_cmd pf ri r).2.1
          (__ramssd_send_cmd pf ri r).2.2).1
      exact ⟨s1.trans b6, s2.trans b7, s3.trans (g3.trans (b4.trans hn)),
        s4.trans (g2.trans (b3.trans hm)), rfl⟩
  · rw [send_cmd_of_op_fail pf ri rp r now delay hop]
    exact ⟨rfl, rfl, hn, hm, rfl⟩

/-- C14. Erase is a no-op on the medium: for every geometry and every
(channel, chip, block), `__ramssd_erase_block` returns 0; a `GC_ERASE` request
leaves the emulator as it was in `__ramssd_send_cmd` (every byte of the
backing store and of the shadow), and `dev_ramssd_send_cmd` with it changes
neither store; so a read of any page after the erase returns what it returned
before the erase, the programmed (stale) data rather than `0xFF`. -/
theorem erase_block_is_noop (pf : platform_t) (ri : dev_ramssd_info_t)
    (rp : Nat) (r : bdbm_llm_req_t) (now : Nat) (delay : Nat → Nat)
    (hty : r.req_type = REQTYPE_GC_ERASE) :
    (∀ (np : bdbm_device_params_t) (ch chip blk : Nat), __ramssd_erase_block np ch chip blk = 0) ∧
    __ramssd_send_cmd pf ri r = (0, ri, { r with ret := 0 }) ∧
    (dev_ramssd_send_cmd pf ri rp r now delay).2.1.ptr_ssdram = ri.ptr_ssdram ∧
    (dev_ramssd_send_cmd pf ri rp r now delay).2.1.ptr_ramssd_data = ri.ptr_ramssd_data ∧
    (dev_ramssd_send_cmd pf ri rp r now delay).2.1.nand_params = ri.nand_params ∧
    (∀ (ch chip blk pg : Nat) (kp : Nat → Nat) (bufs : Nat → Nat → Nat) (O : Nat → Nat)
        (oob partial_ : Nat),
      __ramssd_read_page pf (dev_ramssd_send_cmd pf ri rp r now delay).2.1.nand_params
        (dev_ramssd_send_cmd pf ri rp r now delay).2.1.ptr_ssdram
        (dev_ramssd_send_cmd pf ri rp r now delay).2.1.ptr_ramssd_data
        ch chip blk pg kp bufs O oob partial_
      = __ramssd_read_page pf ri.nand_params ri.ptr_ssdram ri.ptr_ramssd_data
        ch chip blk pg kp bufs O oob partial_) := by
  have herase : ∀ (np : bdbm_device_params_t) (ch chip blk : Nat),
      __ramssd_erase_block np ch chip blk = 0 := by
    intro np ch chip blk
    unfold __ramssd_erase_block __ramssd_block_addr
    rfl
  have hop : __ramssd_send_cmd pf ri r = (0, ri, { r with ret := 0 }) := by
    unfold __ramssd_send_cmd
    simp only [hty, herase]
  have hstate : (dev_ramssd_send_cmd pf ri rp r now delay).2.1.ptr_ssdram = ri.ptr_ssdram ∧
      (dev_ramssd_send_cmd pf ri rp r now delay).2.1.ptr_ramssd_data = ri.ptr_ramssd_data ∧
      (dev_ramssd_send_cmd pf ri rp r now delay).2.1.nand_params = ri.nand_params := by
    obtain ⟨s1, s2, s3, _, _⟩ := send_cmd_stores pf ri rp r now delay
    rw [hop] at s1 s2
    exact ⟨s1, s2, s3⟩
  refine ⟨herase, hop, hstate.1, hstate.2.1, hstate.2.2, ?_⟩
  intro ch chip blk pg kp bufs O oob partial_
  rw [hstate.1, hstate.2.1, hstate.2.2]
/-- Witness of C14: on the scenario geometry in mode `RAMDRIVE`, page
(1, 0, 1, 2) is written with `0x42`, then its block erased; the erase changes
no store, and a read of the page into zeroed buffers returns 0 and the stale
`0x42`, not `0xFF`. -/
theorem erase_block_is_noop_witness :
    ri_written_erased.ptr_ssdram
      = (dev_ramssd_send_cmd pf_ref (ri_fresh geom_s1) 1001 (req_page_1012 REQTYPE_WRITE)
          0 (fun _ => 0)).2.1.ptr_ssdram ∧
    (__ramssd_read_page pf_ref ri_written_erased.nand_params ri_written_erased.ptr_ssdram
      ri_written_erased.ptr_ramssd_data 1 0 1 2 (fun _ => 1) (fun _ _ => 0) (fun _ => 0)
      1 0).ret = 0 ∧
    (__ramssd_read_page pf_ref ri_written_erased.nand_params ri_written_erased.ptr_ssdram
      ri_written_erased.ptr_ramssd_data 1 0 1 2 (fun _ => 1) (fun _ _ => 0) (fun _ => 0)
      1 0).ptr_page_data 0 0 = 0x42 :=
  ⟨(erase_block_is_noop pf_ref
      (dev_ramssd_send_cmd pf_ref (ri_fresh geom_s1) 1001 (req_page_1012 REQTYPE_WRITE)
        0 (fun _ => 0)).2.1
      1002 (req_page_1012 REQTYPE_GC_ERASE) 1 (fun _ => 0) rfl).2.2.1,
   by decide, by decide⟩

/-- The return values of the page engine do not depend on whether the indices
are in range: for all indices `__ramssd_page_addr` and `__ramssd_block_addr`
yield the offset of the address formula, `__ramssd_erase_block` returns 0,
and `__ramssd_read_page` and `__ramssd_prog_page` return 1 exactly when
`page_main_size` is not a multiple of `KERNEL_PAGE_SIZE`. -/
theorem page_engine_ignores_index_range (pf : platform_t) (np : bdbm_device_params_t)
    (ssdram shadow : Nat → Nat) (ch chip blk pg : Nat)
    (kp : Nat → Nat) (bufs : Nat → Nat → Nat) (O : Nat → Nat) (oob partial_ : Nat) :
    __ramssd_page_addr np ch chip blk pg = some (page_offset np ch chip blk pg) ∧
    __ramssd_block_addr np ch chip blk = some (block_offset np ch chip blk) ∧
    __ramssd_erase_block np ch chip blk = 0 ∧
    (__ramssd_read_page pf np ssdram shadow ch chip blk pg kp bufs O oob partial_).ret
      = (if np.page_main_size % pf.KERNEL_PAGE_SIZE ≠ 0 then 1 else 0) ∧
    (__ramssd_prog_page pf np ssdram shadow ch chip blk pg kp bufs O oob).ret
      = (if np.page_main_size % pf.KERNEL_PAGE_SIZE ≠ 0 then 1 else 0) := by
  refine ⟨rfl, rfl, rfl, ?_, ?_⟩
  · by_cases hdiv : np.page_main_size % pf.KERNEL_PAGE_SIZE = 0
    · rw [(read_page_result pf np ssdram shadow ch chip blk pg kp bufs O oob partial_ hdiv).1]
      simp [hdiv]
    · rw [(read_page_fail pf np ssdram shadow ch chip blk pg kp bufs O oob partial_ hdiv).1]
      simp [hdiv]
  · by_cases hdiv : np.page_main_size % pf.KERNEL_PAGE_SIZE = 0
    · rw [(prog_page_store pf np ssdram shadow ch chip blk pg kp bufs O oob hdiv).1]
      simp [hdiv]
    · rw [prog_page_fail pf np ssdram shadow ch chip blk pg kp bufs O oob hdiv]
      simp [hdiv]

/-- C15, the code at the failing input: on the scenario geometry (4 pages and
2 blocks per unit) the page index 4 of address (0, 0, 0, 4) and the block
index 2 of (0, 0, 2) are out of range.  The read of (0, 0, 0, 4) returns 0
and fills the caller's zeroed buffer from the store: with `0xFF` on an erased
store, and with the `0x42` of the in-range page (0, 0, 1, 0) once that page
has been programmed.  The program of (0, 0, 0, 4) returns 0 and writes `0x42`
at the offset of the page (0, 0, 1, 0), inside the store.  The erase of
(0, 0, 2) returns 0.  The `NULL` test of the callers on the result of
`__ramssd_page_addr` does not fire. -/
theorem out_of_range_page_is_accessed :
    ¬ (4 < geom_s1.nr_pages_per_block) ∧ ¬ (2 < geom_s1.nr_blocks_per_chip) ∧
    (__ramssd_read_page pf_ref geom_s1 (fun _ => 0xFF) (fun _ => 0xFF) 0 0 0 4
      (fun _ => 1) (fun _ _ => 0) (fun _ => 0) 1 0).ret = 0 ∧
    (__ramssd_read_page pf_ref geom_s1 (fun _ => 0xFF) (fun _ => 0xFF) 0 0 0 4
      (fun _ => 1) (fun _ _ => 0) (fun _ => 0) 1 0).ptr_page_data 0 0 = 0xFF ∧
    (__ramssd_read_page pf_ref geom_s1
      (__ramssd_prog_page pf_ref geom_s1 (fun _ => 0xFF) (fun _ => 0xFF) 0 0 1 0
        (fun _ => 1) (fun _ _ => 0x42) oob_lpa7 1).ptr_ssdram
      (fun _ => 0xFF) 0 0 0 4
      (fun _ => 1) (fun _ _ => 0) (fun _ => 0) 1 0).ptr_page_data 0 0 = 0x42 ∧
    (__ramssd_prog_page pf_ref geom_s1 (fun _ => 0xFF) (fun _ => 0xFF) 0 0 0 4
      (fun _ => 1) (fun _ _ => 0x42) oob_lpa7 1).ret = 0 ∧
    __ramssd_page_addr geom_s1 0 0 0 4 = __ramssd_page_addr geom_s1 0 0 1 0 ∧
    __ramssd_page_addr geom_s1 0 0 0 4 ≠ none ∧
    page_offset geom_s1 0 0 1 0 + geom_s1.page_main_size + geom_s1.page_oob_size
      ≤ ssd_size_in_bytes geom_s1 ∧
    (__ramssd_prog_page pf_ref geom_s1 (fun _ => 0xFF) (fun _ => 0xFF) 0 0 0 4
      (fun _ => 1) (fun _ _ => 0x42) oob_lpa7 1).ptr_ssdram (page_offset geom_s1 0 0 1 0)
      = 0x42 ∧
    __ramssd_erase_block geom_s1 0 0 2 = 0 := by
  refine ⟨by decide, by decide, by decide, by decide, by decide, by decide, by decide,
    by decide, by decide, by decide, by decide⟩

/-- C16 (amended). `dev_ramssd_create` does not examine `page_main_size`: for
every geometry, also one whose `page_main_size` is not a multiple of
`KERNEL_PAGE_SIZE`, it returns an emulator exactly when its allocations and
the timing setup succeed; on such a geometry the mismatch is reported by the
page operations, `__ramssd_read_page` and `__ramssd_prog_page` returning 1. -/
theorem create_ignores_page_size (pf : platform_t) (np : bdbm_device_params_t)
    (env : alloc_env_t) :
    ((dev_ramssd_create pf np env).isSome = true ↔
      (env.ri_ok = true ∧ env.ssdram_ok = true ∧ env.punits_ok = true ∧
        __ramssd_timing_create pf np.device_type env = 0)) ∧
    (np.page_main_size % pf.KERNEL_PAGE_SIZE ≠ 0 →
      ∀ (ssdram shadow : Nat → Nat) (ch chip blk pg : Nat) (kp : Nat → Nat)
        (bufs : Nat → Nat → Nat) (O : Nat → Nat) (oob partial_ : Nat),
        (__ramssd_read_page pf np ssdram shadow ch chip blk pg kp bufs O oob partial_).ret = 1 ∧
        (__ramssd_prog_page pf np ssdram shadow ch chip blk pg kp bufs O oob).ret = 1) := by
  constructor
  · unfold dev_ramssd_create __ramssd_alloc_ssdram
    by_cases h1 : env.ri_ok = true
    · by_cases h2 : env.ssdram_ok = true
      · by_cases h3 : env.punits_ok = true
        · by_cases h4 : __ramssd_timing_create pf np.device_type env = 0
          · simp [h1, h2, h3, h4]
          · simp [h1, h2, h3, h4]
        · simp [h1, h2, h3]
      · simp [h1, h2]
    · simp [h1]
  · intro hdiv ssdram shadow ch chip blk pg kp bufs O oob partial_
    refine ⟨(read_page_fail pf np ssdram shadow ch chip blk pg kp bufs O oob partial_ hdiv).1, ?_⟩
    rw [prog_page_fail pf np ssdram shadow ch chip blk pg kp bufs O oob hdiv]

/-- Witness of C16 (amended): the geometry with a main area of 6000 bytes;
construction succeeds and a read of page (0, 0, 0, 0) returns 1. -/
theorem create_ignores_page_size_witness :
    (dev_ramssd_create pf_ref geom_odd env_ok).isSome = true ∧
    (__ramssd_read_page pf_ref geom_odd (fun _ => 0xFF) (fun _ => 0xFF) 0 0 0 0
      (fun _ => 1) (fun _ _ => 0) (fun _ => 0) 1 0).ret = 1 :=
  ⟨(create_ignores_page_size pf_ref geom_odd env_ok).1.mpr (by decide),
   ((create_ignores_page_size pf_ref geom_odd env_ok).2 (by decide)
      (fun _ => 0xFF) (fun _ => 0xFF) 0 0 0 0 (fun _ => 1) (fun _ _ => 0) (fun _ => 0) 1 0).1⟩

/-- Counterexample to C16 as stated: `page_main_size = 6000` is not a
multiple of the 4096-byte page, and `dev_ramssd_create` returns an emulator
instance for it. -/
theorem create_succeeds_on_odd_page_size :
    geom_odd.page_main_size % pf_ref.KERNEL_PAGE_SIZE ≠ 0 ∧
    dev_ramssd_create pf_ref geom_odd env_ok ≠ none := by
  refine ⟨by decide, ?_⟩
  have h : (dev_ramssd_create pf_ref geom_odd env_ok).isSome = true := by decide
  intro hn
  rw [hn] at h
  exact absurd h (by decide)

/-- C18. The shadow comparison is observational: for every two shadow
contents, `__ramssd_read_page` with otherwise the same arguments returns the
same code and leaves the same bytes in the caller's main and OOB buffers; and
a read request leaves the emulator in `__ramssd_send_cmd` as it was, the
backing store and the shadow included. -/
theorem read_is_blind_to_shadow (pf : platform_t) (np : bdbm_device_params_t)
    (ssdram shadow1 shadow2 : Nat → Nat) (ch chip blk pg : Nat)
    (kp : Nat → Nat) (bufs : Nat → Nat → Nat) (O : Nat → Nat) (oob partial_ : Nat) :
    (__ramssd_read_page pf np ssdram shadow1 ch chip blk pg kp bufs O oob partial_).ret
      = (__ramssd_read_page pf np ssdram shadow2 ch chip blk pg kp bufs O oob partial_).ret ∧
    (__ramssd_read_page pf np ssdram shadow1 ch chip blk pg kp bufs O oob
        partial_).ptr_page_data
      = (__ramssd_read_page pf np ssdram shadow2 ch chip blk pg kp bufs O oob
        partial_).ptr_page_data ∧
    (__ramssd_read_page pf np ssdram shadow1 ch chip blk pg kp bufs O oob
        partial_).ptr_oob_data
      = (__ramssd_read_page pf np ssdram shadow2 ch chip blk pg kp bufs O oob
        partial_).ptr_oob_data ∧
    (∀ (ri : dev_ramssd_info_t) (r : bdbm_llm_req_t),
      (r.req_type = REQTYPE_READ ∨ r.req_type = REQTYPE_META_READ ∨
        r.req_type = REQTYPE_GC_READ ∨ r.req_type = REQTYPE_RMW_READ) →
      (__ramssd_send_cmd pf ri r).2.1 = ri) := by
  have hread : (__ramssd_read_page pf np ssdram shadow1 ch chip blk pg kp bufs O oob
        partial_).ret
      = (__ramssd_read_page pf np ssdram shadow2 ch chip blk pg kp bufs O oob partial_).ret ∧
    (__ramssd_read_page pf np ssdram shadow1 ch chip blk pg kp bufs O oob
        partial_).ptr_page_data
      = (__ramssd_read_page pf np ssdram shadow2 ch chip blk pg kp bufs O oob
        partial_).ptr_page_data ∧
    (__ramssd_read_page pf np ssdram shadow1 ch chip blk pg kp bufs O oob
        partial_).ptr_oob_data
      = (__ramssd_read_page pf np ssdram shadow2 ch chip blk pg kp bufs O oob
        partial_).ptr_oob_data := by
    by_cases hdiv : np.page_main_size % pf.KERNEL_PAGE_SIZE = 0
    · obtain ⟨a1, a2, a3⟩ := read_page_result pf np ssdram shadow1 ch chip blk pg kp bufs O
        oob partial_ hdiv
      obtain ⟨b1, b2, b3⟩ := read_page_result pf np ssdram shadow2 ch chip blk pg kp bufs O
        oob partial_ hdiv
      refine ⟨a1.trans b1.symm, ?_, a3.trans b3.symm⟩
      funext i
      rw [a2 i, b2 i]
    · obtain ⟨a1, a2, a3⟩ := read_page_fail pf np ssdram shadow1 ch chip blk pg kp bufs O
        oob partial_ hdiv
      obtain ⟨b1, b2, b3⟩ := read_page_fail pf np ssdram shadow2 ch chip blk pg kp bufs O
        oob partial_ hdiv
      exact ⟨a1.trans b1.symm, a2.trans b2.symm, a3.trans b3.symm⟩
  refine ⟨hread.1, hread.2.1, hread.2.2, ?_⟩
  · intro ri r hty
    unfold __ramssd_send_cmd
    rcases hty with h | h | h | h <;> simp [h, send_cmd_read]

/-- Witness of C18: the read of page (1, 1, 0, 0) of the scenario geometry
over an erased store, once with a shadow of `0xFF` and once with a shadow of
zeros, and the read request `req_punit3` on a fresh emulator. -/
theorem read_is_blind_to_shadow_witness :
    (__ramssd_read_page pf_ref geom_s1 (fun _ => 0xFF) (fun _ => 0xFF) 1 1 0 0
        (fun _ => 1) (fun _ _ => 0) (fun _ => 0) 1 0).ptr_page_data
      = (__ramssd_read_page pf_ref geom_s1 (fun _ => 0xFF) (fun _ => 0) 1 1 0 0
        (fun _ => 1) (fun _ _ => 0) (fun _ => 0) 1 0).ptr_page_data ∧
    (__ramssd_send_cmd pf_ref (ri_fresh geom_s1) (req_punit3 REQTYPE_READ)).2.1
      = ri_fresh geom_s1 :=
  ⟨(read_is_blind_to_shadow pf_ref geom_s1 (fun _ => 0xFF) (fun _ => 0xFF) (fun _ => 0)
      1 1 0 0 (fun _ => 1) (fun _ _ => 0) (fun _ => 0) 1 0).2.1,
   (read_is_blind_to_shadow pf_ref geom_s1 (fun _ => 0xFF) (fun _ => 0xFF) (fun _ => 0)
      1 1 0 0 (fun _ => 1) (fun _ _ => 0) (fun _ => 0) 1 0).2.2.2
      (ri_fresh geom_s1) (req_punit3 REQTYPE_READ) (Or.inl rfl)⟩

/-! ## Shadow store: what the data check reports -/

theorem get_ssd_size_eq (np : bdbm_device_params_t) :
    dev_ramssd_get_ssd_size np = ssd_size_in_bytes np := by
  unfold dev_ramssd_get_ssd_size dev_ramssd_get_channel_size dev_ramssd_get_chip_size
    dev_ramssd_get_block_size dev_ramssd_get_page_size ssd_size_in_bytes
  simp only
  rw [mod_u64_eq_iff]
  simp only [Nat.cast_add, Nat.cast_mul, ZMod.natCast_mod]
  ring

theorem get_ssd_size_lt (np : bdbm_device_params_t) : dev_ramssd_get_ssd_size np < U64 := by
  unfold dev_ramssd_get_ssd_size
  exact Nat.mod_lt _ (by unfold U64; positivity)

/-- The write loop of `dev_ramssd_store`: when every call of `bdbm_fwrite`
transfers at least one byte, `len - pos` passes are enough, and the loop ends
at `pos = len` with the first `len` bytes of the file equal to the buffer and
the other bytes as before. -/
theorem store_loop (env : file_env_t) (S : Nat → Nat) (file : file_t) (len : Nat)
    (hlen : len < U64) (hw : ∀ off n, 0 < n → 0 < env.written off n) :
    ∀ (fuel pos : Nat) (f : file_t), pos ≤ len → len - pos ≤ fuel →
      f.size = max file.size pos → (∀ a, a < pos → f.bytes a = S a) →
      (∀ a, pos ≤ a → f.bytes a = file.bytes a) →
      ∃ f2, while_loop (fun (s : Nat × file_t) => decide (s.1 < len))
          (fun s =>
            let r := bdbm_fwrite env s.2 s.1 S s.1 (len - s.1)
            ((s.1 + r.1) % U64, r.2)) fuel (pos, f) = some (len, f2) ∧
        f2.size = max file.size len ∧ (∀ a, a < len → f2.bytes a = S a) ∧
        (∀ a, len ≤ a → f2.bytes a = file.bytes a) := by
  intro fuel
  induction fuel with
  | zero =>
    intro pos f hpos hfuel hsize hlo hhi
    have hp : pos = len := by omega
    subst hp
    refine ⟨f, ?_, hsize, hlo, hhi⟩
    simp [while_loop]
  | succ k ih =>
    intro pos f hpos hfuel hsize hlo hhi
    by_cases hlt : pos < len
    · have hn1 := hw pos (len - pos) (by omega)
      have hn2 : min (env.written pos (len - pos)) (len - pos) ≤ len - pos := Nat.min_le_right _ _
      have hn3 : 0 < min (env.written pos (len - pos)) (len - pos) := by
        rw [Nat.lt_min]; exact ⟨hn1, by omega⟩
      have hmod : (pos + min (env.written pos (len - pos)) (len - pos)) % U64
          = pos + min (env.written pos (len - pos)) (len - pos) :=
        Nat.mod_eq_of_lt (by omega)
      have hstep : while_loop (fun (s : Nat × file_t) => decide (s.1 < len))
          (fun s =>
            let r := bdbm_fwrite env s.2 s.1 S s.1 (len - s.1)
            ((s.1 + r.1) % U64, r.2)) (k + 1) (pos, f)
          = while_loop (fun (s : Nat × file_t) => decide (s.1 < len))
          (fun s =>
            let r := bdbm_fwrite env s.2 s.1 S s.1 (len - s.1)
            ((s.1 + r.1) % U64, r.2)) k
            (pos + min (env.written pos (len - pos)) (len - pos),
              (bdbm_fwrite env f pos S pos (len - pos)).2) := by
        rw [while_loop]
        simp only [hlt, decide_True, if_true]
        congr 1
        simp only [bdbm_fwrite, hmod]
      rw [hstep]
      apply ih
      · omega
      · omega
      · simp only [bdbm_fwrite]
        rw [hsize]
        omega
      · intro a ha
        simp only [bdbm_fwrite]
        by_cases hap : a < pos
        · rw [bdbm_memcpy_miss _ _ _ _ _ _ (Or.inl hap)]
          exact hlo a hap
        · have : a = pos + (a - pos) := by omega
          rw [this, bdbm_memcpy_hit _ _ _ _ _ _ (by omega)]
      · intro a ha
        simp only [bdbm_fwrite]
        rw [bdbm_memcpy_miss _ _ _ _ _ _ (Or.inr ha)]
        exact hhi a (by omega)
    · have hp : pos = len := by omega
      subst hp
      refine ⟨f, ?_, hsize, hlo, hhi⟩
      simp [while_loop]

/-- C19 (amended). Snapshot round trip: with a file layer whose `bdbm_fopen`
succeeds and whose `bdbm_fwrite` transfers at least one byte per call,
`dev_ramssd_store` returns 0 (given as many passes of its loop as the store
has bytes) and `dev_ramssd_load` of the resulting file on an emulator of the
same geometry returns 0 and leaves the backing store byte-identical, over its
`ssd_size` bytes, to the backing store at the time of the store.  The first
`ssd_size` bytes of the file are the backing store; the file is opened
without truncation, so its length is the larger of its previous length and
`ssd_size`: exactly `ssd_size` bytes when the path held no more than that
before. -/
theorem snapshot_round_trip (ri ri2 : dev_ramssd_info_t) (env env2 : file_env_t)
    (file : file_t) (fuel : Nat)
    (hgeo : ri2.nand_params = ri.nand_params)
    (hfp : env.fp ≠ 0) (hfp2 : env2.fp ≠ 0)
    (hw : ∀ off n, 0 < n → 0 < env.written off n)
    (hfuel : dev_ramssd_get_ssd_size ri.nand_params ≤ fuel) :
    dev_ramssd_get_ssd_size ri.nand_params = ssd_size_in_bytes ri.nand_params ∧
    ∃ file2, dev_ramssd_store ri env file fuel = some (0, file2) ∧
      file2.size = max file.size (ssd_size_in_bytes ri.nand_params) ∧
      (file.size ≤ ssd_size_in_bytes ri.nand_params →
        file2.size = ssd_size_in_bytes ri.nand_params) ∧
      (∀ a, a < ssd_size_in_bytes ri.nand_params → file2.bytes a = ri.ptr_ssdram a) ∧
      (dev_ramssd_load ri2 env2 file2).1 = 0 ∧
      (∀ a, a < ssd_size_in_bytes ri.nand_params →
        (dev_ramssd_load ri2 env2 file2).2.ptr_ssdram a = ri.ptr_ssdram a) ∧
      (∀ a, ssd_size_in_bytes ri.nand_params ≤ a →
        (dev_ramssd_load ri2 env2 file2).2.ptr_ssdram a = ri2.ptr_ssdram a) := by
  have hsz := get_ssd_size_eq ri.nand_params
  refine ⟨hsz, ?_⟩
  obtain ⟨f2, hloop, hsize, hlo, _⟩ := store_loop env ri.ptr_ssdram file
    (dev_ramssd_get_ssd_size ri.nand_params) (get_ssd_size_lt ri.nand_params) hw
    fuel 0 file (Nat.zero_le _) (by omega) (by simp) (fun a ha => absurd ha (Nat.not_lt_zero a))
    (fun a _ => rfl)
  rw [hsz] at hsize hlo
  have hmin : min (ssd_size_in_bytes ri.nand_params) (f2.size - 0)
      = ssd_size_in_bytes ri.nand_params := by
    rw [hsize]; omega
  refine ⟨f2, ?_, hsize, ?_, hlo, ?_, ?_, ?_⟩
  · unfold dev_ramssd_store
    rw [if_neg hfp]
    simp only [hloop]
  · intro h
    rw [hsize]; omega
  · unfold dev_ramssd_load
    rw [if_neg hfp2]
  · intro a ha
    unfold dev_ramssd_load
    rw [if_neg hfp2]
    simp only [bdbm_fread, hgeo, hsz, hmin]
    have h := bdbm_memcpy_hit ri2.ptr_ssdram 0 f2.bytes 0
      (ssd_size_in_bytes ri.nand_params) a ha
    rw [Nat.zero_add] at h
    rw [h]
    exact hlo a ha
  · intro a ha
    unfold dev_ramssd_load
    rw [if_neg hfp2]
    simp only [bdbm_fread, hgeo, hsz, hmin]
    exact bdbm_memcpy_miss _ _ _ _ _ _ (Or.inr (by omega))

/-- Witness of C19 (amended): the store of a fresh emulator of geometry
`geom_s1` (135168 bytes) is saved to a new file through a file layer that
writes at most 65536 bytes per call, then loaded into another emulator of the
same geometry whose store holds zeros. -/
theorem snapshot_round_trip_witness :
    dev_ramssd_get_ssd_size (ri_fresh geom_s1).nand_params
      = ssd_size_in_bytes (ri_fresh geom_s1).nand_params ∧
    ∃ file2, dev_ramssd_store (ri_fresh geom_s1) file_env_chunked file_empty 135168
        = some (0, file2) ∧
      file2.size = max file_empty.size (ssd_size_in_bytes (ri_fresh geom_s1).nand_params) ∧
      (file_empty.size ≤ ssd_size_in_bytes (ri_fresh geom_s1).nand_params →
        file2.size = ssd_size_in_bytes (ri_fresh geom_s1).nand_params) ∧
      (∀ a, a < ssd_size_in_bytes (ri_fresh geom_s1).nand_params →
        file2.bytes a = (ri_fresh geom_s1).ptr_ssdram a) ∧
      (dev_ramssd_load { ri_fresh geom_s1 with ptr_ssdram := fun _ => 0 }
        file_env_ok file2).1 = 0 ∧
      (∀ a, a < ssd_size_in_bytes (ri_fresh geom_s1).nand_params →
        (dev_ramssd_load { ri_fresh geom_s1 with ptr_ssdram := fun _ => 0 }
          file_env_ok file2).2.ptr_ssdram a = (ri_fresh geom_s1).ptr_ssdram a) ∧
      (∀ a, ssd_size_in_bytes (ri_fresh geom_s1).nand_params ≤ a →
        (dev_ramssd_load { ri_fresh geom_s1 with ptr_ssdram := fun _ => 0 }
          file_env_ok file2).2.ptr_ssdram a
          = ({ ri_fresh geom_s1 with ptr_ssdram := fun _ => 0 } : dev_ramssd_info_t).ptr_ssdram
            a) :=
  snapshot_round_trip (ri_fresh geom_s1) { ri_fresh geom_s1 with ptr_ssdram := fun _ => 0 }
    file_env_chunked file_env_ok file_empty 135168 rfl (by decide) (by decide)
    (fun off n hn => by
      show 0 < min n 65536
      omega)
    (by decide)

/-- Counterexample to C19 as stated: the store of a fresh emulator of
geometry `geom_s1`, 135168 bytes, is saved to a path that already holds
200000 bytes, through a file layer whose calls all succeed in full.  The
store returns 0 in one pass of its loop, and the file afterwards holds
200000 bytes, not 135168: it is opened with `O_CREAT | O_WRONLY` and keeps
its old tail. -/
theorem snapshot_file_keeps_old_tail :
    ssd_size_in_bytes (ri_fresh geom_s1).nand_params = 135168 ∧
    (dev_ramssd_store (ri_fresh geom_s1) file_env_ok file_long 1).map
      (fun r => (r.1, r.2.size)) = some (0, 200000) ∧
    (dev_ramssd_store (ri_fresh geom_s1) file_env_ok file_long 1).map
      (fun r => (r.1, r.2.size)) ≠ some (0, ssd_size_in_bytes (ri_fresh geom_s1).nand_params) ∧
    (dev_ramssd_store (ri_fresh geom_s1) file_env_ok file_long 1).map
      (fun r => r.2.bytes 135168) = some 0 := by
  refine ⟨by decide, by decide, by decide, by decide⟩

/-! ## Submitter library: splitting of reads and writes -/

/-- The loop of `__memio_do_io` from its state after `j` requests: when the
bound `lba + n` does not wrap and every acquisition finds a handle, `n - j`
more passes end the loop after `n` requests in all. -/
theorem do_io_loop_spec (mio : memio_t) (env : memio_env_t) (dir : Int)
    (lba len data rounds : Nat)
    (hnowrap : lba + len / mio.io_size < U64)
    (hsent : len / mio.io_size * mio.io_size < U64)
    (halloc : ∀ k, k < len / mio.io_size →
      __memio_alloc_llm_req mio (env.try_lock k) rounds 0 ≠ none) :
    ∀ (fuel j : Nat) (s : memio_loop_t), j ≤ len / mio.io_size →
      len / mio.io_size - j ≤ fuel →
      s.cur_lba = lba + j → s.cur_buf = data + j * mio.io_size → s.sent = j * mio.io_size →
      s.reqs.length = j →
      s.reqs.map req_fields = (List.range j).map (fun k =>
        ((if dir = 0 then REQTYPE_READ else REQTYPE_WRITE), lba + k, data + k * mio.io_size)) →
      ∃ s2, do_io_loop mio env dir lba len rounds fuel s = some s2 ∧
        s2.sent = len / mio.io_size * mio.io_size ∧
        s2.reqs.map req_fields = (List.range (len / mio.io_size)).map (fun k =>
          ((if dir = 0 then REQTYPE_READ else REQTYPE_WRITE), lba + k,
            data + k * mio.io_size)) := by
  have hb : (lba + len / mio.io_size) % U64 = lba + len / mio.io_size :=
    Nat.mod_eq_of_lt hnowrap
  intro fuel
  induction fuel with
  | zero =>
    intro j s hj hfuel hlba hbuf hsn hlen hreqs
    have hjn : j = len / mio.io_size := by omega
    refine ⟨s, ?_, by rw [hsn, hjn], by rw [hreqs, hjn]⟩
    rw [do_io_loop, hb, if_neg (by omega)]
  | succ f ih =>
    intro j s hj hfuel hlba hbuf hsn hlen hreqs
    by_cases hlt : j < len / mio.io_size
    · rw [do_io_loop, hb, if_pos (by omega)]
      have ha := halloc j hlt
      rw [← hlen] at ha
      cases hal : __memio_alloc_llm_req mio (env.try_lock s.reqs.length) rounds 0 with
      | none => exact absurd hal ha
      | some tag =>
        simp only []
        have hle : (j + 1) * mio.io_size ≤ len / mio.io_size * mio.io_size :=
          Nat.mul_le_mul_right _ hlt
        apply ih (j + 1)
        · omega
        · omega
        · show (s.cur_lba + 1) % U64 = lba + (j + 1)
          rw [hlba, Nat.mod_eq_of_lt (by omega)]; omega
        · show s.cur_buf + mio.io_size = data + (j + 1) * mio.io_size
          rw [hbuf, Nat.add_mul, Nat.one_mul]; omega
        · show (s.sent + mio.io_size) % U64 = (j + 1) * mio.io_size
          rw [hsn, Nat.add_mul, Nat.one_mul]
          rw [Nat.add_mul, Nat.one_mul] at hle
          exact Nat.mod_eq_of_lt (by omega)
        · show (s.reqs ++ [_]).length = j + 1
          rw [List.length_append, hlen]; rfl
        · show (s.reqs ++ [_]).map req_fields = _
          rw [List.map_append, hreqs, List.range_succ, List.map_append]
          simp only [List.map_cons, List.map_nil, req_fields, hlba, hbuf]
    · have hjn : j = len / mio.io_size := by omega
      refine ⟨s, ?_, by rw [hsn, hjn], by rw [hreqs, hjn]⟩
      rw [do_io_loop, hb, if_neg (by omega)]

theorem to_int32_of_lt (v : Nat) (h : v < 2 ^ 31) : to_int32 v = (v : Int) := by
  have h32 : v % U32 = v := Nat.mod_eq_of_lt (by unfold U32; omega)
  unfold to_int32
  rw [h32, if_pos h]

/-- C20 (amended). Splitting of reads and writes in `__memio_do_io`: for every
`lba` with `lba + len / io_size < 2 ^ 64`, every `len < 2 ^ 31` that is a
multiple of a positive `io_size`, when every acquisition finds a free handle
within `rounds` passes and the loop is given `len / io_size` passes, the call
returns `len` and has issued exactly `len / io_size` requests in order, the
`k`-th (from 0) of type `READ` for `dir = 0` and `WRITE` otherwise, with
`logaddr.lpa[0] = lba + k` and `fmain.kp_ptr[0] = data + k * io_size`. -/
theorem memio_do_io_splits (mio : memio_t) (env : memio_env_t) (dir : Int)
    (lba len data rounds fuel : Nat)
    (hio : 0 < mio.io_size) (hmul : len % mio.io_size = 0) (hlen : len < 2 ^ 31)
    (hnowrap : lba + len / mio.io_size < U64)
    (halloc : ∀ k, k < len / mio.io_size →
      __memio_alloc_llm_req mio (env.try_lock k) rounds 0 ≠ none)
    (hfuel : len / mio.io_size ≤ fuel) :
    outcome_fields (__memio_do_io mio env dir lba len data rounds fuel) =
      some ((len : Int), (List.range (len / mio.io_size)).map (fun k =>
        ((if dir = 0 then REQTYPE_READ else REQTYPE_WRITE), lba + k,
          data + k * mio.io_size))) := by
  have hn : len / mio.io_size * mio.io_size = len :=
    Nat.div_mul_cancel (Nat.dvd_of_mod_eq_zero hmul)
  have _ := hio
  obtain ⟨s2, hloop, hsent, hreqs⟩ := do_io_loop_spec mio env dir lba len data rounds hnowrap
    (by rw [hn]; unfold U64; omega) halloc fuel 0
    { cur_lba := lba, cur_buf := data, sent := 0, cnt := 0, reqs := [],
      bug_on_hits := 0, nanosleeps := 0 }
    (Nat.zero_le _) (by omega) rfl (by simp) (by simp) rfl (by simp)
  unfold __memio_do_io __memio_check_alignment
  simp only [hmul, ne_eq, not_true_eq_false, decide_False, Bool.false_eq_true, if_false, hloop,
    outcome_fields, hreqs, hsent, hn, to_int32_of_lt len hlen]

/-- Witness of C20 (amended): a read of 16384 bytes at lba 5 into the buffer
at address 1000, on the session of `memio_open` with every handle free,
issues the requests for lba 5 and 6 with buffers 1000 and 9192 and
returns 16384. -/
theorem memio_do_io_splits_witness :
    outcome_fields (__memio_do_io mio_ref memio_env_ok 0 5 16384 1000 1 2) =
      some (((16384 : Nat) : Int), (List.range (16384 / mio_ref.io_size)).map (fun k =>
        ((if (0 : Int) = 0 then REQTYPE_READ else REQTYPE_WRITE), 5 + k,
          1000 + k * mio_ref.io_size))) :=
  memio_do_io_splits mio_ref memio_env_ok 0 5 16384 1000 1 2 (by decide) (by decide)
    (by decide) (by decide)
    (fun _ _ => by
      show __memio_alloc_llm_req mio_ref (fun _ _ => true) 1 0 ≠ none
      decide)
    (by decide)

/-- Counterexample to C20 as stated: a write of 8192 bytes at
`lba = 2 ^ 64 - 1` on the session of `memio_open` with every handle free.
`len` is a multiple of `io_size` below `2 ^ 31`, but the bound
`lba + len / io_size` wraps to 0 in `uint64_t`: the loop is not entered, no
request is issued and the call returns 0, not 8192. -/
theorem memio_do_io_wraps_at_last_lba :
    8192 % mio_ref.io_size = 0 ∧ 8192 < 2 ^ 31 ∧ 2 ^ 64 - 1 < U64 ∧
    outcome_fields (__memio_do_io mio_ref memio_env_ok 1 (2 ^ 64 - 1) 8192 1000 1 2)
      = some (0, []) ∧
    outcome_fields (__memio_do_io mio_ref memio_env_ok 1 (2 ^ 64 - 1) 8192 1000 1 2)
      ≠ some (8192, [(REQTYPE_WRITE, 2 ^ 64 - 1, 1000)]) := by
  refine ⟨by decide, by decide, by decide, by decide, by decide⟩

/-! ## Submitter library: fan-out of trims -/

/-- The first `n` passes of the `for` loop of a trim segment: when every
acquisition finds a handle and `cur_lba + n` does not wrap, they add the `n`
requests for `cur_lba + i` and leave `cur_lba` and `sent` alone. -/
theorem trim_segment_spec (mio : memio_t) (env : memio_env_t) (rounds : Nat)
    (s : memio_loop_t) :
    ∀ n, s.cur_lba + n ≤ U64 →
      (∀ i, i < n →
        __memio_alloc_llm_req mio (env.try_lock (s.reqs.length + i)) rounds 0 ≠ none) →
      ∃ s2, for_loop n (trim_issue mio env rounds) (some s) = some s2 ∧
        s2.cur_lba = s.cur_lba ∧ s2.sent = s.sent ∧
        s2.reqs.length = s.reqs.length + n ∧
        s2.reqs.map req_fields = s.reqs.map req_fields ++
          (List.range n).map (fun i => (REQTYPE_GC_ERASE, s.cur_lba + i, 0)) := by
  intro n
  induction n with
  | zero =>
    intro _ _
    exact ⟨s, rfl, rfl, rfl, rfl, by simp⟩
  | succ k ih =>
    intro hw halloc
    obtain ⟨s1, h1, hl, hs, hlen, hf⟩ := ih (by omega) (fun i hi => halloc i (by omega))
    have ha := halloc k (by omega)
    rw [← hlen] at ha
    simp only [for_loop]
    rw [h1]
    cases hal : __memio_alloc_llm_req mio (env.try_lock s1.reqs.length) rounds 0 with
    | none => exact absurd hal ha
    | some tag =>
      simp only [trim_issue, hal]
      refine ⟨_, rfl, hl, hs, ?_, ?_⟩
      · show (s1.reqs ++ [_]).length = _
        rw [List.length_append, hlen]
        simp only [List.length_singleton]
        omega
      · show (s1.reqs ++ [_]).map req_fields = _
        rw [List.map_append, hf, List.range_succ, List.map_append, List.append_assoc]
        simp only [List.map_cons, List.map_nil, req_fields, hl]
        rw [Nat.mod_eq_of_lt (by omega)]

/-- The loop of `memio_trim` from its state after `j` segments. -/
theorem trim_loop_spec (mio : memio_t) (env : memio_env_t) (lba len rounds m : Nat)
    (htl : 0 < mio.trim_lbas) (hpu : mio.nr_punits ≤ mio.trim_lbas)
    (hm : len / mio.io_size = m * mio.trim_lbas)
    (hnowrap : lba + len / mio.io_size < U64)
    (hsent : m * mio.trim_size < U64)
    (halloc : ∀ k, k < mio.nr_punits * m →
      __memio_alloc_llm_req mio (env.try_lock k) rounds 0 ≠ none) :
    ∀ (fuel j : Nat) (s : memio_loop_t), j ≤ m → m - j ≤ fuel →
      s.cur_lba = lba + j * mio.trim_lbas → s.sent = j * mio.trim_size →
      s.reqs.length = mio.nr_punits * j →
      s.reqs.map req_fields = trim_fields mio lba j →
      ∃ s2, trim_loop mio env lba len rounds fuel s = some s2 ∧
        s2.sent = m * mio.trim_size ∧
        s2.reqs.map req_fields = trim_fields mio lba m := by
  have hb : (lba + len / mio.io_size) % U64 = lba + m * mio.trim_lbas := by
    rw [Nat.mod_eq_of_lt hnowrap, hm]
  rw [hm] at hnowrap
  have hdone : ∀ j, j ≤ m → ¬ (j < m) → j = m := fun j h1 h2 => by omega
  intro fuel
  induction fuel with
  | zero =>
    intro j s hj hfuel hlba hsn hlen hreqs
    have hjm : j = m := by omega
    refine ⟨s, ?_, by rw [hsn, hjm], by rw [hreqs, hjm]⟩
    rw [trim_loop, hb, if_neg (by rw [hlba, hjm]; omega)]
  | succ f ih =>
    intro j s hj hfuel hlba hsn hlen hreqs
    by_cases hlt : j < m
    · have hlt2 : j * mio.trim_lbas < m * mio.trim_lbas :=
        Nat.mul_lt_mul_of_pos_right hlt htl
      have hnext : (j + 1) * mio.trim_lbas ≤ m * mio.trim_lbas :=
        Nat.mul_le_mul_right _ hlt
      have hnext2 : (j + 1) * mio.trim_size ≤ m * mio.trim_size :=
        Nat.mul_le_mul_right _ hlt
      have hcnt : mio.nr_punits * (j + 1) ≤ mio.nr_punits * m := Nat.mul_le_mul_left _ hlt
      rw [Nat.add_mul, Nat.one_mul] at hnext hnext2
      rw [Nat.mul_add, Nat.mul_one] at hcnt
      rw [trim_loop, hb, if_pos (by rw [hlba]; omega)]
      obtain ⟨s1, h1, hl1, hs1, hlen1, hf1⟩ := trim_segment_spec mio env rounds s mio.nr_punits
        (by rw [hlba]; omega)
        (fun i hi => halloc _ (by rw [hlen]; omega))
      unfold trim_segment
      rw [h1]
      simp only []
      apply ih (j + 1)
      · omega
      · omega
      · show (s1.cur_lba + mio.trim_lbas) % U64 = lba + (j + 1) * mio.trim_lbas
        rw [hl1, hlba, Nat.mod_eq_of_lt (by omega), Nat.add_mul, Nat.one_mul]; omega
      · show (s1.sent + mio.trim_size) % U64 = (j + 1) * mio.trim_size
        rw [hs1, hsn, Nat.mod_eq_of_lt (by omega), Nat.add_mul, Nat.one_mul]
      · show s1.reqs.length = mio.nr_punits * (j + 1)
        rw [hlen1, hlen, Nat.mul_add, Nat.mul_one]
      · show s1.reqs.map req_fields = trim_fields mio lba (j + 1)
        rw [hf1, hreqs, hlba]
        unfold trim_fields
        rw [List.range_succ, List.flatMap_append]
        simp
    · have hjm : j = m := hdone j hj hlt
      refine ⟨s, ?_, by rw [hsn, hjm], by rw [hreqs, hjm]⟩
      rw [trim_loop, hb, if_neg (by rw [hlba, hjm]; omega)]

theorem trim_fields_length (mio : memio_t) (lba m : Nat) :
    (trim_fields mio lba m).length = mio.nr_punits * m := by
  unfold trim_fields
  induction m with
  | zero => simp
  | succ k ih =>
    rw [List.range_succ, List.flatMap_append, List.length_append, ih]
    simp [Nat.mul_add]

/-- C21 (amended). Fan-out of `memio_trim`: on a session with
`trim_size = trim_lbas * io_size`, positive `io_size` and `trim_lbas`, and
`nr_punits <= trim_lbas`, for every `lba` that is a multiple of `trim_lbas`
with `lba + len / io_size < 2 ^ 64` and every `len < 2 ^ 31` that is a
multiple of `trim_size`, when every acquisition finds a free handle and the
loop is given `len / trim_size` passes, the call returns `len` and has issued
exactly `nr_punits * (len / trim_size)` requests, all of type `GC_ERASE` with
a NULL data pointer: for each trim segment `s` in order, `nr_punits` of them
with `logaddr.lpa[0] = lba + s * trim_lbas + i` for `i` from 0 to
`nr_punits - 1`. -/
theorem memio_trim_fans_out (mio : memio_t) (env : memio_env_t)
    (lba len rounds fuel : Nat)
    (hio : 0 < mio.io_size) (htl : 0 < mio.trim_lbas)
    (hts : mio.trim_size = mio.trim_lbas * mio.io_size)
    (hpu : mio.nr_punits ≤ mio.trim_lbas)
    (hlba : lba % mio.trim_lbas = 0) (hmul : len % mio.trim_size = 0)
    (hlen : len < 2 ^ 31)
    (hnowrap : lba + len / mio.io_size < U64)
    (halloc : ∀ k, k < mio.nr_punits * (len / mio.trim_size) →
      __memio_alloc_llm_req mio (env.try_lock k) rounds 0 ≠ none)
    (hfuel : len / mio.trim_size ≤ fuel) :
    outcome_fields (memio_trim mio env lba len rounds fuel) =
      some ((len : Int), trim_fields mio lba (len / mio.trim_size)) ∧
    (trim_fields mio lba (len / mio.trim_size)).length
      = mio.nr_punits * (len / mio.trim_size) := by
  refine ⟨?_, trim_fields_length mio lba _⟩
  have hn : len / mio.trim_size * mio.trim_size = len :=
    Nat.div_mul_cancel (Nat.dvd_of_mod_eq_zero hmul)
  have hm : len / mio.io_size = len / mio.trim_size * mio.trim_lbas := by
    have hlen2 : len / mio.trim_size * mio.trim_lbas * mio.io_size = len := by
      rw [Nat.mul_assoc, ← hts]; exact hn
    have h := Nat.mul_div_cancel (len / mio.trim_size * mio.trim_lbas) hio
    rw [hlen2] at h
    exact h
  obtain ⟨s2, hloop, hsent, hreqs⟩ := trim_loop_spec mio env lba len rounds
    (len / mio.trim_size) htl hpu hm hnowrap (by rw [hn]; unfold U64; omega) halloc fuel 0
    { cur_lba := lba, cur_buf := 0, sent := 0, cnt := 0, reqs := [],
      bug_on_hits := 0, nanosleeps := 0 }
    (Nat.zero_le _) (by omega) (by simp) (by simp) (by simp) (by simp [trim_fields])
  unfold memio_trim __memio_check_alignment
  simp only [hlba, hmul, ne_eq, not_true_eq_false, decide_False, Bool.false_eq_true, if_false,
    hloop, outcome_fields, hreqs, hsent, hn, to_int32_of_lt len hlen]

/-- Witness of C21 (amended): on the session of `memio_open` with every
handle free, a trim of `2 ^ 28` bytes (two segments) at lba `2 ^ 14`. -/
theorem memio_trim_fans_out_witness :
    outcome_fields (memio_trim mio_ref memio_env_ok (2 ^ 14) (2 ^ 28) 1 2) =
      some (((2 ^ 28 : Nat) : Int), trim_fields mio_ref (2 ^ 14) (2 ^ 28 / mio_ref.trim_size)) ∧
    (trim_fields mio_ref (2 ^ 14) (2 ^ 28 / mio_ref.trim_size)).length
      = mio_ref.nr_punits * (2 ^ 28 / mio_ref.trim_size) :=
  memio_trim_fans_out mio_ref memio_env_ok (2 ^ 14) (2 ^ 28) 1 2 (by decide) (by decide)
    (by decide) (by decide) (by decide) (by decide) (by decide) (by decide)
    (fun _ _ => by
      show __memio_alloc_llm_req mio_ref (fun _ _ => true) 1 0 ≠ none
      decide)
    (by decide)

/-- Counterexample to C21 as stated: on the session of `memio_open` with
every handle free, a trim of `2 ^ 27` bytes (one segment) at
`lba = 2 ^ 64 - 2 ^ 14`.  `lba` is a multiple of `trim_lbas` and `len` a
multiple of `trim_size` below `2 ^ 31`, but the bound `lba + len / io_size`
wraps to 0 in `uint64_t`: the loop is not entered, no request is issued and
the call returns 0, not `2 ^ 27`. -/
theorem memio_trim_wraps_at_last_segment :
    (2 ^ 64 - 2 ^ 14) % mio_ref.trim_lbas = 0 ∧ 2 ^ 64 - 2 ^ 14 < U64 ∧
    2 ^ 27 % mio_ref.trim_size = 0 ∧ 2 ^ 27 < 2 ^ 31 ∧
    mio_ref.nr_punits * (2 ^ 27 / mio_ref.trim_size) = 64 ∧
    outcome_fields (memio_trim mio_ref memio_env_ok (2 ^ 64 - 2 ^ 14) (2 ^ 27) 1 2)
      = some (0, []) := by
  refine ⟨by decide, by decide, by decide, by decide, by decide, by decide⟩

/-! ## Completion scan and the latency switch -/

/-- A slot is due exactly when it is occupied and its stopwatch shows at
least the target latency. -/
theorem punit_due_iff (ri : dev_ramssd_info_t) (clock : Nat → Nat) (i : Nat) :
    punit_due ri clock i = true ↔
      ∃ rp, (ri.ptr_punits i).ptr_req = some rp ∧
        bdbm_stopwatch_get_elapsed_time_us (ri.ptr_punits i).sw (clock i)
          ≥ (ri.ptr_punits i).target_elapsed_time_us := by
  unfold punit_due
  cases h : (ri.ptr_punits i).ptr_req with
  | none => simp
  | some p => simp

/-- C22. Completion scan semantics: for every parallel-unit table and every
reading `clock` of the stopwatches, one run of `__ramssd_cmd_done` clears the
slots of the table (units below `dev_ramssd_get_chips_per_ssd`) that were
occupied with `elapsed_time_us >= target_elapsed_time_us`, keeping their
stopwatch and target, and leaves every other slot exactly as it was; it
invokes `intr_handler` once on the request of each cleared slot, in ascending
order of the units, and on nothing else; and it touches nothing else of the
emulator. -/
theorem cmd_done_clears_exactly_due (ri : dev_ramssd_info_t) (clock : Nat → Nat) :
    (∀ i rp, i < dev_ramssd_get_chips_per_ssd ri.nand_params →
      (ri.ptr_punits i).ptr_req = some rp →
      bdbm_stopwatch_get_elapsed_time_us (ri.ptr_punits i).sw (clock i)
        ≥ (ri.ptr_punits i).target_elapsed_time_us →
      (__ramssd_cmd_done ri clock).ptr_punits i = { ri.ptr_punits i with ptr_req := none }) ∧
    (∀ i, ¬ (i < dev_ramssd_get_chips_per_ssd ri.nand_params ∧
        ∃ rp, (ri.ptr_punits i).ptr_req = some rp ∧
          bdbm_stopwatch_get_elapsed_time_us (ri.ptr_punits i).sw (clock i)
            ≥ (ri.ptr_punits i).target_elapsed_time_us) →
      (__ramssd_cmd_done ri clock).ptr_punits i = ri.ptr_punits i) ∧
    (__ramssd_cmd_done ri clock).intr_handler_calls =
      ri.intr_handler_calls ++
        ((List.range (dev_ramssd_get_chips_per_ssd ri.nand_params)).filter
          (fun i => punit_due ri clock i)).filterMap (fun i => (ri.ptr_punits i).ptr_req) ∧
    (∀ i, punit_due ri clock i = true ↔
      ∃ rp, (ri.ptr_punits i).ptr_req = some rp ∧
        bdbm_stopwatch_get_elapsed_time_us (ri.ptr_punits i).sw (clock i)
          ≥ (ri.ptr_punits i).target_elapsed_time_us) ∧
    (__ramssd_cmd_done ri clock).ptr_ssdram = ri.ptr_ssdram ∧
    (__ramssd_cmd_done ri clock).ptr_ramssd_data = ri.ptr_ramssd_data ∧
    (__ramssd_cmd_done ri clock).nand_params = ri.nand_params ∧
    (__ramssd_cmd_done ri clock).emul_mode = ri.emul_mode := by
  obtain ⟨f1, f2, f3, f4, _, _, _⟩ :=
    scan_frame clock ri (dev_ramssd_get_chips_per_ssd ri.nand_params)
  refine ⟨?_, ?_, ?_, punit_due_iff ri clock, f3, f4, f1, f2⟩
  · intro i rp hi hocc hdue
    unfold __ramssd_cmd_done
    rw [scan_punits, if_pos ⟨hi, (punit_due_iff ri clock i).mpr ⟨rp, hocc, hdue⟩⟩]
  · intro i hnot
    unfold __ramssd_cmd_done
    rw [scan_punits, if_neg]
    intro h
    exact hnot ⟨h.1, (punit_due_iff ri clock i).mp h.2⟩
  · unfold __ramssd_cmd_done
    exact scan_calls clock ri _

/-- Witness of C22: a scan of `ri_three_busy` that reads every stopwatch at
instant 100 clears units 0 and 3, leaves unit 2 (elapsed 40, target 45) and
the empty unit 1 as they were, and calls the handler on 1000, then 1003. -/
theorem cmd_done_clears_exactly_due_witness :
    (__ramssd_cmd_done ri_three_busy (fun _ => 100)).ptr_punits 0
      = { ri_three_busy.ptr_punits 0 with ptr_req := none } ∧
    (__ramssd_cmd_done ri_three_busy (fun _ => 100)).ptr_punits 2
      = ri_three_busy.ptr_punits 2 ∧
    (__ramssd_cmd_done ri_three_busy (fun _ => 100)).intr_handler_calls = [1000, 1003] :=
  ⟨(cmd_done_clears_exactly_due ri_three_busy (fun _ => 100)).1 0 1000
      (by decide) (by decide) (by decide),
   (cmd_done_clears_exactly_due ri_three_busy (fun _ => 100)).2.1 2 (by decide),
   by decide⟩

/-- In the timing mode the latency switch of `dev_ramssd_send_cmd` has no
case for `TRIM`: the `default` case with `bdbm_bug_on (1)` is reached and the
target stays 0. -/
theorem target_elapsed_time_trim (ri : dev_ramssd_info_t) (r : bdbm_llm_req_t)
    (hmode : ri.emul_mode = DEVICE_TYPE_RAMDRIVE_TIMING) (hty : r.req_type = REQTYPE_TRIM) :
    target_elapsed_time ri r = (0, true) := by
  unfold target_elapsed_time
  simp [hmode, hty]

/-- C23, the code at the failing input: a `TRIM` request for the free unit 3
of a fresh emulator in mode `RAMDRIVE_TIMING`.  The page operation accepts it
(`__ramssd_send_cmd` returns 0 for `TRIM`), but the latency switch of
`dev_ramssd_send_cmd` reaches its `default` case, the invalid-REQTYPE
assertion `bdbm_bug_on (1)`; past the assertion the request is registered
with target 0 and the call returns 0.  The same request in mode `RAMDRIVE`
does not reach the assertion. -/
theorem trim_in_timing_reaches_bug_on :
    (ri_fresh geom_timing).emul_mode = DEVICE_TYPE_RAMDRIVE_TIMING ∧
    ((ri_fresh geom_timing).ptr_punits 3).ptr_req = none ∧
    (__ramssd_send_cmd pf_ref (ri_fresh geom_timing) (req_punit3 REQTYPE_TRIM)).1 = 0 ∧
    target_elapsed_time (ri_fresh geom_timing) (req_punit3 REQTYPE_TRIM) = (0, true) ∧
    (dev_ramssd_send_cmd pf_ref (ri_fresh geom_timing) 1001 (req_punit3 REQTYPE_TRIM)
      0 (fun _ => 0)).2.1.bug_on_hits = 1 ∧
    (dev_ramssd_send_cmd pf_ref (ri_fresh geom_timing) 1001 (req_punit3 REQTYPE_TRIM)
      0 (fun _ => 0)).1 = 0 ∧
    ((dev_ramssd_send_cmd pf_ref (ri_fresh geom_timing) 1001 (req_punit3 REQTYPE_TRIM)
      0 (fun _ => 0)).2.1.ptr_punits 3).ptr_req = some 1001 ∧
    ((dev_ramssd_send_cmd pf_ref (ri_fresh geom_timing) 1001 (req_punit3 REQTYPE_TRIM)
      0 (fun _ => 0)).2.1.ptr_punits 3).target_elapsed_time_us = 0 ∧
    (dev_ramssd_send_cmd pf_ref (ri_fresh geom_timing) 1001 (req_punit3 REQTYPE_READ_DUMMY)
      0 (fun _ => 0)).2.1.bug_on_hits = 0 ∧
    (dev_ramssd_send_cmd pf_ref (ri_fresh geom_s1) 1001 (req_punit3 REQTYPE_TRIM)
      0 (fun _ => 0)).2.1.bug_on_hits = 0 := by
  refine ⟨by decide, by decide, by decide, by decide, by decide, by decide, by decide,
    by decide, by decide, by decide⟩

/-! ## Program: the test on the lpa -/

theorem oob_u64_lt (O : Nat → Nat) (i : Nat) : oob_u64 O i < U64 := by
  unfold oob_u64 U64
  simp only [List.range, List.range.loop, List.foldr]
  omega

/-- The test of the program on an `int64_t` lpa holds exactly for the words
whose top bit is set. -/
theorem lpa_invalid_i64_iff (v : Nat) : lpa_invalid_i64 v = true ↔ 2 ^ 63 ≤ v % U64 := by
  unfold lpa_invalid_i64 to_int64
  have hlt : v % U64 < U64 := Nat.mod_lt _ (by unfold U64; positivity)
  unfold U64 at *
  by_cases h : v % 2 ^ 64 < 2 ^ 63
  · rw [if_pos h]
    simp only [Bool.or_eq_true, decide_eq_true_eq]
    constructor
    · rintro (h1 | h1)
      · omega
      · omega
    · intro h2; omega
  · rw [if_neg h]
    simp only [Bool.or_eq_true, decide_eq_true_eq]
    constructor
    · intro _; omega
    · intro _; left; push_cast; omega

/-- C24 (amended). OOB lpa sentinel in program: in subpage-mode, for every
64-bit OOB value `v` of sub-page `i`, `__ramssd_prog_page` skips sub-page `i`
on account of its lpa if and only if `v >= 2 ^ 63`, that is, if and only if
the lpa is negative as `int64_t`; the all-ones value is one of these, so it
is the check `lpa == 0xFFFFFFFFFFFFFFFF` that adds nothing beyond the signed
test.  A sub-page flagged `DATA` whose lpa is below `2 ^ 63` is written, and
one whose lpa is `2 ^ 63` or more is left as it was. -/
theorem prog_skips_negative_lpa (pf : platform_t) (np : bdbm_device_params_t)
    (kp : Nat → Nat) (O : Nat → Nat) (i : Nat)
    (hmode : np.nr_subpages_per_block ≠ np.nr_pages_per_block) :
    (lpa_invalid_i64 (oob_u64 O i) = true ↔ 2 ^ 63 ≤ oob_u64 O i) ∧
    (lpa_invalid_i64 (oob_u64 O i) = true ↔ to_int64 (oob_u64 O i) < 0) ∧
    (oob_u64 O i = 0xffffffffffffffff → to_int64 (oob_u64 O i) < 0) ∧
    (kp i = pf.KP_STT_DATA →
      (prog_skips pf np kp O i = true ↔ 2 ^ 63 ≤ oob_u64 O i)) ∧
    (2 ^ 63 ≤ oob_u64 O i →
      ∀ (ssdram shadow : Nat → Nat) (ch chip blk pg : Nat) (bufs : Nat → Nat → Nat)
        (oob j : Nat), i < nr_kpages pf np → j < pf.KERNEL_PAGE_SIZE →
        (__ramssd_prog_page pf np ssdram shadow ch chip blk pg kp bufs O oob).ptr_ssdram
          (page_offset np ch chip blk pg + pf.KERNEL_PAGE_SIZE * i + j)
          = ssdram (page_offset np ch chip blk pg + pf.KERNEL_PAGE_SIZE * i + j)) := by
  have hmod : oob_u64 O i % U64 = oob_u64 O i := Nat.mod_eq_of_lt (oob_u64_lt O i)
  have h1 : lpa_invalid_i64 (oob_u64 O i) = true ↔ 2 ^ 63 ≤ oob_u64 O i := by
    rw [lpa_invalid_i64_iff, hmod]
  have hneg : to_int64 (oob_u64 O i) < 0 ↔ 2 ^ 63 ≤ oob_u64 O i := by
    unfold to_int64
    rw [hmod]
    have := oob_u64_lt O i
    unfold U64 at *
    by_cases h : oob_u64 O i < 2 ^ 63
    · rw [if_pos h]; constructor <;> intro _ <;> omega
    · rw [if_neg h]; constructor <;> intro _ <;> push_cast <;> omega
  refine ⟨h1, h1.trans hneg.symm, ?_, ?_, ?_⟩
  · intro hv
    rw [hneg, hv]
    decide
  · intro hk
    unfold prog_skips
    rw [← h1]
    by_cases hq : lpa_invalid_i64 (oob_u64 O i) = true
    · simp [hmode, hq]
    · simp [hmode, hq, hk]
  · intro hv ssdram shadow ch chip blk pg bufs oob j hi hj
    have hsk : prog_skips pf np kp O i = true :=
      prog_skips_gated pf np kp O i (Or.inr ⟨hmode, h1.mpr hv⟩)
    have hle := nr_kpages_mul_le pf np
    have hmul : pf.KERNEL_PAGE_SIZE * i + pf.KERNEL_PAGE_SIZE ≤
        pf.KERNEL_PAGE_SIZE * nr_kpages pf np := by
      calc pf.KERNEL_PAGE_SIZE * i + pf.KERNEL_PAGE_SIZE
          = pf.KERNEL_PAGE_SIZE * (i + 1) := by ring
        _ ≤ _ := Nat.mul_le_mul_left _ hi
    apply prog_page_frame
    · intro k hk
      by_cases hki : k = i
      · subst hki; exact Or.inl hsk
      · right
        rcases Nat.lt_or_gt_of_ne hki with h | h
        · right
          have : pf.KERNEL_PAGE_SIZE * (k + 1) ≤ pf.KERNEL_PAGE_SIZE * i :=
            Nat.mul_le_mul_left _ h
          rw [Nat.mul_add, Nat.mul_one] at this
          omega
        · left
          have : pf.KERNEL_PAGE_SIZE * (i + 1) ≤ pf.KERNEL_PAGE_SIZE * k :=
            Nat.mul_le_mul_left _ h
          rw [Nat.mul_add, Nat.mul_one] at this
          omega
    · right; left
      omega

/-- Witness of C24 (amended): sub-page 1 of a page of `geom_s3` whose lpa
word is `2 ^ 63`, flagged `DATA`. -/
theorem prog_skips_negative_lpa_witness :
    (prog_skips pf_ref geom_s3 (fun _ => 1) oob_lpa7_top 1 = true ↔
      2 ^ 63 ≤ oob_u64 oob_lpa7_top 1) ∧
    (__ramssd_prog_page pf_ref geom_s3 (fun _ => 0xFF) (fun _ => 0xFF) 0 0 0 0
        (fun _ => 1) (fun _ _ => 0x42) oob_lpa7_top 1).ptr_ssdram
      (page_offset geom_s3 0 0 0 0 + pf_ref.KERNEL_PAGE_SIZE * 1 + 5)
      = (fun _ => 0xFF) (page_offset geom_s3 0 0 0 0 + pf_ref.KERNEL_PAGE_SIZE * 1 + 5) :=
  ⟨(prog_skips_negative_lpa pf_ref geom_s3 (fun _ => 1) oob_lpa7_top 1 (by decide)).2.2.2.1 rfl,
   (prog_skips_negative_lpa pf_ref geom_s3 (fun _ => 1) oob_lpa7_top 1 (by decide)).2.2.2.2
     (by decide) (fun _ => 0xFF) (fun _ => 0xFF) 0 0 0 0 (fun _ _ => 0x42) 1 5
     (by decide) (by decide)⟩

/-- Counterexample to C24 as stated: in the subpage-mode geometry `geom_s3`
the lpa word of sub-page 1 is `2 ^ 63`, which is not the all-ones value, yet
the program skips the sub-page on account of it: the flag is `DATA`, sub-page
0 (lpa 7) receives `0x42`, and sub-page 1 keeps the `0xFF` of the store. -/
theorem prog_skips_lpa_with_top_bit :
    geom_s3.nr_subpages_per_block ≠ geom_s3.nr_pages_per_block ∧
    oob_u64 oob_lpa7_top 1 = 2 ^ 63 ∧
    oob_u64 oob_lpa7_top 1 ≠ 0xffffffffffffffff ∧
    lpa_invalid_i64 (oob_u64 oob_lpa7_top 1) = true ∧
    prog_skips pf_ref geom_s3 (fun _ => 1) oob_lpa7_top 1 = true ∧
    s3_prog_top.ret = 0 ∧
    s3_prog_top.ptr_ssdram 0 = 0x42 ∧
    s3_prog_top.ptr_ssdram 4096 = 0xFF := by
  refine ⟨by decide, by decide, by decide, by decide, by decide, by decide, by decide,
    by decide⟩

/-! ## Unknown modes -/

theorem timing_create_unknown (pf : platform_t) (ty : device_type_t) (env : alloc_env_t)
    (hrd : ty ≠ DEVICE_TYPE_RAMDRIVE) (hur : ty ≠ DEVICE_TYPE_USER_RAMDRIVE)
    (hk : pf.KERNEL_MODE = true →
      ty ≠ DEVICE_TYPE_RAMDRIVE_TIMING ∧ ty ≠ DEVICE_TYPE_RAMDRIVE_INTR) :
    __ramssd_timing_create pf ty env = 1 := by
  unfold __ramssd_timing_create
  cases ty with
  | DEVICE_TYPE_RAMDRIVE => exact absurd rfl hrd
  | DEVICE_TYPE_USER_RAMDRIVE => exact absurd rfl hur
  | DEVICE_TYPE_RAMDRIVE_TIMING =>
    cases hq : pf.KERNEL_MODE with
    | true => exact absurd rfl (hk hq).1
    | false => simp
  | DEVICE_TYPE_RAMDRIVE_INTR =>
    cases hq : pf.KERNEL_MODE with
    | true => exact absurd rfl (hk hq).2
    | false => simp
  | DEVICE_TYPE_OTHER c => rfl

theorem register_schedule_unknown (pf : platform_t) (ri : dev_ramssd_info_t)
    (clock : Nat → Nat)
    (hk : pf.KERNEL_MODE = true →
      ri.emul_mode ≠ DEVICE_TYPE_RAMDRIVE_TIMING ∧ ri.emul_mode ≠ DEVICE_TYPE_RAMDRIVE_INTR) :
    __ramssd_timing_register_schedule pf ri clock = __ramssd_cmd_done ri clock := by
  unfold __ramssd_timing_register_schedule __ramssd_timing_cmd_done
  split
  · rfl
  · rfl
  · rename_i hm
    cases hq : pf.KERNEL_MODE with
    | true => exact absurd hm (hk hq).1
    | false => simp
  · rename_i hm
    cases hq : pf.KERNEL_MODE with
    | true => exact absurd hm (hk hq).2
    | false => simp
  · rfl

/-- C25 (amended). Fallback mode: for every `device_type` that the build does
not recognise (none of `RAMDRIVE` and `USER_RAMDRIVE`, and in a `KERNEL_MODE`
build none of `RAMDRIVE_TIMING` and `RAMDRIVE_INTR`), `__ramssd_timing_create`
returns 1 and `dev_ramssd_create` returns no emulator.  On an emulator state
with such a mode `__ramssd_timing_register_schedule` takes its `default`
case: it runs the completion scan `__ramssd_cmd_done` inline, and so does
every successful `dev_ramssd_send_cmd` before it returns. -/
theorem unknown_mode_is_not_constructed (pf : platform_t) (np : bdbm_device_params_t)
    (env : alloc_env_t)
    (hrd : np.device_type ≠ DEVICE_TYPE_RAMDRIVE)
    (hur : np.device_type ≠ DEVICE_TYPE_USER_RAMDRIVE)
    (hk : pf.KERNEL_MODE = true →
      np.device_type ≠ DEVICE_TYPE_RAMDRIVE_TIMING ∧
      np.device_type ≠ DEVICE_TYPE_RAMDRIVE_INTR) :
    __ramssd_timing_create pf np.device_type env = 1 ∧
    dev_ramssd_create pf np env = none ∧
    (∀ (ri : dev_ramssd_info_t) (clock : Nat → Nat), ri.emul_mode = np.device_type →
      __ramssd_timing_register_schedule pf ri clock = __ramssd_cmd_done ri clock) ∧
    (∀ (ri : dev_ramssd_info_t) (rp : Nat) (r : bdbm_llm_req_t) (now : Nat)
        (delay : Nat → Nat), ri.emul_mode = np.device_type →
      (dev_ramssd_send_cmd pf ri rp r now delay).1 = 0 →
      (dev_ramssd_send_cmd pf ri rp r now delay).2.1 =
        __ramssd_cmd_done
          (register_req
            (note_bug_on (__ramssd_send_cmd pf ri r).2.1
              (target_elapsed_time (__ramssd_send_cmd pf ri r).2.1
                (__ramssd_send_cmd pf ri r).2.2).2)
            r.punit_id rp now
            (target_elapsed_time (__ramssd_send_cmd pf ri r).2.1
              (__ramssd_send_cmd pf ri r).2.2).1)
          (fun i => now + delay i)) := by
  have hc := timing_create_unknown pf np.device_type env hrd hur hk
  refine ⟨hc, ?_, ?_, ?_⟩
  · unfold dev_ramssd_create
    cases h1 : env.ri_ok with
    | false => simp
    | true =>
      cases h2 : __ramssd_alloc_ssdram np env with
      | none => simp
      | some mem =>
        cases h3 : env.punits_ok with
        | false => simp
        | true => simp [hc]
  · intro ri clock hm
    exact register_schedule_unknown pf ri clock (by rw [hm]; exact hk)
  · intro ri rp r now delay hm hret
    obtain ⟨hop, hfree⟩ := send_cmd_ret_zero pf ri rp r now delay hret
    obtain ⟨_, _, hm2, _, _, _, hid, _, _⟩ := send_cmd_page_op_frame pf ri r
    rw [send_cmd_of_free pf ri rp r now delay hop hfree]
    simp only [hid]
    apply register_schedule_unknown
    rw [(register_req_frame _ _ _ _ _).2.1, (note_bug_on_frame _ _).2.2.1, hm2, hm]
    exact hk

/-- Witness of C25 (amended): the scenario geometry with the unknown
`device_type` 99 in a kernel build, with an allocator that never fails. -/
theorem unknown_mode_is_not_constructed_witness :
    __ramssd_timing_create pf_ref geom_other.device_type env_ok = 1 ∧
    dev_ramssd_create pf_ref geom_other env_ok = none ∧
    __ramssd_timing_register_schedule pf_ref (ri_fresh geom_other) (fun _ => 0)
      = __ramssd_cmd_done (ri_fresh geom_other) (fun _ => 0) :=
  ⟨(unknown_mode_is_not_constructed pf_ref geom_other env_ok (by decide) (by decide)
      (fun _ => ⟨by decide, by decide⟩)).1,
   (unknown_mode_is_not_constructed pf_ref geom_other env_ok (by decide) (by decide)
      (fun _ => ⟨by decide, by decide⟩)).2.1,
   (unknown_mode_is_not_constructed pf_ref geom_other env_ok (by decide) (by decide)
      (fun _ => ⟨by decide, by decide⟩)).2.2.1 (ri_fresh geom_other) (fun _ => 0) rfl⟩

/-- Counterexample to C25 as stated: for the unknown `device_type` 99, with
every allocation succeeding, `dev_ramssd_create` returns no emulator, whereas
the same geometry in mode `RAMDRIVE` is constructed. -/
theorem create_fails_on_unknown_mode :
    geom_other.device_type = DEVICE_TYPE_OTHER 99 ∧
    __ramssd_timing_create pf_ref geom_other.device_type env_ok = 1 ∧
    (dev_ramssd_create pf_ref geom_other env_ok).isSome = false ∧
    (dev_ramssd_create pf_ref geom_s1 env_ok).isSome = true := by
  refine ⟨by decide, by decide, by decide, by decide⟩

/-! ## Submitter library: the wait -/

/-- A run of busy polls that does not bring `j` to 500000 only counts. -/
theorem wait_loop_busy_run (mio : memio_t) (try_lock : Nat → Nat → Bool) (fuel : Nat) :
    ∀ (n : Nat) (s : memio_wait_t), s.i < mio.nr_punits → s.j + n < 500000 →
      (∀ k, k < n → try_lock (s.polls + k) s.i = false) →
      wait_loop mio try_lock (n + fuel) s =
        wait_loop mio try_lock fuel { s with j := s.j + n, polls := s.polls + n } := by
  intro n
  induction n with
  | zero => intro s _ _ _; simp
  | succ k ih =>
    intro s hi hj hbusy
    have h0 : try_lock s.polls s.i = false := by
      have := hbusy 0 (by omega)
      simpa using this
    rw [show k + 1 + fuel = (k + fuel) + 1 by omega, wait_loop, if_pos hi]
    simp only [h0, Bool.not_false, if_true]
    rw [if_neg (by omega)]
    rw [ih { s with j := s.j + 1, polls := s.polls + 1 } hi (by simp only []; omega)
      (fun m hm => by
        have := hbusy (m + 1) (by omega)
        simp only []
        rw [show s.polls + 1 + m = s.polls + (m + 1) by omega]
        exact this)]
    simp only [Nat.add_assoc, Nat.add_comm 1 k]

/-- C26, the code at the failing input: the session of `memio_open` (64
handles) and the poll outcomes `try_lock_late0`.  Handle 0 is busy for 499999
polls and then found free (poll 499999); handle 1 is polled for the first
time at poll 500000, found busy, and re-issued by that very poll, after one
busy poll of its own, because `j` still holds the 499999 busy polls of
handle 0; it is found free at poll 500001, the other handles are found free
at once, and the wait returns after 500064 polls with that one re-issue. -/
theorem memio_wait_reissues_after_one_poll :
    (memio_wait mio_ref try_lock_late0 500064).map
      (fun s => (s.reissued, s.seen_free.take 2, s.seen_free.length, s.polls))
      = some ([(1, 500000)], [(0, 499999), (1, 500001)], 64, 500064) := by
  unfold memio_wait
  rw [show (500064 : Nat) = 499999 + 65 by rfl,
    wait_loop_busy_run mio_ref try_lock_late0 65 499999
      { i := 0, j := 0, polls := 0, reissued := [], seen_free := [] }
      (by decide) (by decide)
      (fun k hk => by
        simp only [try_lock_late0, Nat.zero_add]
        have : ¬ (499999 ≤ k) := by omega
        simp [this])]
  decide

/-! ## Submit and program: what a call leaves behind -/

/-- C27. A failed submit is not atomic: `dev_ramssd_send_cmd` runs the page
operation before it looks at the parallel unit, so whenever the page
operation succeeds on an occupied unit the call returns 1 with the backing
store and the shadow as the page operation left them and `request.ret = 0`,
the slots untouched; and there are a state and a `WRITE` request to an
occupied unit (`ri_unit3_busy` and `req_punit3`) for which the call returns
non-zero while a byte of the backing store and a byte of the shadow have
changed and `request.ret` is 0. -/
theorem failed_submit_is_not_atomic :
    (∀ (pf : platform_t) (ri : dev_ramssd_info_t) (rp : Nat) (r : bdbm_llm_req_t)
        (now : Nat) (delay : Nat → Nat),
      (__ramssd_send_cmd pf ri r).1 = 0 → (ri.ptr_punits r.punit_id).ptr_req ≠ none →
      (dev_ramssd_send_cmd pf ri rp r now delay).1 = 1 ∧
      (dev_ramssd_send_cmd pf ri rp r now delay).2.1.ptr_ssdram
        = (__ramssd_send_cmd pf ri r).2.1.ptr_ssdram ∧
      (dev_ramssd_send_cmd pf ri rp r now delay).2.1.ptr_ramssd_data
        = (__ramssd_send_cmd pf ri r).2.1.ptr_ramssd_data ∧
      (dev_ramssd_send_cmd pf ri rp r now delay).2.2.ret = 0 ∧
      (dev_ramssd_send_cmd pf ri rp r now delay).2.1.ptr_punits = ri.ptr_punits) ∧
    (∃ (ri : dev_ramssd_info_t) (r : bdbm_llm_req_t),
      r.req_type = REQTYPE_WRITE ∧
      (ri.ptr_punits r.punit_id).ptr_req ≠ none ∧
      (dev_ramssd_send_cmd pf_ref ri 1001 r 0 (fun _ => 0)).1 ≠ 0 ∧
      (∃ a, (dev_ramssd_send_cmd pf_ref ri 1001 r 0 (fun _ => 0)).2.1.ptr_ssdram a
        ≠ ri.ptr_ssdram a) ∧
      (∃ a, (dev_ramssd_send_cmd pf_ref ri 1001 r 0 (fun _ => 0)).2.1.ptr_ramssd_data a
        ≠ ri.ptr_ramssd_data a) ∧
      (dev_ramssd_send_cmd pf_ref ri 1001 r 0 (fun _ => 0)).2.2.ret = 0) := by
  constructor
  · intro pf ri rp r now delay hop hbusy
    obtain ⟨s1, s2, _, _, s5⟩ := send_cmd_stores pf ri rp r now delay
    obtain ⟨hp, _, _, _, _, _, _, _, hret⟩ := send_cmd_page_op_frame pf ri r
    refine ⟨?_, s1, s2, ?_, ?_⟩
    · rw [send_cmd_of_busy pf ri rp r now delay hop hbusy]
    · rw [s5, hret, hop]
    · rw [send_cmd_of_busy pf ri rp r now delay hop hbusy, (note_bug_on_frame _ _).1, hp]
  · refine ⟨ri_unit3_busy, req_punit3 REQTYPE_WRITE, rfl, by decide, by decide,
      ⟨page_offset geom_s1 1 1 0 0, by decide⟩, ⟨28672, by decide⟩, by decide⟩

/-- Witness of C27: the `WRITE` request `req_punit3` on `ri_unit3_busy`
returns 1, and byte 0 of page (1, 1, 0, 0) holds `0x42` afterwards. -/
theorem failed_submit_is_not_atomic_witness :
    (dev_ramssd_send_cmd pf_ref ri_unit3_busy 1001 (req_punit3 REQTYPE_WRITE)
      0 (fun _ => 0)).1 = 1 ∧
    (dev_ramssd_send_cmd pf_ref ri_unit3_busy 1001 (req_punit3 REQTYPE_WRITE)
      0 (fun _ => 0)).2.2.ret = 0 ∧
    (dev_ramssd_send_cmd pf_ref ri_unit3_busy 1001 (req_punit3 REQTYPE_WRITE)
      0 (fun _ => 0)).2.1.ptr_ssdram (page_offset geom_s1 1 1 0 0) = 0x42 ∧
    ri_unit3_busy.ptr_ssdram (page_offset geom_s1 1 1 0 0) = 0xFF :=
  ⟨(failed_submit_is_not_atomic.1 pf_ref ri_unit3_busy 1001 (req_punit3 REQTYPE_WRITE)
      0 (fun _ => 0) (by decide) (by decide)).1,
   (failed_submit_is_not_atomic.1 pf_ref ri_unit3_busy 1001 (req_punit3 REQTYPE_WRITE)
      0 (fun _ => 0) (by decide) (by decide)).2.2.2.1,
   by decide, by decide⟩

/-- A program changes no byte outside the range
`[offset, offset + page_main_size + page_oob_size)` of the address it is
given. -/
theorem prog_page_outside_range (pf : platform_t) (np : bdbm_device_params_t)
    (ssdram shadow : Nat → Nat) (ch chip blk pg : Nat)
    (kp : Nat → Nat) (bufs : Nat → Nat → Nat) (O : Nat → Nat) (oob a : Nat)
    (ha : a < page_offset np ch chip blk pg ∨
      page_offset np ch chip blk pg + np.page_main_size + np.page_oob_size ≤ a) :
    (__ramssd_prog_page pf np ssdram shadow ch chip blk pg kp bufs O oob).ptr_ssdram a
      = ssdram a := by
  have hle := nr_kpages_mul_le pf np
  apply prog_page_frame
  · intro i hi
    right
    have hmul : pf.KERNEL_PAGE_SIZE * (i + 1) ≤ pf.KERNEL_PAGE_SIZE * nr_kpages pf np :=
      Nat.mul_le_mul_left _ hi
    rw [Nat.mul_add, Nat.mul_one] at hmul
    rcases ha with h | h
    · left; omega
    · right; omega
  · right
    rcases ha with h | h
    · left; omega
    · right; exact h

/-- A read request leaves the emulator as it was. -/
theorem send_cmd_read_frame (pf : platform_t) (ri : dev_ramssd_info_t) (r : bdbm_llm_req_t)
    (hty : r.req_type = REQTYPE_READ ∨ r.req_type = REQTYPE_META_READ ∨
      r.req_type = REQTYPE_GC_READ ∨ r.req_type = REQTYPE_RMW_READ) :
    (__ramssd_send_cmd pf ri r).2.1 = ri := by
  unfold __ramssd_send_cmd
  rcases hty with h | h | h | h <;> simp [h, send_cmd_read]

/-- C28 (amended). Program frame: `__ramssd_prog_page` modifies backing-store
bytes only inside the range
`[offset, offset + page_main_size + page_oob_size)` of its target address,
for every address, flags and buffers; for every geometry whose size
`nr_channels * nr_chips_per_channel * nr_blocks_per_chip * nr_pages_per_block
* (page_main_size + page_oob_size)` is below `2 ^ 64` and every in-range
target page, every byte of every other in-range page is unchanged; and a read
(`__ramssd_read_page`, reached through a read request of `__ramssd_send_cmd`)
modifies no byte of the backing store, nor anything else of the emulator. -/
theorem prog_page_changes_only_its_page (pf : platform_t) (np : bdbm_device_params_t)
    (ssdram shadow : Nat → Nat) (ch chip blk pg : Nat)
    (kp : Nat → Nat) (bufs : Nat → Nat → Nat) (O : Nat → Nat) (oob : Nat)
    (hsz : np.nr_channels * np.nr_chips_per_channel * np.nr_blocks_per_chip
        * np.nr_pages_per_block * (np.page_main_size + np.page_oob_size) < U64)
    (hch : ch < np.nr_channels) (hchip : chip < np.nr_chips_per_channel)
    (hblk : blk < np.nr_blocks_per_chip) (hpg : pg < np.nr_pages_per_block) :
    (∀ a, (a < page_offset np ch chip blk pg ∨
        page_offset np ch chip blk pg + np.page_main_size + np.page_oob_size ≤ a) →
      (__ramssd_prog_page pf np ssdram shadow ch chip blk pg kp bufs O oob).ptr_ssdram a
        = ssdram a) ∧
    (∀ ch2 chip2 blk2 pg2 b, ch2 < np.nr_channels → chip2 < np.nr_chips_per_channel →
      blk2 < np.nr_blocks_per_chip → pg2 < np.nr_pages_per_block →
      (ch2, chip2, blk2, pg2) ≠ (ch, chip, blk, pg) →
      b < np.page_main_size + np.page_oob_size →
      (__ramssd_prog_page pf np ssdram shadow ch chip blk pg kp bufs O oob).ptr_ssdram
          (page_offset np ch2 chip2 blk2 pg2 + b)
        = ssdram (page_offset np ch2 chip2 blk2 pg2 + b)) ∧
    (∀ (ri : dev_ramssd_info_t) (r : bdbm_llm_req_t),
      (r.req_type = REQTYPE_READ ∨ r.req_type = REQTYPE_META_READ ∨
        r.req_type = REQTYPE_GC_READ ∨ r.req_type = REQTYPE_RMW_READ) →
      (__ramssd_send_cmd pf ri r).2.1.ptr_ssdram = ri.ptr_ssdram) := by
  refine ⟨fun a ha =>
    prog_page_outside_range pf np ssdram shadow ch chip blk pg kp bufs O oob a ha, ?_, ?_⟩
  · intro ch2 chip2 blk2 pg2 b hch2 hchip2 hblk2 hpg2 hne hb
    apply prog_page_outside_range
    have e1 := (page_offset_exact np ch chip blk pg hsz hch hchip hblk hpg).1
    have e2 := (page_offset_exact np ch2 chip2 blk2 pg2 hsz hch2 hchip2 hblk2 hpg2).1
    have hidx : page_index np ch2 chip2 blk2 pg2 ≠ page_index np ch chip blk pg := by
      intro h
      obtain ⟨q1, q2, q3, q4⟩ :=
        page_index_inj np ch2 chip2 blk2 pg2 ch chip blk pg hchip2 hblk2 hpg2 hchip hblk hpg h
      exact hne (by rw [q1, q2, q3, q4])
    rw [e1, e2]
    rcases Nat.lt_or_gt_of_ne hidx with h | h
    · left
      have : (page_index np ch2 chip2 blk2 pg2 + 1) * (np.page_main_size + np.page_oob_size)
          ≤ page_index np ch chip blk pg * (np.page_main_size + np.page_oob_size) :=
        Nat.mul_le_mul_right _ h
      rw [Nat.add_mul, Nat.one_mul] at this
      omega
    · right
      have : (page_index np ch chip blk pg + 1) * (np.page_main_size + np.page_oob_size)
          ≤ page_index np ch2 chip2 blk2 pg2 * (np.page_main_size + np.page_oob_size) :=
        Nat.mul_le_mul_right _ h
      rw [Nat.add_mul, Nat.one_mul] at this
      omega
  · intro ri r hty
    rw [send_cmd_read_frame pf ri r hty]

/-- Witness of C28 (amended): on the scenario geometry a program of page
(1, 0, 1, 2) with buffer `0x42` leaves byte 100 of page (0, 1, 1, 3) as it
was, and a read request leaves the store as it was. -/
theorem prog_page_changes_only_its_page_witness :
    (__ramssd_prog_page pf_ref geom_s1 (fun _ => 0xFF) (fun _ => 0xFF) 1 0 1 2
        (fun _ => 1) (fun _ _ => 0x42) oob_lpa7 1).ptr_ssdram
        (page_offset geom_s1 0 1 1 3 + 100)
      = (fun _ => 0xFF) (page_offset geom_s1 0 1 1 3 + 100) ∧
    (__ramssd_send_cmd pf_ref (ri_fresh geom_s1) (req_punit3 REQTYPE_READ)).2.1.ptr_ssdram
      = (ri_fresh geom_s1).ptr_ssdram :=
  ⟨(prog_page_changes_only_its_page pf_ref geom_s1 (fun _ => 0xFF) (fun _ => 0xFF) 1 0 1 2
      (fun _ => 1) (fun _ _ => 0x42) oob_lpa7 1 (by decide) (by decide) (by decide)
      (by decide) (by decide)).2.1 0 1 1 3 100 (by decide) (by decide) (by decide)
      (by decide) (by decide) (by decide),
   (prog_page_changes_only_its_page pf_ref geom_s1 (fun _ => 0xFF) (fun _ => 0xFF) 1 0 1 2
      (fun _ => 1) (fun _ _ => 0x42) oob_lpa7 1 (by decide) (by decide) (by decide)
      (by decide) (by decide)).2.2 (ri_fresh geom_s1) (req_punit3 REQTYPE_READ) (Or.inl rfl)⟩

/-- Counterexample to C28 as stated: in the geometry `geom_alias` the store
has 8192 bytes, the size having wrapped, and the in-range pages
(2 ^ 51, 0, 0, 0) and (0, 0, 0, 0) both lie at offset 0 inside it.  A program
of page (2 ^ 51, 0, 0, 0) with buffer `0x42` returns 0 and changes byte 0 of
the other page (0, 0, 0, 0) from `0xFF` to `0x42`. -/
theorem prog_page_changes_aliased_page :
    (2 ^ 51 < geom_alias.nr_channels ∧ 0 < geom_alias.nr_chips_per_channel ∧
      0 < geom_alias.nr_blocks_per_chip ∧ 0 < geom_alias.nr_pages_per_block) ∧
    ((0, 0, 0, 0) : Nat × Nat × Nat × Nat) ≠ (2 ^ 51, 0, 0, 0) ∧
    ssd_size_in_bytes geom_alias = 8192 ∧
    page_offset geom_alias (2 ^ 51) 0 0 0 = 0 ∧
    page_offset geom_alias 0 0 0 0 = 0 ∧
    page_offset geom_alias (2 ^ 51) 0 0 0 + geom_alias.page_main_size
      + geom_alias.page_oob_size ≤ ssd_size_in_bytes geom_alias ∧
    (__ramssd_prog_page pf_ref geom_alias (fun _ => 0xFF) (fun _ => 0xFF) (2 ^ 51) 0 0 0
      (fun _ => 1) (fun _ _ => 0x42) oob_lpa7 1).ret = 0 ∧
    (__ramssd_prog_page pf_ref geom_alias (fun _ => 0xFF) (fun _ => 0xFF) (2 ^ 51) 0 0 0
      (fun _ => 1) (fun _ _ => 0x42) oob_lpa7 1).ptr_ssdram
      (page_offset geom_alias 0 0 0 0 + 0) = 0x42 ∧
    (fun (_ : Nat) => 0xFF) (page_offset geom_alias 0 0 0 0 + 0) ≠ 0x42 := by
  refine ⟨by decide, by decide, by decide, by decide, by decide, by decide, by decide,
    by decide, by decide⟩

end RamSSD
